import Mathlib

/-!
# Jeux game server: a verification development

A shallow embedding of the game engine (`game.c`), of the per-client
invitation list and the client operations on invitations (`client.c`), of the
client registry (`client_registry.c`), of the player registry
(`player_registry.c`), of invitations (`invitation.c`), of the rating update
(`player.c`), of the wire codec (`protocol.c`) and of the service loop
(`server.c`), followed by theorems about them.

Conventions of the embedding

* A C function that mutates an object through a pointer and returns an `int`
  becomes a function from the old state to the pair (new state, return value).
* The calls are issued one at a time, each after the one before it has returned.
  The mutex `lock` of every client is part of the server state: a call that
  locks a mutex that is locked waits for ever, since no other call is running
  that could unlock it, and a path that returns without unlocking leaves the
  mutex locked for all later calls.  The mutexes of the registries, of the
  invitations, of the games and of the players, reference counts and debug
  printing are not modelled; in the calls modelled here no reference count
  reaches zero.  The functions that are given on a registry alone
  (`client_login`, `client_logout`, `creg_unregister`) are the bodies without the
  client mutex; the server state adds it (`client_login_waits`,
  `world_client_logout`).  In the section on the order of the writes of two
  sending threads the sending functions are given as sequences of lock, unlock
  and write steps.
* `malloc` is taken to succeed; sizes of allocations are not modelled.  What is
  read from memory that the program has not written, or has freed, is a
  parameter.
* A call that does not return has no result, and the function that models it
  returns `none`: the call dereferences a `NULL` or dangling pointer, or it
  waits for a mutex.  `client_make_move` and `client_resign_game` tell these
  apart and give the state in which the call waits (`Outcome`).
* The `double` arithmetic of the rating update is modelled by exact rational
  arithmetic.
-/

namespace Jeux

/-! ## Game engine (`game.c`) -/

/-- Modelled from the spec: the enumeration `GAME_ROLE` is declared in `game.h`,
which is not part of the sources.  The wire format gives the numbering
0 = none, 1 = first player, 2 = second player. -/
inductive GAME_ROLE where
  | NULL_ROLE
  | FIRST_PLAYER_ROLE
  | SECOND_PLAYER_ROLE
  deriving DecidableEq, Repr

open GAME_ROLE

/-- Numeric value of a role, as stored in the `role` byte of a packet header. -/
def GAME_ROLE.toInt : GAME_ROLE → Int
  | NULL_ROLE => 0
  | FIRST_PLAYER_ROLE => 1
  | SECOND_PLAYER_ROLE => 2

/-- Modelled from the spec: `GAME_MOVE` is declared in `game.h` (absent); the two
fields are the ones `game_parse_move` writes. -/
structure GAME_MOVE where
  value : Int
  role : GAME_ROLE
  deriving DecidableEq, Repr

/-- Modelled from the spec: `GAME` is declared in `game.h` (absent); the fields are
the ones `game_create` initialises.  `game_board` is the array
`int game_board[3][3]`, read and written only at indices 0..2; a cell holds
0 (empty), 1 (first player, X) or -1 (second player, O).  The flags `game_over`,
`first_player_resigned` and `second_player_resigned` are only ever assigned 0 or 1
and only tested for being non-zero.  `last_move` is a pointer that is `NULL` or
points to a move. -/
structure GAME where
  game_board : Int → Int → Int
  current_role : GAME_ROLE
  game_over : Bool
  first_player_resigned : Bool
  second_player_resigned : Bool
  last_move : Option GAME_MOVE
  refcount : Int
  id : Int

/-- The assignment `game_board[r][c] = v`. -/
def board_set (b : Int → Int → Int) (r c v : Int) : Int → Int → Int :=
  fun i j => if i = r ∧ j = c then v else b i j

/-- Sum `game_board[i][0] + game_board[i][1] + game_board[i][2]`. -/
def row_sum (g : GAME) (i : Int) : Int :=
  g.game_board i 0 + g.game_board i 1 + g.game_board i 2

/-- Sum `game_board[0][i] + game_board[1][i] + game_board[2][i]`. -/
def col_sum (g : GAME) (i : Int) : Int :=
  g.game_board 0 i + g.game_board 1 i + g.game_board 2 i

/-- The first loop of `check_game_over` (lines 34-56), run over the remaining
indices; the value is `res` when the loop is left. -/
def check_lines_loop (g : GAME) : List Int → Int
  | [] => 0
  | i :: rest =>
    if row_sum g i = 3 then 1
    else if col_sum g i = 3 then 1
    else if row_sum g i = -3 then 2
    else if col_sum g i = -3 then 2
    else check_lines_loop g rest

/-- The diagonal tests of `check_game_over` (lines 61-76). -/
def check_diagonals (g : GAME) : Int :=
  if g.game_board 0 0 + g.game_board 1 1 + g.game_board 2 2 = 3 then 1
  else if g.game_board 0 2 + g.game_board 1 1 + g.game_board 2 0 = 3 then 1
  else if g.game_board 0 0 + g.game_board 1 1 + g.game_board 2 2 = -3 then 2
  else if g.game_board 0 2 + g.game_board 1 1 + g.game_board 2 0 = -3 then 2
  else 0

/-- The nested loops of lines 82-91: is some cell equal to 0? -/
def found_zero (g : GAME) : Bool :=
  [0, 1, 2].any fun i => [0, 1, 2].any fun j => decide (g.game_board i j = 0)

/-- `check_game_over` (game.c, lines 20-106): new state and returned code. -/
def check_game_over (g : GAME) : GAME × Int :=
  if g.first_player_resigned || g.second_player_resigned then
    ({ g with game_over := true }, 1)
  else
    let res := check_lines_loop g [0, 1, 2]
    let res := if res = 0 then check_diagonals g else res
    let res := if res = 0 then (if !found_zero g then 3 else res) else res
    if res ≠ 0 then ({ g with game_over := true }, res) else (g, 0)

/-- `game_create` (lines 115-138), on the path where the allocation succeeds. -/
def game_create : GAME :=
  { game_board := fun _ _ => 0
    current_role := FIRST_PLAYER_ROLE
    game_over := false
    first_player_resigned := false
    second_player_resigned := false
    last_move := none
    refcount := 1
    id := 0 }

/-- `game_apply_move` (lines 201-253).  The row and column are computed with
integer division and remainder of a value already known to be in 1..9. -/
def game_apply_move (g : GAME) (move : GAME_MOVE) : GAME × Int :=
  if g.game_over then (g, -1)
  else if move.value < 1 ∨ move.value > 9 then (g, -1)
  else if (match g.last_move with
           | some lm => decide (lm.value = move.value)
           | none => false) then (g, -1)
  else
    let r := (move.value - 1) / 3
    let c := (move.value - 1) % 3
    match g.current_role with
    | FIRST_PLAYER_ROLE =>
      if g.first_player_resigned then (g, -1)
      else
        ((check_game_over
            { g with last_move := some move
                     current_role := SECOND_PLAYER_ROLE
                     game_board := board_set g.game_board r c 1 }).1, 0)
    | SECOND_PLAYER_ROLE =>
      if g.second_player_resigned then (g, -1)
      else
        ((check_game_over
            { g with last_move := some move
                     current_role := FIRST_PLAYER_ROLE
                     game_board := board_set g.game_board r c (-1) }).1, 0)
    | NULL_ROLE => ((check_game_over g).1, 0)

/-- `game_is_over` (lines 261-270). -/
def game_is_over (g : GAME) : Bool := g.game_over

/-- `game_get_winner` (lines 279-320).  The call of `check_game_over` may write
`game_over`, so the state is returned as well. -/
def game_get_winner (g : GAME) : GAME × GAME_ROLE :=
  if g.first_player_resigned then (g, SECOND_PLAYER_ROLE)
  else if g.second_player_resigned then (g, FIRST_PLAYER_ROLE)
  else if !g.game_over then (g, NULL_ROLE)
  else
    let r := check_game_over g
    if r.1.first_player_resigned then (r.1, SECOND_PLAYER_ROLE)
    else if r.1.second_player_resigned then (r.1, FIRST_PLAYER_ROLE)
    else if r.2 = 1 then (r.1, FIRST_PLAYER_ROLE)
    else if r.2 = 2 then (r.1, SECOND_PLAYER_ROLE)
    else if r.2 = 3 then (r.1, NULL_ROLE)
    else (r.1, NULL_ROLE)

/-- `game_resign` (lines 343-382). -/
def game_resign (g : GAME) (role : GAME_ROLE) : GAME × Int :=
  if g.game_over then (g, -1)
  else
    match role with
    | FIRST_PLAYER_ROLE =>
      let g1 := { g with first_player_resigned := true }
      (if g1.first_player_resigned || g1.second_player_resigned
        then { g1 with game_over := true } else g1, 0)
    | SECOND_PLAYER_ROLE =>
      let g1 := { g with second_player_resigned := true }
      (if g1.first_player_resigned || g1.second_player_resigned
        then { g1 with game_over := true } else g1, 0)
    | NULL_ROLE => (g, -1)

/-- C library `isspace` in the default locale: space and the codes 9..13. -/
def isspace (c : Char) : Bool :=
  c.toNat = 32 || (9 ≤ c.toNat && c.toNat ≤ 13)

/-- The digit loop of the C library `atoi`: accumulate decimal digits until the
first character that is not one. -/
def atoi_digits : List Char → Int → Int
  | [], acc => acc
  | c :: cs, acc =>
    if 48 ≤ c.toNat ∧ c.toNat ≤ 57 then atoi_digits cs (acc * 10 + ((c.toNat : Int) - 48))
    else acc

/-- C library `atoi`: leading white space, an optional sign, decimal digits.
Values outside the range of `int` are not modelled. -/
def atoi (s : List Char) : Int :=
  match s.dropWhile isspace with
  | '-' :: cs => - atoi_digits cs 0
  | '+' :: cs => atoi_digits cs 0
  | cs => atoi_digits cs 0

/-- `game_parse_move` (lines 462-471): the value is `atoi(str)`, the role is the
one passed in; the game is not consulted and no string is rejected. -/
def game_parse_move (_game : GAME) (role : GAME_ROLE) (str : String) : Option GAME_MOVE :=
  some { value := atoi str.toList, role := role }

/-- One call on a game object, as issued by the rest of the server. -/
inductive GameCall where
  | apply_move (m : GAME_MOVE)
  | resign (r : GAME_ROLE)
  | get_winner
  deriving DecidableEq, Repr

/-- State of the game after one call. -/
def GameCall.exec (g : GAME) : GameCall → GAME
  | .apply_move m => (game_apply_move g m).1
  | .resign r => (game_resign g r).1
  | .get_winner => (game_get_winner g).1

/-- State of the game after a sequence of calls, issued left to right. -/
def game_run (g : GAME) (cs : List GameCall) : GAME :=
  cs.foldl GameCall.exec g

/-! ### Specification vocabulary for the board -/

/-- The eight lines of the board: three rows, three columns, two diagonals. -/
def board_lines : List (List (Int × Int)) :=
  [ [(0, 0), (0, 1), (0, 2)], [(1, 0), (1, 1), (1, 2)], [(2, 0), (2, 1), (2, 2)],
    [(0, 0), (1, 0), (2, 0)], [(0, 1), (1, 1), (2, 1)], [(0, 2), (1, 2), (2, 2)],
    [(0, 0), (1, 1), (2, 2)], [(0, 2), (1, 1), (2, 0)] ]

/-- Some row, column or diagonal has all three cells equal to `mark`. -/
def owns_line (b : Int → Int → Int) (mark : Int) : Bool :=
  board_lines.any fun l => l.all fun p => decide (b p.1 p.2 = mark)

/-- No cell of the board is empty. -/
def board_full (b : Int → Int → Int) : Bool :=
  [0, 1, 2].all fun i => [0, 1, 2].all fun j => decide (b i j ≠ 0)

/-- Every cell of the 3x3 board is EMPTY (0), FIRST (1) or SECOND (-1). -/
def board_valid (b : Int → Int → Int) : Prop :=
  ∀ i j : Int, 0 ≤ i → i < 3 → 0 ≤ j → j < 3 → b i j = 0 ∨ b i j = 1 ∨ b i j = -1

/-- Mark written on the board for a role: 1 for the first player (X), -1 for the
second player (O). -/
def role_mark : GAME_ROLE → Int
  | FIRST_PLAYER_ROLE => 1
  | SECOND_PLAYER_ROLE => -1
  | NULL_ROLE => 0

/-- The role that is not `r`. -/
def other_role : GAME_ROLE → GAME_ROLE
  | FIRST_PLAYER_ROLE => SECOND_PLAYER_ROLE
  | SECOND_PLAYER_ROLE => FIRST_PLAYER_ROLE
  | NULL_ROLE => NULL_ROLE

/-- What winner detection should report for a board, in the words of the
specification: 1 when FIRST owns a line, 2 when SECOND owns a line, otherwise 3
when no cell is empty, otherwise 0. -/
def spec_outcome (b : Int → Int → Int) : Int :=
  if owns_line b 1 then 1
  else if owns_line b (-1) then 2
  else if board_full b then 3
  else 0

/-- Role reported as the winner for an outcome code. -/
def outcome_role (res : Int) : GAME_ROLE :=
  if res = 1 then FIRST_PLAYER_ROLE
  else if res = 2 then SECOND_PLAYER_ROLE
  else NULL_ROLE

/-! ### Auxiliary definitions for the proofs about the game -/

/-- Code computed by the line and diagonal tests of `check_game_over`. -/
def lines_code (g : GAME) : Int :=
  if check_lines_loop g [0, 1, 2] = 0 then check_diagonals g else check_lines_loop g [0, 1, 2]

/-- Invariant of the game states the server can reach. -/
def game_inv (g : GAME) : Prop :=
  board_valid g.game_board ∧ g.current_role ≠ NULL_ROLE ∧
  g.game_over = (g.first_player_resigned || g.second_player_resigned ||
    owns_line g.game_board 1 || owns_line g.game_board (-1) || board_full g.game_board)

/-- The state written by a successful `game_apply_move` before the final call of
`check_game_over`. -/
def game_marked (g : GAME) (m : GAME_MOVE) : GAME :=
  { g with last_move := some m
           current_role := other_role g.current_role
           game_board := board_set g.game_board ((m.value - 1) / 3) ((m.value - 1) % 3)
             (role_mark g.current_role) }

/-- A position in which X owns the top row: X on 1, 2, 3 and O on 4, 5. -/
def x_row_game : GAME :=
  { game_create with
    game_board := fun i j => if i = 0 then 1 else if i = 1 ∧ j < 2 then -1 else 0 }

/-! ## Players and the player registry (`player.c`, `player_registry.c`) -/

/-- Modelled from the spec: `PLAYER_INITIAL_RATING` comes from `player.h`, which is
not part of the sources; the specification gives the initial rating 1500. -/
def PLAYER_INITIAL_RATING : Int := 1500

/-- Modelled from the spec: `PLAYER` is declared in `player.h` (absent); the fields
are the ones `player_create` initialises.  A player is named by its `name`, which
never changes; the registry keeps one object per name. -/
structure PLAYER where
  name : String
  rating : Int
  deriving DecidableEq, Repr

/-- `player_create` (player.c, lines 22-47). -/
def player_create (name : String) : PLAYER :=
  { name := name, rating := PLAYER_INITIAL_RATING }

/-- Modelled from the spec: `PLAYER_REGISTRY` is declared in a header that is
absent; it is the linked list `head` with its length `player_count`. -/
structure PLAYER_REGISTRY where
  head : List PLAYER
  player_count : Int
  deriving DecidableEq, Repr

/-- `preg_init` (player_registry.c, lines 16-34). -/
def preg_init : PLAYER_REGISTRY := { head := [], player_count := 0 }

/-- `preg_register` (lines 81-123): the first player of the list with that name,
or a new player linked in at the head. -/
def preg_register (preg : PLAYER_REGISTRY) (name : String) : PLAYER_REGISTRY × PLAYER :=
  match preg.head.find? (fun p => decide (p.name = name)) with
  | some p => (preg, p)
  | none =>
    ({ head := player_create name :: preg.head, player_count := preg.player_count + 1 },
      player_create name)

/-! ## Clients and their invitation lists (`client.c`) -/

/-- Modelled from the spec: `INVITATION_NODE` is declared in `client.h` (absent).
A node carries the local `id` and the pointer `invitation`; the `next` link is the
tail of the list.  An invitation pointer is represented by a number. -/
structure INVITATION_NODE where
  id : Int
  invitation : Nat
  deriving DecidableEq, Repr

/-- Modelled from the spec: `CLIENT` is declared in `client.h` (absent); the fields
are the ones `client_create` initialises.  `addr` stands for the address of the
object, which is what pointer comparisons such as `other_client != client`
compare.  `player` is `none` for the `NULL` pointer of a logged-out client. -/
structure CLIENT where
  addr : Nat
  fd : Int
  player : Option PLAYER
  invitations : List INVITATION_NODE
  deriving DecidableEq, Repr

/-- `client_create` (client.c, lines 23-41); `addr` is the address returned by
`malloc`. -/
def client_create (addr : Nat) (fd : Int) : CLIENT :=
  { addr := addr, fd := fd, player := none, invitations := [] }

/-- `client_get_player` (lines 238-257). -/
def client_get_player (c : CLIENT) : Option PLAYER := c.player

/-- The `while (iter->next != NULL)` loop of `client_add_invitation`
(lines 385-396), started at `iter`; the value is `id` when the loop is left.  The
loop body never runs for the last node of the list. -/
def add_invitation_loop : List INVITATION_NODE → Int → Bool → Int
  | [], id, _ => id
  | [_], id, _ => id
  | n :: m :: rest, id, gap_flag =>
    if !gap_flag && decide (n.id ≠ id) then add_invitation_loop (m :: rest) id true
    else add_invitation_loop (m :: rest) (id + 1) gap_flag

/-- `client_add_invitation` (lines 366-403): the new node is linked in at the end
of the list; the function returns 0 on every path, not the id. -/
def client_add_invitation (c : CLIENT) (inv : Nat) : CLIENT × Int :=
  match c.invitations with
  | [] => ({ c with invitations := [{ id := 0, invitation := inv }] }, 0)
  | n :: rest =>
    ({ c with invitations :=
        (n :: rest) ++ [{ id := add_invitation_loop (n :: rest) 0 false, invitation := inv }] },
      0)

/-- The search loop of `client_remove_invitation` (lines 430-434) followed by the
unlinking `prev->next = inv_node->next`, on the part of the list after `prev`:
`none` when no node points to `inv`. -/
def unlink_walk : List INVITATION_NODE → Nat → Option (List INVITATION_NODE)
  | [], _ => none
  | n :: rest, inv =>
    if n.invitation = inv then some rest
    else (unlink_walk rest inv).map (fun l => n :: l)

/-- `client_remove_invitation` (lines 415-446).  `none` stands for the
dereference of the `NULL` list head when the list is empty.  When the first node
points to `inv`, line 423 sets the list head to `NULL`, and the search that
follows fails. -/
def client_remove_invitation (c : CLIENT) (inv : Nat) : Option (CLIENT × Int) :=
  match c.invitations with
  | [] => none
  | n :: _ =>
    let c1 := if n.invitation = inv then { c with invitations := [] } else c
    match c1.invitations with
    | [] => some (c1, -1)
    | h :: t =>
      if h.invitation = inv then some (c1, 0)
      else
        match unlink_walk t inv with
        | none => some (c1, -1)
        | some t1 => some ({ c1 with invitations := h :: t1 }, 0)

/-- `client_find_invitation` (lines 548-569). -/
def client_find_invitation (c : CLIENT) (id : Int) : Option Nat :=
  (c.invitations.find? (fun n => decide (n.id = id))).map (fun n => n.invitation)

/-- `client_get_inv_id` (lines 571-589). -/
def client_get_inv_id (c : CLIENT) (inv : Nat) : Int :=
  match c.invitations.find? (fun n => decide (n.invitation = inv)) with
  | some n => n.id
  | none => -1

/-- One call that edits the invitation list of a client. -/
inductive InvListCall where
  | add (inv : Nat)
  | remove (inv : Nat)
  deriving DecidableEq, Repr

/-- The client after a sequence of list edits, `none` if one of them crashes. -/
def client_run_invitations : CLIENT → List InvListCall → Option CLIENT
  | c, [] => some c
  | c, .add inv :: rest => client_run_invitations (client_add_invitation c inv).1 rest
  | c, .remove inv :: rest =>
    match client_remove_invitation c inv with
    | none => none
    | some r => client_run_invitations r.1 rest

/-- The smallest non-negative integer that is not in the list `ids`. -/
def smallest_unused_id (ids : List Int) : Int :=
  match (List.range (ids.length + 1)).find? (fun n => decide ((n : Int) ∉ ids)) with
  | some n => (n : Int)
  | none => (ids.length : Int)

/-! ## Client registry (`client_registry.c`) -/

/-- Modelled from the spec: `MAX_CLIENTS` comes from `client_registry.h`, which is
not part of the sources; the specification names 64 as the configured maximum. -/
def MAX_CLIENTS : Int := 64

/-- Modelled from the spec: `CLIENT_REGISTRY` is declared in a header that is
absent.  `head` is the linked list of nodes, each holding a pointer to a client;
the client objects are kept in the list itself, identified by `addr`. -/
structure CLIENT_REGISTRY where
  head : List CLIENT
  client_count : Int
  deriving DecidableEq, Repr

/-- `creg_init` (client_registry.c, lines 21-36). -/
def creg_init : CLIENT_REGISTRY := { head := [], client_count := 0 }

/-- `creg_register` (lines 50-91); `addr` is the address of the client object
allocated by `client_create`.  The new node goes to the end of the list. -/
def creg_register (cr : CLIENT_REGISTRY) (fd : Int) (addr : Nat) :
    CLIENT_REGISTRY × Option CLIENT :=
  if cr.client_count ≥ MAX_CLIENTS then (cr, none)
  else
    ({ head := cr.head ++ [client_create addr fd], client_count := cr.client_count + 1 },
      some (client_create addr fd))

/-- The loop of `creg_unregister` (lines 115-133): unlink the first node whose
client has file descriptor `fd`; `none` when there is no such node. -/
def unregister_walk : List CLIENT → Int → Option (List CLIENT)
  | [], _ => none
  | c :: rest, fd =>
    if c.fd = fd then some rest
    else (unregister_walk rest fd).map (fun l => c :: l)

/-- `creg_unregister` (lines 106-138) for the client object at `client`; `none`
when no live client has that address.  The function returns 0 on every path. -/
def creg_unregister (cr : CLIENT_REGISTRY) (client : Nat) : Option (CLIENT_REGISTRY × Int) :=
  match cr.head.find? (fun c => decide (c.addr = client)) with
  | none => none
  | some c =>
    match unregister_walk cr.head c.fd with
    | some l => some ({ head := l, client_count := cr.client_count - 1 }, 0)
    | none => some (cr, 0)

/-- The loop of `creg_lookup` (lines 297-301): it advances only over clients that
are logged in under a different name, and stops at the first client that is
logged out or is logged in as `user`. -/
def creg_lookup_loop : List CLIENT → String → Option CLIENT
  | [], _ => none
  | c :: rest, user =>
    match client_get_player c with
    | none => some c
    | some p => if p.name = user then some c else creg_lookup_loop rest user

/-- `creg_lookup` (lines 289-312). -/
def creg_lookup (cr : CLIENT_REGISTRY) (user : String) : Option CLIENT :=
  creg_lookup_loop cr.head user

/-- The assignment `client->player = p` on the client object at `client`. -/
def creg_set_player (cr : CLIENT_REGISTRY) (client : Nat) (p : Option PLAYER) :
    CLIENT_REGISTRY :=
  { cr with head := cr.head.map fun c => if c.addr = client then { c with player := p } else c }

/-- `client_login` (client.c, lines 105-161) for the client object at `client`,
whose `registry` field is `cr`; `none` when no live client has that address. -/
def client_login (cr : CLIENT_REGISTRY) (client : Nat) (player : Option PLAYER) :
    Option (CLIENT_REGISTRY × Int) :=
  match player with
  | none => some (cr, -1)
  | some p =>
    match cr.head.find? (fun c => decide (c.addr = client)) with
    | none => none
    | some c =>
      if c.player.isSome then some (cr, -1)
      else
        match creg_lookup cr p.name with
        | some other =>
          if other.addr ≠ client then some (cr, -1)
          else some (creg_set_player cr client (some p), 0)
        | none => some (creg_set_player cr client (some p), 0)

/-- `client_logout` (lines 176-225) for the client object at `client`.  The loop
over the invitation list (lines 189-217) works on invitations, games and peers,
which are outside this registry model: the model covers a client whose list is
empty, for which the loop does nothing, and is `none` otherwise, as it is when no
live client has that address. -/
def client_logout (cr : CLIENT_REGISTRY) (client : Nat) : Option (CLIENT_REGISTRY × Int) :=
  match cr.head.find? (fun c => decide (c.addr = client)) with
  | none => none
  | some c =>
    if (client_get_player c).isNone then some (cr, -1)
    else
      match c.invitations with
      | [] => some (creg_set_player cr client none, 0)
      | _ :: _ => none

/-- The two registries of the server. -/
structure Registries where
  creg : CLIENT_REGISTRY
  preg : PLAYER_REGISTRY
  deriving DecidableEq, Repr

/-- One call on the registries.  `login` is what the LOGIN request does:
`preg_register` for the name, then `client_login` with the player obtained. -/
inductive RegCall where
  | register (fd : Int) (addr : Nat)
  | login (client : Nat) (name : String)
  | logout (client : Nat)
  | unregister (client : Nat)
  deriving DecidableEq, Repr

/-- The registries after one call, `none` if the call is made on a client that is
not live. -/
def RegCall.exec (s : Registries) : RegCall → Option Registries
  | .register fd addr => some { s with creg := (creg_register s.creg fd addr).1 }
  | .login client name =>
    match client_login s.creg client (some (preg_register s.preg name).2) with
    | none => none
    | some r => some { creg := r.1, preg := (preg_register s.preg name).1 }
  | .logout client =>
    match client_logout s.creg client with
    | none => none
    | some r => some { s with creg := r.1 }
  | .unregister client =>
    match creg_unregister s.creg client with
    | none => none
    | some r => some { s with creg := r.1 }

/-- The registries after a sequence of calls, issued left to right. -/
def registries_run : Registries → List RegCall → Option Registries
  | s, [] => some s
  | s, c :: rest =>
    match c.exec s with
    | none => none
    | some s1 => registries_run s1 rest

/-- Clients of the registry that are logged in under the name `user`. -/
def logged_in_as (cr : CLIENT_REGISTRY) (user : String) : List CLIENT :=
  cr.head.filter fun c =>
    match c.player with
    | some p => decide (p.name = user)
    | none => false

/-! ## Invitations (`invitation.c`) -/

/-- Modelled from the spec: the enumeration `INVITATION_STATE` is declared in
`invitation.h`, which is not part of the sources; the three states are the ones
the specification and `invitation.c` name. -/
inductive INVITATION_STATE where
  | INV_OPEN_STATE
  | INV_ACCEPTED_STATE
  | INV_CLOSED_STATE
  deriving DecidableEq, Repr

open INVITATION_STATE

/-- Modelled from the spec: `INVITATION` is declared in `invitation.h` (absent); the
fields are the ones `inv_create` initialises.  `source` and `target` are pointers
to clients, represented by the address of the client; `game` is `none` for the
`NULL` pointer. -/
structure INVITATION where
  source : Nat
  target : Nat
  source_role : GAME_ROLE
  target_role : GAME_ROLE
  state : INVITATION_STATE
  game : Option GAME

/-- `inv_create` (invitation.c, lines 26-53): `none` is the `NULL` returned when
source and target are the same client. -/
def inv_create (source target : Nat) (source_role target_role : GAME_ROLE) :
    Option INVITATION :=
  if source = target then none
  else
    some { source := source, target := target, source_role := source_role,
           target_role := target_role, state := INV_OPEN_STATE, game := none }

/-- `inv_get_source` (lines 111-121). -/
def inv_get_source (inv : INVITATION) : Nat := inv.source

/-- `inv_get_target` (lines 132-142). -/
def inv_get_target (inv : INVITATION) : Nat := inv.target

/-- `inv_get_source_role` (lines 150-160). -/
def inv_get_source_role (inv : INVITATION) : GAME_ROLE := inv.source_role

/-- `inv_get_target_role` (lines 168-178). -/
def inv_get_target_role (inv : INVITATION) : GAME_ROLE := inv.target_role

/-- `inv_get_game` (lines 190-200). -/
def inv_get_game (inv : INVITATION) : Option GAME := inv.game

/-- `inv_accept` (lines 210-228). -/
def inv_accept (inv : INVITATION) : INVITATION × Int :=
  if inv.state ≠ INV_OPEN_STATE then (inv, -1)
  else ({ inv with game := some game_create, state := INV_ACCEPTED_STATE }, 0)

/-- `inv_close` (lines 244-282).  With `NULL_ROLE` the state is not consulted:
the invitation is closed whenever it has no game. -/
def inv_close (inv : INVITATION) (role : GAME_ROLE) : INVITATION × Int :=
  if role = NULL_ROLE then
    match inv.game with
    | none => ({ inv with state := INV_CLOSED_STATE }, 0)
    | some _ => (inv, -1)
  else if inv.state = INV_ACCEPTED_STATE ∨ inv.state = INV_OPEN_STATE then
    match inv.game with
    | some g => ({ inv with state := INV_CLOSED_STATE, game := some (game_resign g role).1 }, 0)
    | none => ({ inv with state := INV_CLOSED_STATE }, 0)
  else (inv, -1)

/-- One state-changing call on an invitation. -/
inductive InvCall where
  | accept
  | close (role : GAME_ROLE)
  deriving DecidableEq, Repr

/-- Invitation and return value after one call. -/
def InvCall.exec (inv : INVITATION) : InvCall → INVITATION × Int
  | .accept => inv_accept inv
  | .close role => inv_close inv role

/-- The invitation after a sequence of calls, issued left to right. -/
def inv_run (inv : INVITATION) (cs : List InvCall) : INVITATION :=
  cs.foldl (fun i c => (c.exec i).1) inv

/-- The moves of the invitation state that the specification allows:
OPEN to ACCEPTED, OPEN to CLOSED, ACCEPTED to CLOSED. -/
def inv_state_step (a b : INVITATION_STATE) : Prop :=
  (a = INV_OPEN_STATE ∧ b = INV_ACCEPTED_STATE) ∨
  (a = INV_OPEN_STATE ∧ b = INV_CLOSED_STATE) ∨
  (a = INV_ACCEPTED_STATE ∧ b = INV_CLOSED_STATE)

/-! ## Rating update (`player.c`) -/

/-- C library `pow` on the values the model can represent: the arithmetic of
`double` is modelled by exact rational arithmetic, and the power is given for an
integral exponent only (`pow(x, 0)` is 1); `none` for any other exponent. -/
def libm_pow (x y : ℚ) : Option ℚ :=
  if y.den = 1 then some (x ^ y.num) else none

/-- C library `round` followed by the conversion to `int`: the nearest integer,
halves away from zero. -/
def c_round (q : ℚ) : Int :=
  if 0 ≤ q then Int.floor (q + 1 / 2) else - Int.floor (- q + 1 / 2)

/-- `player_get_rating` (player.c, lines 127-132). -/
def player_get_rating (p : PLAYER) : Int := p.rating

/-- `player_get_name` (lines 107-117). -/
def player_get_name (p : PLAYER) : String := p.name

/-- `update_rating` (lines 187-194). -/
def update_rating (player : PLAYER) (score expected_score : ℚ) : PLAYER :=
  { player with rating := player.rating + c_round (32 * (score - expected_score)) }

/-- The expected score `1.0 / (1.0 + pow(10.0, (double)(r_other - r_self) / 400.0))`
of lines 160-161. -/
def expected_score (r_self r_other : Int) : Option ℚ :=
  (libm_pow 10 (((r_other - r_self : Int) : ℚ) / 400)).map fun p => 1 / (1 + p)

/-- `player_post_result` (lines 153-180) for two distinct player objects.  For a
`result` other than 0, 1, 2 the scores are read uninitialised: `none`. -/
def player_post_result (player1 player2 : PLAYER) (result : Int) : Option (PLAYER × PLAYER) :=
  match expected_score player1.rating player2.rating,
        expected_score player2.rating player1.rating with
  | some e1, some e2 =>
    if result = 0 then some (update_rating player1 (1 / 2) e1, update_rating player2 (1 / 2) e2)
    else if result = 1 then some (update_rating player1 1 e1, update_rating player2 0 e2)
    else if result = 2 then some (update_rating player1 0 e1, update_rating player2 1 e2)
    else none
  | _, _ => none

/-! ## Wire codec (`protocol.c`) -/

/-- Modelled from the spec: `JEUX_PACKET_HEADER` is declared in `protocol.h`, which
is not part of the sources.  The fields, their widths and their order are those of
the header table of the specification: `type`, `id`, `role` (one byte each),
`size` (two bytes), `timestamp_sec`, `timestamp_nsec` (four bytes each), and the
three reserved bytes that complete the 16-byte object.  A field holds the unsigned
integer stored in the object. -/
structure JEUX_PACKET_HEADER where
  type : Nat
  id : Nat
  role : Nat
  size : Nat
  timestamp_sec : Nat
  timestamp_nsec : Nat
  reserved : Nat
  deriving DecidableEq, Repr

/-- Every field of the header fits its width. -/
def header_wf (h : JEUX_PACKET_HEADER) : Prop :=
  h.type < 256 ∧ h.id < 256 ∧ h.role < 256 ∧ h.size < 65536 ∧
  h.timestamp_sec < 4294967296 ∧ h.timestamp_nsec < 4294967296 ∧ h.reserved < 16777216

instance (h : JEUX_PACKET_HEADER) : Decidable (header_wf h) := by
  unfold header_wf
  infer_instance

/-- The initialiser `{0}` of a header. -/
def header_zero : JEUX_PACKET_HEADER :=
  { type := 0, id := 0, role := 0, size := 0, timestamp_sec := 0, timestamp_nsec := 0,
    reserved := 0 }

/-- Modelled from the spec: the packet type codes are defined in `protocol.h`
(absent); the specification fixes no numbers, the codes here number its list of
packet types in order, starting at 1. -/
def JEUX_LOGIN_PKT : Nat := 1

/-- Modelled from the spec: packet type code, see `JEUX_LOGIN_PKT`. -/
def JEUX_USERS_PKT : Nat := 2

/-- Modelled from the spec: packet type code, see `JEUX_LOGIN_PKT`. -/
def JEUX_INVITE_PKT : Nat := 3

/-- Modelled from the spec: packet type code, see `JEUX_LOGIN_PKT`. -/
def JEUX_REVOKE_PKT : Nat := 4

/-- Modelled from the spec: packet type code, see `JEUX_LOGIN_PKT`. -/
def JEUX_DECLINE_PKT : Nat := 5

/-- Modelled from the spec: packet type code, see `JEUX_LOGIN_PKT`. -/
def JEUX_ACCEPT_PKT : Nat := 6

/-- Modelled from the spec: packet type code, see `JEUX_LOGIN_PKT`. -/
def JEUX_MOVE_PKT : Nat := 7

/-- Modelled from the spec: packet type code, see `JEUX_LOGIN_PKT`. -/
def JEUX_RESIGN_PKT : Nat := 8

/-- Modelled from the spec: packet type code, see `JEUX_LOGIN_PKT`. -/
def JEUX_ACK_PKT : Nat := 9

/-- Modelled from the spec: packet type code, see `JEUX_LOGIN_PKT`. -/
def JEUX_NACK_PKT : Nat := 10

/-- Modelled from the spec: packet type code, see `JEUX_LOGIN_PKT`. -/
def JEUX_INVITED_PKT : Nat := 11

/-- Modelled from the spec: packet type code, see `JEUX_LOGIN_PKT`. -/
def JEUX_REVOKED_PKT : Nat := 12

/-- Modelled from the spec: packet type code, see `JEUX_LOGIN_PKT`. -/
def JEUX_DECLINED_PKT : Nat := 13

/-- Modelled from the spec: packet type code, see `JEUX_LOGIN_PKT`. -/
def JEUX_ACCEPTED_PKT : Nat := 14

/-- Modelled from the spec: packet type code, see `JEUX_LOGIN_PKT`. -/
def JEUX_MOVED_PKT : Nat := 15

/-- Modelled from the spec: packet type code, see `JEUX_LOGIN_PKT`. -/
def JEUX_RESIGNED_PKT : Nat := 16

/-- Modelled from the spec: packet type code, see `JEUX_LOGIN_PKT`. -/
def JEUX_ENDED_PKT : Nat := 17

/-- C library `htons` on a host that stores integers low byte first: the two
bytes of a 16-bit value are exchanged. -/
def htons (x : Nat) : Nat := (x % 256) * 256 + (x / 256) % 256

/-- C library `ntohs`: the same exchange of bytes as `htons`. -/
def ntohs (x : Nat) : Nat := (x % 256) * 256 + (x / 256) % 256

/-- The `n` bytes of an unsigned integer in memory, low byte first. -/
def le_bytes : Nat → Nat → List Nat
  | 0, _ => []
  | n + 1, x => x % 256 :: le_bytes n (x / 256)

/-- The 16 bytes of a header object, which `write(fd, hdr, sizeof(JEUX_PACKET_HEADER))`
transfers. -/
def header_bytes (h : JEUX_PACKET_HEADER) : List Nat :=
  [h.type % 256, h.id % 256, h.role % 256] ++ le_bytes 2 h.size ++
    le_bytes 4 h.timestamp_sec ++ le_bytes 4 h.timestamp_nsec ++ le_bytes 3 h.reserved

/-- The header object filled by `read(fd, hdr, sizeof(JEUX_PACKET_HEADER))`; `none`
when fewer than 16 bytes were read. -/
def header_of_bytes : List Nat → Option JEUX_PACKET_HEADER
  | [t, i, r, s0, s1, a0, a1, a2, a3, b0, b1, b2, b3, c0, c1, c2] =>
    some { type := t, id := i, role := r, size := s0 + 256 * s1,
           timestamp_sec := a0 + 256 * (a1 + 256 * (a2 + 256 * a3)),
           timestamp_nsec := b0 + 256 * (b1 + 256 * (b2 + 256 * b3)),
           reserved := c0 + 256 * (c1 + 256 * c2) }
  | _ => none

/-- `proto_send_packet` (protocol.c, lines 9-38).  `out` is the sequence of bytes
written to the connection so far, `data` is `none` for a `NULL` pointer; `write`
transfers all the bytes it is given.  The result is `none` when the payload
length taken from the header exceeds the data buffer. -/
def proto_send_packet (out : List Nat) (hdr : JEUX_PACKET_HEADER) (data : Option (List Nat)) :
    Option (List Nat × Int) :=
  let payload_size := ntohs hdr.size
  let out1 := out ++ header_bytes hdr
  if payload_size > 0 then
    match data with
    | none => some (out1, -1)
    | some d =>
      if d.length < payload_size then none
      else some (out1 ++ d.take payload_size, 0)
  else some (out1, 0)

/-- What `proto_recv_packet` hands back: the return value, the header object, the
payload pointer (`none` for `NULL`), and the bytes of the connection not yet
read. -/
structure RecvResult where
  ret : Int
  hdr : Option JEUX_PACKET_HEADER
  payload : Option (List Nat)
  rest : List Nat
  deriving DecidableEq, Repr

/-- `proto_recv_packet` (lines 40-82).  `inp` is the sequence of bytes the
connection still delivers; `read` returns the bytes asked for, or all that are
left when there are fewer.  The terminating 0 stored behind the payload (line 73)
is not part of the payload. -/
def proto_recv_packet (inp : List Nat) : RecvResult :=
  match header_of_bytes (inp.take 16) with
  | none => { ret := -1, hdr := none, payload := none, rest := inp.drop 16 }
  | some hdr =>
    let size := ntohs hdr.size
    if size > 0 then
      if ((inp.drop 16).take size).length ≠ size then
        { ret := -1, hdr := some hdr, payload := none, rest := (inp.drop 16).drop size }
      else
        { ret := 0, hdr := some hdr, payload := some ((inp.drop 16).take size),
          rest := (inp.drop 16).drop size }
    else { ret := 0, hdr := some hdr, payload := none, rest := inp.drop 16 }

/-- A header as it is handed to `proto_send_packet` for a MOVED packet with a
payload of three bytes: the `size` field holds `htons(3)`. -/
def moved_header_example : JEUX_PACKET_HEADER :=
  { type := 15, id := 2, role := 0, size := 768, timestamp_sec := 7, timestamp_nsec := 9,
    reserved := 0 }

/-! ## Game state as text (`game.c`) -/

/-- The character printed for a cell: X for 1, O for -1, a blank otherwise. -/
def cell_char (v : Int) : Char :=
  if v = 1 then 'X' else if v = -1 then 'O' else Char.ofNat 32

/-- One board row as printed by the format `%c|%c|%c` followed by a line feed. -/
def board_row_string (g : GAME) (i : Int) : String :=
  String.mk [cell_char (g.game_board i 0), '|', cell_char (g.game_board i 1), '|',
    cell_char (g.game_board i 2), Char.ofNat 10]

/-- `game_unparse_state` (game.c, lines 394-444).  The call of `game_get_winner`
may write the game, so the game is returned as well. -/
def game_unparse_state (g : GAME) : GAME × String :=
  if g.game_over then
    ((game_get_winner g).1,
      "Game  #" ++ toString g.id ++ " is over\n" ++
        (match (game_get_winner g).2 with
         | FIRST_PLAYER_ROLE => "Player 1 has won"
         | SECOND_PLAYER_ROLE => "Player 2 has won"
         | NULL_ROLE => "The game was drawn"))
  else
    (g,
      board_row_string g 0 ++ "-----\n" ++ board_row_string g 1 ++ "-----\n" ++
        board_row_string g 2 ++
        (if g.current_role = FIRST_PLAYER_ROLE then "X" else "O") ++ " to move")

/-- The bytes of a C string, without the terminating 0. -/
def string_bytes (s : String) : List Nat := s.toList.map Char.toNat

/-! ## The server state and the client operations on invitations (`client.c`) -/

/-- The objects the client operations work on: the registered clients, the
players, the invitation objects by address, and for every file descriptor the
bytes written to that connection so far; `locked` holds the addresses of the
clients whose mutex `lock` is locked; `stale` is the number that is read from the
field `value` of a move object after `free` has been called on it, which the
program does not determine. -/
structure World where
  creg : CLIENT_REGISTRY
  preg : PLAYER_REGISTRY
  invitations : List (Nat × INVITATION)
  wire : Int → List Nat
  locked : List Nat
  stale : Int

/-- The state of a server that has just been started.  No mutex is locked; a
freed move object reads as 0, which is no cell of the board. -/
def world_init : World :=
  { creg := creg_init, preg := preg_init, invitations := [], wire := fun _ => [],
    locked := [], stale := 0 }

/-- Is the mutex `lock` of the client at address `a` locked?  The mutexes are
created by `pthread_mutex_init(&client->lock, NULL)` (client.c, line 36): a thread
that locks a mutex that is locked, by itself or by another thread, waits until it
is unlocked. -/
def is_locked (w : World) (a : Nat) : Bool := w.locked.any fun b => decide (b = a)

/-- `pthread_mutex_lock(&client->lock)` for the client at `a`, on a mutex that is
not locked. -/
def world_lock (w : World) (a : Nat) : World := { w with locked := a :: w.locked }

/-- `pthread_mutex_unlock(&client->lock)` for the client at `a`. -/
def world_unlock (w : World) (a : Nat) : World :=
  { w with locked := w.locked.filter fun b => decide (b ≠ a) }

/-- How a call of a client operation ends: it returns `ret` in the state `w`; or
its thread waits, in the state `w`, for a mutex that no thread is going to unlock;
or it crashes on a `NULL` or dangling pointer. -/
inductive Outcome where
  | returned (w : World) (ret : Int)
  | waiting (w : World)
  | crashed

/-- The state and the value a call hands back, `none` when it does not return. -/
def Outcome.result : Outcome → Option (World × Int)
  | .returned w ret => some (w, ret)
  | .waiting _ => none
  | .crashed => none

/-- The state in which a call has returned or has come to wait. -/
def Outcome.state : Outcome → Option World
  | .returned w _ => some w
  | .waiting w => some w
  | .crashed => none

/-- Does the call end up waiting for a mutex? -/
def Outcome.waits : Outcome → Bool
  | .waiting _ => true
  | _ => false

/-- The client object at address `a`, `none` when no live client has that
address. -/
def world_client (w : World) (a : Nat) : Option CLIENT :=
  w.creg.head.find? fun c => decide (c.addr = a)

/-- Store the client object `c` at its address. -/
def world_put_client (w : World) (c : CLIENT) : World :=
  { w with creg := { w.creg with
      head := w.creg.head.map fun d => if d.addr = c.addr then c else d } }

/-- The invitation object at address `p`, `none` when there is none. -/
def world_inv (w : World) (p : Nat) : Option INVITATION :=
  (w.invitations.find? fun e => decide (e.1 = p)).map fun e => e.2

/-- Store the invitation object `inv` at address `p`: in place when an object is
there already, as a new object otherwise. -/
def world_put_inv (w : World) (p : Nat) (inv : INVITATION) : World :=
  { w with invitations :=
      if w.invitations.any (fun e => decide (e.1 = p)) then
        w.invitations.map fun e => if e.1 = p then (p, inv) else e
      else w.invitations ++ [(p, inv)] }

/-- The conversion of an `int` to the `uint8_t` of a header field. -/
def to_uint8 (x : Int) : Nat := (x % 256).toNat

/-- The statement `player->rating += delta` on the player object named `name`:
every reference to that player sees the new rating. -/
def world_add_rating (w : World) (name : String) (delta : Int) : World :=
  { w with
    creg := { w.creg with
      head := w.creg.head.map fun c =>
        match c.player with
        | some p =>
          if p.name = name then { c with player := some { p with rating := p.rating + delta } }
          else c
        | none => c }
    preg := { w.preg with
      head := w.preg.head.map fun p =>
        if p.name = name then { p with rating := p.rating + delta } else p } }

/-- `player_post_result` applied to the player objects two pointers refer to;
`none` when a pointer is `NULL`. -/
def world_post_result (w : World) (player1 player2 : Option PLAYER) (result : Int) :
    Option World :=
  match player1, player2 with
  | some p1, some p2 =>
    match player_post_result p1 p2 result with
    | none => none
    | some r =>
      some (world_add_rating (world_add_rating w p1.name (r.1.rating - p1.rating))
        p2.name (r.2.rating - p2.rating))
  | _, _ => none

/-- `client_send_packet` (client.c, lines 291-303): the `size` field of the header
is converted in place, then the packet is written to the connection of the
client.  The result carries the header object after the call. -/
def client_send_packet (w : World) (player : Nat) (pkt : JEUX_PACKET_HEADER)
    (data : Option (List Nat)) : Option (World × JEUX_PACKET_HEADER × Int) :=
  match world_client w player with
  | none => none
  | some c =>
    match proto_send_packet (w.wire c.fd) { pkt with size := htons pkt.size } data with
    | none => none
    | some r =>
      some ({ w with wire := fun fd => if fd = c.fd then r.1 else w.wire fd },
        { pkt with size := htons pkt.size }, r.2)

/-- `client_remove_invitation` (lines 415-446) on the client object at address
`client`, with its mutex: line 419 locks it, line 443 unlocks it on the path that
returns 0, and the path that returns -1 (line 438) leaves it locked.  `none` when
the mutex is locked already, so that the call waits, when there is no such client,
or when the call dereferences a `NULL` list head. -/
def world_remove_invitation (w : World) (client : Nat) (inv : Nat) : Option (World × Int) :=
  if is_locked w client then none
  else
    match world_client w client with
    | none => none
    | some c =>
      match client_remove_invitation c inv with
      | none => none
      | some r =>
        if r.2 = 0 then some (world_put_client w r.1, r.2)
        else some (world_lock (world_put_client w r.1) client, r.2)

/-- A call of `client_remove_invitation` with its way of ending told apart: the
call waits when the mutex of the client is locked. -/
def remove_invitation_call (w : World) (client : Nat) (inv : Nat) : Outcome :=
  if is_locked w client then .waiting w
  else
    match world_remove_invitation w client inv with
    | none => .crashed
    | some r => .returned r.1 r.2

/-- `client_add_invitation` on the client object at address `client`. -/
def world_add_invitation (w : World) (client : Nat) (inv : Nat) : Option (World × Int) :=
  match world_client w client with
  | none => none
  | some c => some (world_put_client w (client_add_invitation c inv).1,
      (client_add_invitation c inv).2)

/-- The part of `client_make_invitation` after both list insertions (lines
489-527): the tests of the two ids, the INVITED packet built in a block of
uninitialised memory with contents `junk`, and the clean-up when sending fails.
It runs with the mutexes of source and target locked: the calls of
`client_remove_invitation` on the failure paths wait for them, and lines 524-525
unlock them before the id is returned. -/
def make_invitation_finish (w : World) (source target : Nat) (invitation : Nat)
    (source_inv_id target_inv_id : Int) (junk : JEUX_PACKET_HEADER) : Option (World × Int) :=
  if target_inv_id = -1 then
    match world_remove_invitation w source invitation with
    | none => none
    | some r => some (r.1, -1)
  else if source_inv_id = -1 then
    match world_remove_invitation w target invitation with
    | none => none
    | some r => some (r.1, -1)
  else
    match client_send_packet w target { junk with type := JEUX_INVITED_PKT } none with
    | none => none
    | some s =>
      if s.2.2 ≠ 0 then
        match world_remove_invitation s.1 source invitation with
        | none => none
        | some r1 =>
          match world_remove_invitation r1.1 target invitation with
          | none => none
          | some r2 => some (r2.1, -1)
      else some (world_unlock (world_unlock s.1 source) target, source_inv_id)

/-- `client_make_invitation` (lines 463-528).  `inv_addr` is the address of the
invitation object allocated by `inv_create`, `junk` the contents of the block
allocated for the packet header.  Lines 468-469 lock the mutex of the source and
then that of the target; the paths that return -1 at lines 474 and 482 leave both
locked.  `none` when a client pointer does not refer to a live client, and when
the call waits for a mutex: that of the source, or that of the target, which is
the mutex just locked when the target is the source. -/
def client_make_invitation (w : World) (source target : Nat)
    (source_role target_role : GAME_ROLE) (inv_addr : Nat) (junk : JEUX_PACKET_HEADER) :
    Option (World × Int) :=
  match world_client w source, world_client w target with
  | some s, some t =>
    if is_locked w source then none
    else if is_locked (world_lock w source) target then none
    else if s.player.isNone || t.player.isNone then
      some (world_lock (world_lock w source) target, -1)
    else
      match inv_create source target source_role target_role with
      | none => some (world_lock (world_lock w source) target, -1)
      | some invitation =>
        match world_add_invitation
            (world_put_inv (world_lock (world_lock w source) target) inv_addr invitation)
            source inv_addr with
        | none => none
        | some rs =>
          match world_add_invitation rs.1 target inv_addr with
          | none => none
          | some rt => make_invitation_finish rt.1 source target inv_addr rs.2 rt.2 junk
  | _, _ => none

/-- `client_revoke_invitation` (lines 591-639).  Line 596 locks the mutex of the
client; the three paths that return -1 unlock it first.  On the path that has
passed the checks, line 620 calls `client_remove_invitation` on the client, which
locks the same mutex again and waits; were it to return, line 625 would store the
packet type through the pointer `hdr`, which line 624 initialised to `NULL`: no
path returns 0.  `none` when the call waits or crashes. -/
def client_revoke_invitation (w : World) (client : Nat) (id : Int) : Option (World × Int) :=
  if is_locked w client then none
  else
    match world_client w client with
    | none => none
    | some c =>
      match client_find_invitation c id with
      | none => some (w, -1)
      | some p =>
        match world_inv w p with
        | none => none
        | some invitation =>
          if inv_get_source invitation ≠ client then some (w, -1)
          else if (inv_get_game invitation).isSome then some (w, -1)
          else
            match world_remove_invitation (world_lock w client) client p with
            | none => none
            | some _ => none

/-- `client_decline_invitation` (lines 659-707): as `client_revoke_invitation`,
with the target in place of the source; line 688 locks the mutex of the client
again, and line 693 would store through a `NULL` pointer. -/
def client_decline_invitation (w : World) (client : Nat) (id : Int) : Option (World × Int) :=
  if is_locked w client then none
  else
    match world_client w client with
    | none => none
    | some c =>
      match client_find_invitation c id with
      | none => some (w, -1)
      | some p =>
        match world_inv w p with
        | none => none
        | some invitation =>
          if inv_get_target invitation ≠ client then some (w, -1)
          else if (inv_get_game invitation).isSome then some (w, -1)
          else
            match world_remove_invitation (world_lock w client) client p with
            | none => none
            | some _ => none

/-- What `client_accept_invitation` hands back: the state, the string stored in
`*strp` (`none` for `NULL`) and the return value. -/
structure AcceptResult where
  world : World
  strp : Option String
  ret : Int

/-- The part of `client_accept_invitation` after `inv_accept` has succeeded (lines
754-793), for the accepted invitation `inv` at address `p` and the text `state`
of its new game.  The mutex of `client`, locked at line 737, is unlocked at line
792; no call in between locks the mutex of a client, so the part is run on the
state without that lock, and the path that returns -1 at line 773 hands back the
state with the mutex locked. -/
def accept_invitation_finish (w : World) (client : Nat) (p : Nat) (inv : INVITATION)
    (state : String) (strp : Option String) : Option AcceptResult :=
  if inv_get_source_role inv = FIRST_PLAYER_ROLE then
    match world_client w (inv_get_source inv) with
    | none => none
    | some src =>
      match client_send_packet w (inv_get_source inv)
          { header_zero with
            type := JEUX_ACCEPTED_PKT
            size := (state.length + 1) % 65536
            id := to_uint8 (client_get_inv_id src p) }
          (some (string_bytes state ++ [0])) with
      | none => none
      | some s =>
        if s.2.2 = -1 then some { world := world_lock s.1 client, strp := strp, ret := -1 }
        else some { world := s.1, strp := none, ret := 0 }
  else
    match client_send_packet w (inv_get_source inv)
        { header_zero with type := JEUX_ACCEPTED_PKT, size := 0 } none with
    | none => none
    | some s => some { world := s.1, strp := some state, ret := 0 }

/-- `client_accept_invitation` (lines 733-794); `strp` is the content of `*strp`
before the call.  The function never compares the client with the target of the
invitation.  Line 737 locks the mutex of the client; the path of lines 740-744
unlocks it, the path that returns -1 after a failed `inv_accept` (line 750) leaves
it locked.  `none` when the call waits for that mutex or crashes. -/
def client_accept_invitation (w : World) (client : Nat) (id : Int) (strp : Option String) :
    Option AcceptResult :=
  if is_locked w client then none
  else
    match world_client w client with
    | none => none
    | some c =>
      match client_find_invitation c id with
      | none => some { world := w, strp := strp, ret := -1 }
      | some p =>
        match world_inv w p with
        | none => none
        | some inv =>
          if (inv_get_game inv).isSome then some { world := w, strp := strp, ret := -1 }
          else if (inv_accept inv).2 = -1 then
            some { world := world_lock w client, strp := strp, ret := -1 }
          else
            match inv_get_game (inv_accept inv).1 with
            | none => none
            | some game =>
              accept_invitation_finish
                (world_put_inv w p
                  { (inv_accept inv).1 with game := some (game_unparse_state game).1 })
                client p { (inv_accept inv).1 with game := some (game_unparse_state game).1 }
                (game_unparse_state game).2 strp

/-- The part of `client_resign_game` after its checks (lines 842-868), run with
the mutexes of the source and of the target of `inv` locked: the invitation is
taken off both lists, the mutex of the target is unlocked, the RESIGNED packet is
sent to the opponent, and both mutexes are unlocked.  The function calls neither
`game_resign` nor `inv_close` nor `player_post_result`. -/
def resign_game_finish (w : World) (client : Nat) (p : Nat) (inv : INVITATION) : Outcome :=
  match remove_invitation_call w inv.source p with
  | .returned r1 _ =>
    match remove_invitation_call r1 inv.target p with
    | .returned r2 _ =>
      match world_client r2 client with
      | none => .crashed
      | some c2 =>
        match client_send_packet (world_unlock r2 inv.target)
            (if inv.source = client then inv.target else inv.source)
            { header_zero with
              id := to_uint8 (client_get_inv_id c2 p)
              type := JEUX_RESIGNED_PKT
              size := 0 } none with
        | none => .crashed
        | some s => .returned (world_unlock (world_unlock s.1 inv.source) inv.target) 0
    | o => o
  | o => o

/-- `client_resign_game` (lines 812-869).  The mutex of the client is locked and
unlocked around the search of the list (lines 816-818); line 820 locks the mutex
of the source of the invitation and line 821 that of its target, through the
invitation pointer, which is `NULL` when the id is unknown; the path that returns
-1 at line 833 leaves both locked. -/
def client_resign_game (w : World) (client : Nat) (id : Int) : Outcome :=
  if is_locked w client then .waiting w
  else
    match world_client w client with
    | none => .crashed
    | some c =>
      match client_find_invitation c id with
      | none => .crashed
      | some p =>
        match world_inv w p with
        | none => .crashed
        | some inv =>
          match world_client w inv.source, world_client w inv.target with
          | some _, some _ =>
            if is_locked w inv.source then .waiting w
            else if is_locked (world_lock w inv.source) inv.target then
              .waiting (world_lock w inv.source)
            else if (inv_get_game inv).isNone then
              .returned (world_lock (world_lock w inv.source) inv.target) (-1)
            else resign_game_finish (world_lock (world_lock w inv.source) inv.target) client p inv
          | _, _ => .crashed

/-- The part of `client_make_move` that runs when the game is over after the move
(lines 957-991): two ENDED packets with one header, whose id is the id of the
invitation in the list of the client that moved; removal of the invitation from
the list of the source and then from that of the target, by
`client_remove_invitation`, which locks the mutex of the client it is given; and
`player_post_result` with the players of source and target, in this order, and
the winning role as the result. -/
def make_move_ended (w : World) (client : Nat) (p : Nat) (inv : INVITATION) (game : GAME) :
    Outcome :=
  match world_client w client with
  | none => .crashed
  | some c =>
    match client_send_packet
        (world_put_inv w p { inv with game := some (game_get_winner game).1 }) inv.source
        { header_zero with
          type := JEUX_ENDED_PKT
          id := to_uint8 (client_get_inv_id c p)
          role := to_uint8 (game_get_winner game).2.toInt
          size := 0 } none with
    | none => .crashed
    | some s1 =>
      match client_send_packet s1.1 inv.target s1.2.1 none with
      | none => .crashed
      | some s2 =>
        match remove_invitation_call s2.1 inv.source p with
        | .returned r1 _ =>
          match remove_invitation_call r1 inv.target p with
          | .returned r2 _ =>
            match world_client r2 (inv_get_source inv), world_client r2 (inv_get_target inv) with
            | some src, some tgt =>
              match world_post_result
                  (world_put_inv r2 p
                    { inv with game := some (game_get_winner (game_get_winner game).1).1 })
                  (client_get_player src) (client_get_player tgt)
                  (game_get_winner (game_get_winner game).1).2.toInt with
              | none => .crashed
              | some w1 => .returned w1 0
            | _, _ => .crashed
          | o => o
        | o => o

/-- The game after `free` has been called on the move object that
`game->last_move` points to: the field `value` of that object reads as `stale`. -/
def game_with_freed_move (g : GAME) (stale : Int) : GAME :=
  { g with last_move := g.last_move.map fun m => { m with value := stale } }

/-- The end of `client_make_move` (lines 993-999) for the invitation at address
`p`: the move object is freed, the mutex of the client is unlocked, 0 is returned.
When `game_apply_move` has stored the pointer to the move in `game->last_move`
(`stored`), that pointer now refers to a freed block, and the `value` read through
it from now on is `stale`. -/
def make_move_exit (w : World) (client : Nat) (p : Nat) (stored : Bool) : Outcome :=
  match world_inv w p with
  | none => .crashed
  | some inv =>
    match inv.game with
    | none => .crashed
    | some g =>
      .returned
        (world_unlock
          (world_put_inv w p
            { inv with game := some (if stored then game_with_freed_move g w.stale else g) })
          client) 0

/-- The part of `client_make_move` after a successful `game_apply_move` (lines
946-999): the MOVED packet for the opponent, then the end-of-game handling.  The
`id` field of the MOVED header stays 0. -/
def make_move_finish (w : World) (client : Nat) (p : Nat) (inv : INVITATION)
    (opponent : Nat) (game : GAME) (stored : Bool) : Outcome :=
  match client_send_packet
      (world_put_inv w p { inv with game := some (game_unparse_state game).1 }) opponent
      { header_zero with
        type := JEUX_MOVED_PKT
        size := (game_unparse_state game).2.length % 65536 }
      (some (string_bytes (game_unparse_state game).2 ++ [0])) with
  | none => .crashed
  | some s =>
    if game_is_over (game_unparse_state game).1 then
      match make_move_ended s.1 client p inv (game_unparse_state game).1 with
      | .returned r _ => make_move_exit r client p stored
      | o => o
    else make_move_exit s.1 client p stored

/-- `client_make_move` (lines 895-1000).  Line 898 locks the mutex of the client,
and only line 994 unlocks it: the paths that return -1 (lines 907 and 935) leave
it locked, and the end-of-game handling runs with it locked.  `game_apply_move`
stores the pointer to the move in `game->last_move` unless `current_role` is
neither of the two player roles. -/
def client_make_move (w : World) (client : Nat) (id : Int) (move : String) : Outcome :=
  if is_locked w client then .waiting w
  else
    match world_client w client with
    | none => .crashed
    | some c =>
      match client_find_invitation c id with
      | none => .returned (world_lock w client) (-1)
      | some p =>
        match world_inv w p with
        | none => .crashed
        | some inv =>
          match inv_get_game inv with
          | none => .returned (world_lock w client) (-1)
          | some game =>
            match game_parse_move game
                (if inv_get_source inv = client then inv_get_source_role inv
                 else inv_get_target_role inv) move with
            | none => .crashed
            | some game_move =>
              if (game_apply_move game game_move).2 ≠ 0 then
                .returned
                  (world_put_inv (world_lock w client) p
                    { inv with game := some (game_apply_move game game_move).1 }) (-1)
              else
                make_move_finish (world_lock w client) client p inv
                  (if inv_get_source inv = client then inv_get_target inv
                   else inv_get_source inv)
                  (game_apply_move game game_move).1
                  (decide (game.current_role ≠ NULL_ROLE))

/-- Does `client_login(client, player)` (client.c, lines 105-161) have to wait for
a mutex?  Line 116 locks the mutex of the client.  On the path of lines 139-145,
after that mutex has been unlocked, `client_unref` locks and unlocks the mutex of
the other client that `creg_lookup` has found. -/
def client_login_waits (w : World) (client : Nat) (player : Option PLAYER) : Bool :=
  match player with
  | none => false
  | some p =>
    is_locked w client ||
      (match world_client w client with
       | none => false
       | some c =>
         if c.player.isSome then false
         else
           match creg_lookup w.creg p.name with
           | some other => decide (other.addr ≠ client) && is_locked w other.addr
           | none => false)

/-- One call on the server state. -/
inductive WorldCall where
  | register (fd : Int) (addr : Nat)
  | login (client : Nat) (name : String)
  | make_invitation (source target : Nat) (source_role target_role : GAME_ROLE)
      (inv_addr : Nat) (junk : JEUX_PACKET_HEADER)
  | accept (client : Nat) (id : Int)
  | revoke (client : Nat) (id : Int)
  | resign (client : Nat) (id : Int)
  | move (client : Nat) (id : Int) (text : String)
  deriving DecidableEq, Repr

/-- The state and the return value after one call, `none` if the call crashes or
waits for a mutex.  For `register` the value is 0 when a client was created and -1
otherwise. -/
def WorldCall.exec (w : World) : WorldCall → Option (World × Int)
  | .register fd addr =>
    some ({ w with creg := (creg_register w.creg fd addr).1 },
      if (creg_register w.creg fd addr).2.isSome then 0 else -1)
  | .login client name =>
    if client_login_waits w client (some (preg_register w.preg name).2) then none
    else
      match client_login w.creg client (some (preg_register w.preg name).2) with
      | none => none
      | some r => some ({ w with creg := r.1, preg := (preg_register w.preg name).1 }, r.2)
  | .make_invitation source target source_role target_role inv_addr junk =>
    client_make_invitation w source target source_role target_role inv_addr junk
  | .accept client id =>
    (client_accept_invitation w client id none).map fun r => (r.world, r.ret)
  | .revoke client id => client_revoke_invitation w client id
  | .resign client id => (client_resign_game w client id).result
  | .move client id text => (client_make_move w client id text).result

/-- The state after a sequence of calls, issued left to right, each after the one
before it has returned, with the list of their return values; `none` if one of
them crashes or waits for a mutex. -/
def world_run : World → List WorldCall → Option (World × List Int)
  | w, [] => some (w, [])
  | w, c :: rest =>
    match c.exec w with
    | none => none
    | some r =>
      match world_run r.1 rest with
      | none => none
      | some q => some (q.1, r.2 :: q.2)

/-- The rating of the player the client at address `a` is logged in as. -/
def world_rating (w : World) (a : Nat) : Option Int :=
  match world_client w a with
  | some c => (client_get_player c).map fun p => p.rating
  | none => none

/-- The list of invitation pointers in the list of the client at address `a`. -/
def world_invitations_of (w : World) (a : Nat) : List Nat :=
  match world_client w a with
  | some c => c.invitations.map fun n => n.invitation
  | none => []

/-- Two clients, A at address 1 and B at address 2, register and log in as
"alice" and "bob"; then A invites B, taking SECOND_PLAYER_ROLE for itself and
giving FIRST_PLAYER_ROLE to B.  The invitation object is at address 100; the block
allocated for the INVITED header happens to hold zeros. -/
def invite_calls : List WorldCall :=
  [.register 4 1, .register 5 2, .login 1 "alice", .login 2 "bob",
   .make_invitation 1 2 SECOND_PLAYER_ROLE FIRST_PLAYER_ROLE 100 header_zero]

/-- The state with the clients A and B of `invite_calls` logged in and no
invitation. -/
def two_clients_world : World :=
  { creg := { head := [ { addr := 1, fd := 4, player := some ⟨"alice", 1500⟩, invitations := [] },
                        { addr := 2, fd := 5, player := some ⟨"bob", 1500⟩, invitations := [] } ],
              client_count := 2 }
    preg := { head := [⟨"bob", 1500⟩, ⟨"alice", 1500⟩], player_count := 2 }
    invitations := []
    wire := fun _ => []
    locked := []
    stale := 0 }

/-! ## Logout, replies and the service loop (`client.c`, `client_registry.c`, `server.c`) -/

/-- `client_send_ack` (client.c, lines 316-328): a header initialised with `{0}`,
type ACK, and `size = datalen` stored in the 16-bit field.  No mutex is locked. -/
def client_send_ack (w : World) (client : Nat) (data : Option (List Nat)) (datalen : Nat) :
    Option (World × Int) :=
  match client_send_packet w client
      { header_zero with type := JEUX_ACK_PKT, size := datalen % 65536 } data with
  | none => none
  | some s => some (s.1, s.2.2)

/-- `client_send_nack` (lines 338-352): the header is a local variable that is not
initialised; `junk` is what the stack holds there.  Only `type` and `size` are
assigned.  The mutex of the client is locked around the call of
`client_send_packet` (lines 343 and 349): `none` when it is locked already, so
that the call waits. -/
def client_send_nack (w : World) (client : Nat) (junk : JEUX_PACKET_HEADER) :
    Option (World × Int) :=
  if is_locked w client then none
  else
    match client_send_packet w client { junk with type := JEUX_NACK_PKT, size := 0 } none with
    | none => none
    | some s => some (s.1, s.2.2)

/-- One pass of the loop of `client_logout` (lines 192-216) for the list node `n`:
an invitation without a game is revoked, with the id of the node, when the client
is its source, and taken off the list when the client is its target; a game is
resigned by FIRST_PLAYER_ROLE when the client is the source of the invitation and
by SECOND_PLAYER_ROLE otherwise.  The loop runs with the mutex of the client
locked, so `client_revoke_invitation` and `client_remove_invitation`, which lock
it, wait.  `none` when the invitation pointer dangles or a callee crashes or
waits. -/
def logout_visit (w : World) (client : Nat) (n : INVITATION_NODE) : Option World :=
  match world_inv w n.invitation with
  | none => none
  | some inv =>
    match inv_get_game inv with
    | none =>
      if inv_get_source inv = client then
        match client_revoke_invitation w client n.id with
        | none => none
        | some r => some r.1
      else if inv.target = client then
        match world_remove_invitation w client n.invitation with
        | none => none
        | some r => some r.1
      else some w
    | some g =>
      some (world_put_inv w n.invitation
        { inv with game := some (game_resign g
            (if inv.source = client then FIRST_PLAYER_ROLE else SECOND_PLAYER_ROLE)).1 })

/-- The loop of `client_logout` (lines 188-217).  It follows the `next` pointers
of the nodes the list had at the start: taking a node off the list leaves the
`next` pointer of that node as it was. -/
def logout_loop (w : World) (client : Nat) : List INVITATION_NODE → Option World
  | [] => some w
  | n :: rest =>
    match logout_visit w client n with
    | none => none
    | some w1 => logout_loop w1 client rest

/-- `client_logout` (client.c, lines 176-225) on the whole server state, with the
loop over the invitation list that the registry model `client_logout` leaves
out.  Line 180 locks the mutex of the client, lines 185 and 223 unlock it. -/
def world_client_logout (w : World) (client : Nat) : Option (World × Int) :=
  if is_locked w client then none
  else
    match world_client w client with
    | none => none
    | some c =>
      if (client_get_player c).isNone then some (w, -1)
      else
        match logout_loop (world_lock w client) client c.invitations with
        | none => none
        | some w1 =>
          match world_client w1 client with
          | none => none
          | some c1 =>
            some (world_unlock (world_put_client w1 { c1 with player := none }) client, 0)

/-- The loop of `creg_all_players` (client_registry.c, lines 252-264): `n` nodes
are visited from the head, the players of the logged-in clients are collected.
`none` when the walk runs off the end of the list. -/
def all_players_loop : List CLIENT → Nat → Option (List PLAYER)
  | _, 0 => some []
  | [], _ + 1 => none
  | c :: rest, n + 1 =>
    match client_get_player c with
    | some p => (all_players_loop rest n).map fun l => p :: l
    | none => all_players_loop rest n

/-- `creg_all_players` (lines 238-277): the entries of the array before the first
`NULL`.  A negative `client_count` gives no pass of the loop. -/
def creg_all_players (cr : CLIENT_REGISTRY) : Option (List PLAYER) :=
  all_players_loop cr.head cr.client_count.toNat

/-- The C string that starts at a payload pointer: the bytes before the first 0.
`proto_recv_packet` stores a 0 behind the payload. -/
def c_string (bytes : List Nat) : String :=
  String.mk ((bytes.takeWhile fun b => decide (b ≠ 0)).map Char.ofNat)

/-- The statement of server.c, line 143: `snprintf` appends the text to the
string in the 9000-byte array `response_str` and stores at most as many characters
as fit in front of the terminating 0. -/
def snprintf_append (response_str : String) (text : String) : String :=
  String.mk (response_str.toList ++ text.toList.take (8999 - response_str.length))

/-- The text produced by the format `%s\t%d\n` for one player. -/
def user_line (p : PLAYER) : String :=
  player_get_name p ++ "\t" ++ toString (player_get_rating p) ++ "\n"

/-- The loop of the USERS case (server.c, lines 135-144) over the array returned
by `creg_all_players`, starting from the empty string. -/
def users_response (players : List PLAYER) : String :=
  players.foldl (fun response_str p => snprintf_append response_str (user_line p)) ""

/-- The call `creg_lookup(client_registry, (char*)payload)` of the INVITE case.
With a `NULL` payload the loop of `creg_lookup` still stops at a first client that
is logged out, before it compares any name; the outer `none` is the crash of
`strcmp` on `NULL`, the inner `none` the result `NULL`. -/
def creg_lookup_payload (cr : CLIENT_REGISTRY) (payload : Option (List Nat)) :
    Option (Option CLIENT) :=
  match payload with
  | some bytes => some (creg_lookup cr (c_string bytes))
  | none =>
    match cr.head with
    | [] => some none
    | c :: _ => if (client_get_player c).isNone then some (some c) else none

/-- What one pass of the service loop takes from its surroundings: the address at
which `inv_create` would allocate an invitation, the content of the block
allocated for an INVITED header, and the content of the stack slot that
`client_send_nack` uses for its header. -/
structure ServiceEnv where
  inv_addr : Nat
  invited_junk : JEUX_PACKET_HEADER
  nack_junk : JEUX_PACKET_HEADER
  deriving DecidableEq, Repr

/-- A reply of the service loop by `client_send_nack`; the loop ignores the value
the call returns. -/
def reply_nack (w : World) (client : Nat) (logged_in : Bool) (env : ServiceEnv) :
    Option (World × Bool) :=
  match client_send_nack w client env.nack_junk with
  | none => none
  | some r => some (r.1, logged_in)

/-- A reply of the service loop by `client_send_ack`; the loop ignores the value
the call returns. -/
def reply_ack (w : World) (client : Nat) (logged_in : Bool) (data : Option (List Nat))
    (datalen : Nat) : Option (World × Bool) :=
  match client_send_ack w client data datalen with
  | none => none
  | some r => some (r.1, logged_in)

/-- The LOGIN case of the service loop (server.c, lines 86-110).  The flag
`logged_in` is set before `client_login` is called, and the value `client_login`
returns is not used.  `none` for a `NULL` payload, which `preg_register` hands to
`strcmp` or `strdup`. -/
def service_login (w : World) (client : Nat) (logged_in : Bool)
    (payload : Option (List Nat)) (env : ServiceEnv) : Option (World × Bool) :=
  if logged_in then reply_nack w client logged_in env
  else
    match payload with
    | none => none
    | some bytes =>
      if client_login_waits w client (some (preg_register w.preg (c_string bytes)).2) then none
      else
        match client_login w.creg client (some (preg_register w.preg (c_string bytes)).2) with
        | none => none
        | some r =>
          reply_ack { w with creg := r.1, preg := (preg_register w.preg (c_string bytes)).1 }
            client true none 0

/-- The USERS case (lines 120-155). -/
def service_users (w : World) (client : Nat) (logged_in : Bool) (env : ServiceEnv) :
    Option (World × Bool) :=
  if !logged_in then reply_nack w client logged_in env
  else
    match creg_all_players w.creg with
    | none => none
    | some players =>
      reply_ack w client logged_in (some (string_bytes (users_response players) ++ [0]))
        (users_response players).length

/-- The INVITE case (lines 175-201).  The value `client_make_invitation` returns is
not used.  `none` when `creg_lookup` returns `NULL`, which
`client_make_invitation` dereferences. -/
def service_invite (w : World) (client : Nat) (logged_in : Bool) (hdr : JEUX_PACKET_HEADER)
    (payload : Option (List Nat)) (env : ServiceEnv) : Option (World × Bool) :=
  if !logged_in then reply_nack w client logged_in env
  else if hdr.role ≠ 1 ∧ hdr.role ≠ 2 then reply_nack w client logged_in env
  else
    match creg_lookup_payload w.creg payload with
    | some (some target) =>
      match client_make_invitation w client target.addr
          (if hdr.role = 1 then SECOND_PLAYER_ROLE else FIRST_PLAYER_ROLE)
          (if hdr.role = 1 then FIRST_PLAYER_ROLE else SECOND_PLAYER_ROLE)
          env.inv_addr env.invited_junk with
      | none => none
      | some r => reply_ack r.1 client logged_in none 0
    | _ => none

/-- The REVOKE case (lines 212-223).  The value `client_revoke_invitation` returns
is not used. -/
def service_revoke (w : World) (client : Nat) (logged_in : Bool) (hdr : JEUX_PACKET_HEADER)
    (env : ServiceEnv) : Option (World × Bool) :=
  if !logged_in then reply_nack w client logged_in env
  else
    match client_revoke_invitation w client hdr.id with
    | none => none
    | some r => reply_ack r.1 client logged_in none 0

/-- The DECLINE case (lines 231-244). -/
def service_decline (w : World) (client : Nat) (logged_in : Bool) (hdr : JEUX_PACKET_HEADER)
    (env : ServiceEnv) : Option (World × Bool) :=
  if !logged_in then reply_nack w client logged_in env
  else
    match client_decline_invitation w client hdr.id with
    | none => none
    | some r =>
      if r.2 ≠ 0 then reply_nack r.1 client logged_in env
      else reply_ack r.1 client logged_in none 0

/-- The ACCEPT case (lines 259-279): `msg` starts as `NULL`; after a successful
call the ACK carries the `strlen(msg)` bytes of `msg` when `msg` is not `NULL`. -/
def service_accept (w : World) (client : Nat) (logged_in : Bool) (hdr : JEUX_PACKET_HEADER)
    (env : ServiceEnv) : Option (World × Bool) :=
  if !logged_in then reply_nack w client logged_in env
  else
    match client_accept_invitation w client hdr.id none with
    | none => none
    | some res =>
      if res.ret ≠ 0 then reply_nack res.world client logged_in env
      else
        match res.strp with
        | some msg =>
          reply_ack res.world client logged_in (some (string_bytes msg ++ [0])) msg.length
        | none => reply_ack res.world client logged_in none 0

/-- The MOVE case (lines 296-309).  A MOVE frame without payload hands `NULL` to
`client_make_move`; the model does not follow that call and is `none`. -/
def service_move (w : World) (client : Nat) (logged_in : Bool) (hdr : JEUX_PACKET_HEADER)
    (payload : Option (List Nat)) (env : ServiceEnv) : Option (World × Bool) :=
  if !logged_in then reply_nack w client logged_in env
  else
    match payload with
    | none => none
    | some bytes =>
      match (client_make_move w client hdr.id (c_string bytes)).result with
      | none => none
      | some r =>
        if r.2 ≠ 0 then reply_nack r.1 client logged_in env
        else reply_ack r.1 client logged_in none 0

/-- The RESIGN case (lines 321-334). -/
def service_resign (w : World) (client : Nat) (logged_in : Bool) (hdr : JEUX_PACKET_HEADER)
    (env : ServiceEnv) : Option (World × Bool) :=
  if !logged_in then reply_nack w client logged_in env
  else
    match (client_resign_game w client hdr.id).result with
    | none => none
    | some r =>
      if r.2 ≠ 0 then reply_nack r.1 client logged_in env
      else reply_ack r.1 client logged_in none 0

/-- The body of the loop of `jeux_client_service` (server.c, lines 71-343) for one
packet that `proto_recv_packet` has delivered as `hdr` and `payload`: the `switch`
on `hdr->type`.  `client` is the client object of the thread, `logged_in` its local
flag; the result is the new state and the new value of the flag, `none` when the
pass crashes. -/
def service_dispatch (w : World) (client : Nat) (logged_in : Bool) (hdr : JEUX_PACKET_HEADER)
    (payload : Option (List Nat)) (env : ServiceEnv) : Option (World × Bool) :=
  if hdr.type = JEUX_LOGIN_PKT then service_login w client logged_in payload env
  else if hdr.type = JEUX_USERS_PKT then service_users w client logged_in env
  else if hdr.type = JEUX_INVITE_PKT then service_invite w client logged_in hdr payload env
  else if hdr.type = JEUX_REVOKE_PKT then service_revoke w client logged_in hdr env
  else if hdr.type = JEUX_DECLINE_PKT then service_decline w client logged_in hdr env
  else if hdr.type = JEUX_ACCEPT_PKT then service_accept w client logged_in hdr env
  else if hdr.type = JEUX_MOVE_PKT then service_move w client logged_in hdr payload env
  else if hdr.type = JEUX_RESIGN_PKT then service_resign w client logged_in hdr env
  else if hdr.type = JEUX_ENDED_PKT then some (w, logged_in)
  else reply_nack w client logged_in env

/-- The server with its service threads: the shared state and, for the thread of
each client, the value of its local flag `logged_in`. -/
structure Server where
  world : World
  logged_in : Nat → Bool

/-- The server before any connection. -/
def server_init : Server := { world := world_init, logged_in := fun _ => false }

/-- What happens at the server, one thread at a time: a connection is accepted
and its thread registers a client (server.c, lines 52-55), or the thread of a
client receives one packet and runs the loop body on it. -/
inductive ServiceEvent where
  | connect (fd : Int) (addr : Nat)
  | packet (client : Nat) (hdr : JEUX_PACKET_HEADER) (payload : Option (List Nat))
      (env : ServiceEnv)
  deriving DecidableEq, Repr

/-- The server after one event; `none` when the thread crashes, which includes a
thread whose `creg_register` returned `NULL`. -/
def ServiceEvent.exec (s : Server) : ServiceEvent → Option Server
  | .connect fd addr =>
    match (creg_register s.world.creg fd addr).2 with
    | none => none
    | some _ =>
      some { world := { s.world with creg := (creg_register s.world.creg fd addr).1 },
             logged_in := fun a => if a = addr then false else s.logged_in a }
  | .packet client hdr payload env =>
    match service_dispatch s.world client (s.logged_in client) hdr payload env with
    | none => none
    | some r =>
      some { world := r.1, logged_in := fun a => if a = client then r.2 else s.logged_in a }

/-- The server after a sequence of events, left to right. -/
def server_run : Server → List ServiceEvent → Option Server
  | s, [] => some s
  | s, e :: rest =>
    match e.exec s with
    | none => none
    | some s1 => server_run s1 rest

/-- The frames a peer reads from the bytes written to a connection:
`proto_recv_packet` again and again, at most `fuel` times, until the bytes are
used up or a read fails. -/
def wire_frames : Nat → List Nat → List (JEUX_PACKET_HEADER × Option (List Nat))
  | 0, _ => []
  | fuel + 1, inp =>
    if inp = [] then []
    else if (proto_recv_packet inp).ret ≠ 0 then []
    else
      match (proto_recv_packet inp).hdr with
      | none => []
      | some h => (h, (proto_recv_packet inp).payload) :: wire_frames fuel (proto_recv_packet inp).rest

/-- The types of the frames written to a connection so far. -/
def wire_types (out : List Nat) : List Nat :=
  (wire_frames out.length out).map fun f => f.1.type

/-- A request header as `proto_recv_packet` delivers it, with the given type, id
and role. -/
def request_header (type id role : Nat) : JEUX_PACKET_HEADER :=
  { header_zero with type := type, id := id, role := role }

/-- The surroundings used in the examples: an invitation allocated at `inv_addr`,
and zeros in the uninitialised header blocks. -/
def env_at (inv_addr : Nat) : ServiceEnv :=
  { inv_addr := inv_addr, invited_junk := header_zero, nack_junk := header_zero }

/-- Three clients, A, B and C at addresses 1, 2 and 3, log in as "alice", "bob"
and "carol".  B invites C twice, then A invites B, A taking FIRST_PLAYER_ROLE; the
list of B then holds three invitations, with the ids 0, 0 and 1, and the list of A
one, with id 0.  B accepts the invitation of A, and A and B play 1, 4, 2, 5. -/
def ended_calls : List WorldCall :=
  [.register 4 1, .register 5 2, .register 6 3,
   .login 1 "alice", .login 2 "bob", .login 3 "carol",
   .make_invitation 2 3 FIRST_PLAYER_ROLE SECOND_PLAYER_ROLE 100 header_zero,
   .make_invitation 2 3 FIRST_PLAYER_ROLE SECOND_PLAYER_ROLE 101 header_zero,
   .make_invitation 1 2 FIRST_PLAYER_ROLE SECOND_PLAYER_ROLE 102 header_zero,
   .accept 2 1, .move 1 0 "1", .move 2 1 "4", .move 1 0 "2", .move 2 1 "5"]

/-- Two connections, served as the clients A and B at addresses 1 and 2; A sends
LOGIN with the name "alice". -/
def alice_events : List ServiceEvent :=
  [.connect 4 1, .connect 5 2,
   .packet 1 (request_header JEUX_LOGIN_PKT 0 0) (some (string_bytes "alice")) (env_at 100)]

/-- The state after A, logged in as "alice", has invited B, logged in as "bob",
with the given roles: `two_clients_world` after `client_make_invitation`, the
invitation being allocated at address 100. -/
def invited_world (source_role target_role : GAME_ROLE) : World :=
  match client_make_invitation two_clients_world 1 2 source_role target_role 100 header_zero with
  | some r => r.1
  | none => two_clients_world


/-- The players of the registered clients that are logged in: one entry for each
such client, in the order of the registry. -/
def logged_in_players (cr : CLIENT_REGISTRY) : List PLAYER :=
  cr.head.filterMap client_get_player

/-- The state after the events `alice_events`: A is logged in as "alice", B is
connected and not logged in. -/
def alice_world : World :=
  match server_run server_init alice_events with
  | some s => s.world
  | none => world_init


/-! ## Reachable states of the registries and further invariants -/

/-- The invariant `game_inv` together with the facts that `game_create` gives the
id 0, that the two resignation flags are not both set, and that the two sides do
not both own a line. -/
def game_inv_strong (g : GAME) : Prop :=
  game_inv g ∧ g.id = 0 ∧
  ¬ (g.first_player_resigned = true ∧ g.second_player_resigned = true) ∧
  ¬ (owns_line g.game_board 1 = true ∧ owns_line g.game_board (-1) = true)

/-- The character the specification prints for a cell: a blank for an empty
cell, X for the mark of the first player, O for the mark of the second. -/
def spec_cell_char (v : Int) : Char :=
  if v = 0 then Char.ofNat 32 else if v = role_mark FIRST_PLAYER_ROLE then 'X' else 'O'

/-- One board row in the words of the specification: the three cells separated
by bars, ended by a line feed. -/
def spec_row_text (b : Int → Int → Int) (i : Int) : String :=
  String.mk [spec_cell_char (b i 0), '|', spec_cell_char (b i 1), '|',
    spec_cell_char (b i 2), Char.ofNat 10]

/-- The text the specification gives for a game that is not over: the three rows
separated by lines of five dashes, then the side to move. -/
def spec_board_text (g : GAME) : String :=
  spec_row_text g.game_board 0 ++ "-----\n" ++ spec_row_text g.game_board 1 ++ "-----\n" ++
    spec_row_text g.game_board 2 ++
    (if g.current_role = FIRST_PLAYER_ROLE then "X to move" else "O to move")

/-- The line that names the result of a finished game. -/
def spec_result_line (winner : GAME_ROLE) : String :=
  match winner with
  | FIRST_PLAYER_ROLE => "Player 1 has won"
  | SECOND_PLAYER_ROLE => "Player 2 has won"
  | NULL_ROLE => "The game was drawn"

/-- The sequence of `preg_register` calls with the given names, from the
registry `preg`. -/
def preg_run (preg : PLAYER_REGISTRY) (names : List String) : PLAYER_REGISTRY :=
  names.foldl (fun r name => (preg_register r name).1) preg

/-- One call that changes the client registry: `creg_register`,
`creg_unregister`, or the assignment to `client->player` that `client_login` and
`client_logout` make on a registered client. -/
inductive CregCall where
  | register (fd : Int) (addr : Nat)
  | unregister (client : Nat)
  | set_player (client : Nat) (p : Option PLAYER)
  deriving DecidableEq, Repr

/-- The registry after one call; `none` when `creg_unregister` is handed a
pointer to a client that is not live. -/
def CregCall.exec (cr : CLIENT_REGISTRY) : CregCall → Option CLIENT_REGISTRY
  | .register fd addr => some (creg_register cr fd addr).1
  | .unregister client =>
    match creg_unregister cr client with
    | none => none
    | some r => some r.1
  | .set_player client p => some (creg_set_player cr client p)

/-- The registry after a sequence of calls, issued left to right. -/
def creg_run : CLIENT_REGISTRY → List CregCall → Option CLIENT_REGISTRY
  | cr, [] => some cr
  | cr, c :: rest =>
    match c.exec cr with
    | none => none
    | some cr1 => creg_run cr1 rest

/-- The array `player_list` that `creg_all_players` returns (client_registry.c,
lines 246-275): `client_count + 1` entries, the players collected by the loop and
then `NULL` (here `none`) in every remaining entry. -/
def creg_all_players_array (cr : CLIENT_REGISTRY) : Option (List (Option PLAYER)) :=
  match all_players_loop cr.head cr.client_count.toNat with
  | none => none
  | some l => some (l.map some ++ List.replicate (cr.client_count.toNat + 1 - l.length) none)

/-- The game after the moves 1, 4, 2, 5, 3: the first player has completed the
top row. -/
def x_row_win : GAME :=
  game_run game_create
    [.apply_move ⟨1, FIRST_PLAYER_ROLE⟩, .apply_move ⟨4, SECOND_PLAYER_ROLE⟩,
     .apply_move ⟨2, FIRST_PLAYER_ROLE⟩, .apply_move ⟨5, SECOND_PLAYER_ROLE⟩,
     .apply_move ⟨3, FIRST_PLAYER_ROLE⟩]

/-- The invariant of an invitation in the words of the specification: source and
target differ, an OPEN invitation has no game, an ACCEPTED invitation has one. -/
def inv_wf (inv : INVITATION) : Prop :=
  inv.source ≠ inv.target ∧ (inv.state = INV_OPEN_STATE → inv.game = none) ∧
  (inv.state = INV_ACCEPTED_STATE → inv.game.isSome = true)

/-- The registry after `n` connections have been registered, with the file
descriptors 4, 5, ... and the addresses 1, 2, ... -/
def registry_after (n : Nat) : CLIENT_REGISTRY :=
  (List.range n).foldl (fun cr i => (creg_register cr (Int.ofNat i + 4) (i + 1)).1) creg_init

/-! ## Shutdown of the connections (`client_registry.c`) -/

/-- One pass of the loop of `creg_shutdown_all` (client_registry.c, lines 157-169)
at the node of the client at address `a`, where `rest` are the addresses of the
clients of the following nodes.  After `shutdown` on the connection of `a`, the
pointer `p` is advanced to the next node, and it is the client of that next node
that is tested and logged out; then the client `a` is freed.  `none` when there
is no next node, since `p->client` is then read through `NULL`, or when a client
that is read is not live. -/
def shutdown_visit (w : World) (a : Nat) (rest : List Nat) : Option World :=
  match world_client w a with
  | none => none
  | some _ =>
    match rest with
    | [] => none
    | b :: _ =>
      match world_client w b with
      | none => none
      | some n =>
        match (if (client_get_player n).isSome then
                 (world_client_logout w b).map fun r => r.1
               else some w) with
        | none => none
        | some w1 =>
          some { w1 with creg := { w1.creg with
                   head := w1.creg.head.filter fun c => decide (c.addr ≠ a) } }

/-- The loop of `creg_shutdown_all` over the nodes of the list. -/
def shutdown_loop (w : World) : List Nat → Option World
  | [] => some w
  | a :: rest =>
    match shutdown_visit w a rest with
    | none => none
    | some w1 => shutdown_loop w1 rest

/-- `creg_shutdown_all` (lines 150-173): the loop, then `cr->head = NULL` and
`cr->client_count = 0`.  The half-closing of the sockets is not part of the
state. -/
def creg_shutdown_all (w : World) : Option World :=
  match shutdown_loop w (w.creg.head.map fun c => c.addr) with
  | none => none
  | some w1 => some { w1 with creg := { head := [], client_count := 0 } }

/-! ## Order of the writes of two sending threads (`client.c`, `protocol.c`) -/

/-- A step of a thread that matters for the order of the bytes on a connection:
the mutex `lock` of the client at an address is locked or unlocked, or one call of
`write` transfers bytes to a file descriptor. -/
inductive SendStep where
  | lock (client : Nat)
  | unlock (client : Nat)
  | write (fd : Int) (bytes : List Nat)
  deriving DecidableEq, Repr

/-- `proto_send_packet` (protocol.c, lines 9-38) as the sequence of its calls of
`write`: one for the header (line 19) and, when the payload size is not 0, one for
the payload (line 29).  Each call transfers all its bytes; the call for a `NULL`
payload transfers none. -/
def proto_send_packet_steps (fd : Int) (hdr : JEUX_PACKET_HEADER)
    (data : Option (List Nat)) : List SendStep :=
  if ntohs hdr.size > 0 then
    match data with
    | some d => [.write fd (header_bytes hdr), .write fd (d.take (ntohs hdr.size))]
    | none => [.write fd (header_bytes hdr)]
  else [.write fd (header_bytes hdr)]

/-- `client_send_packet` (client.c, lines 291-303) as a sequence of steps: the
body converts the size and calls `proto_send_packet`; it contains no call of
`pthread_mutex_lock` or `pthread_mutex_unlock`. -/
def client_send_packet_steps (c : CLIENT) (pkt : JEUX_PACKET_HEADER)
    (data : Option (List Nat)) : List SendStep :=
  proto_send_packet_steps c.fd { pkt with size := htons pkt.size } data

/-- `client_send_ack` (lines 316-328) as a sequence of steps; it locks nothing. -/
def client_send_ack_steps (c : CLIENT) (data : Option (List Nat)) (datalen : Nat) :
    List SendStep :=
  client_send_packet_steps c { header_zero with type := JEUX_ACK_PKT, size := datalen % 65536 }
    data

/-- `client_send_nack` (lines 338-352) as a sequence of steps: the call of
`client_send_packet` is made with the mutex of the client locked. -/
def client_send_nack_steps (c : CLIENT) (junk : JEUX_PACKET_HEADER) : List SendStep :=
  [.lock c.addr] ++
    client_send_packet_steps c { junk with type := JEUX_NACK_PKT, size := 0 } none ++
    [.unlock c.addr]

/-- The steps of `client_make_move` (lines 895-1000) for a move of the client
`mover` that is applied and does not end the game: the mutex of the mover is
locked (line 898), the MOVED packet with the text `state` is sent to the opponent
(line 952), the mutex of the mover is unlocked (line 994). -/
def make_move_steps (mover opponent : CLIENT) (state : String) : List SendStep :=
  [.lock mover.addr] ++
    client_send_packet_steps opponent
      { header_zero with type := JEUX_MOVED_PKT, size := state.length % 65536 }
      (some (string_bytes state ++ [0])) ++
    [.unlock mover.addr]

/-- The bytes written to each connection, and the mutexes that are locked. -/
structure SendState where
  wire : Int → List Nat
  held : List Nat

/-- One step of a thread; `none` when the step has to wait, which is the case for
locking a mutex that is locked. -/
def SendStep.exec (s : SendState) : SendStep → Option SendState
  | .lock m => if m ∈ s.held then none else some { s with held := m :: s.held }
  | .unlock m => some { s with held := s.held.erase m }
  | .write fd bytes =>
    some { s with wire := fun f => if f = fd then s.wire f ++ bytes else s.wire f }

/-- Two threads run their steps in the order a schedule gives: `false` lets the
first thread make its next step, `true` the second.  The result is the state when
both threads have finished; `none` when the schedule picks a thread that has
finished or has to wait, or ends too early. -/
def run_two : SendState → List SendStep → List SendStep → List Bool → Option SendState
  | s, [], [], [] => some s
  | s, a :: t1, t2, false :: schedule =>
    match a.exec s with
    | none => none
    | some s1 => run_two s1 t1 t2 schedule
  | s, t1, b :: t2, true :: schedule =>
    match b.exec s with
    | none => none
    | some s1 => run_two s1 t1 t2 schedule
  | _, _, _, _ => none

/-- The client object of A in `two_clients_world`. -/
def client_alice : CLIENT :=
  { addr := 1, fd := 4, player := some ⟨"alice", 1500⟩, invitations := [] }

/-- The client object of B in `two_clients_world`. -/
def client_bob : CLIENT :=
  { addr := 2, fd := 5, player := some ⟨"bob", 1500⟩, invitations := [] }

/-- The state in which nothing has been written and no mutex is locked. -/
def send_init : SendState := { wire := fun _ => [], held := [] }

/-- The reply of the thread of A to a USERS request when only "alice" is logged
in: `client_send_ack` with the text of the reply. -/
def users_reply_steps : List SendStep :=
  client_send_ack_steps client_alice (some (string_bytes "alice\t1500\n" ++ [0])) 11

/-- The thread of B makes a move in a game against A: `client_make_move` sends
the text of the new state to A.  The text used is that of a new game. -/
def moved_notice_steps : List SendStep :=
  make_move_steps client_bob client_alice (game_unparse_state game_create).2
/-! ## Theorems: game engine -/

theorem cell_bounds {b : Int → Int → Int} (hv : board_valid b) (i j : Int)
    (hi : 0 ≤ i) (hi2 : i < 3) (hj : 0 ≤ j) (hj2 : j < 3) : -1 ≤ b i j ∧ b i j ≤ 1 := by
  rcases hv i j hi hi2 hj hj2 with h | h | h <;> omega

theorem bounds_of_valid {b : Int → Int → Int} (hv : board_valid b) :
    (-1 ≤ b 0 0 ∧ b 0 0 ≤ 1) ∧ (-1 ≤ b 0 1 ∧ b 0 1 ≤ 1) ∧ (-1 ≤ b 0 2 ∧ b 0 2 ≤ 1) ∧
    (-1 ≤ b 1 0 ∧ b 1 0 ≤ 1) ∧ (-1 ≤ b 1 1 ∧ b 1 1 ≤ 1) ∧ (-1 ≤ b 1 2 ∧ b 1 2 ≤ 1) ∧
    (-1 ≤ b 2 0 ∧ b 2 0 ≤ 1) ∧ (-1 ≤ b 2 1 ∧ b 2 1 ≤ 1) ∧ (-1 ≤ b 2 2 ∧ b 2 2 ≤ 1) :=
  ⟨cell_bounds hv 0 0 (by decide) (by decide) (by decide) (by decide),
   cell_bounds hv 0 1 (by decide) (by decide) (by decide) (by decide),
   cell_bounds hv 0 2 (by decide) (by decide) (by decide) (by decide),
   cell_bounds hv 1 0 (by decide) (by decide) (by decide) (by decide),
   cell_bounds hv 1 1 (by decide) (by decide) (by decide) (by decide),
   cell_bounds hv 1 2 (by decide) (by decide) (by decide) (by decide),
   cell_bounds hv 2 0 (by decide) (by decide) (by decide) (by decide),
   cell_bounds hv 2 1 (by decide) (by decide) (by decide) (by decide),
   cell_bounds hv 2 2 (by decide) (by decide) (by decide) (by decide)⟩

theorem owns_line_iff (b : Int → Int → Int) (m : Int) :
    owns_line b m = true ↔
      (b 0 0 = m ∧ b 0 1 = m ∧ b 0 2 = m) ∨ (b 1 0 = m ∧ b 1 1 = m ∧ b 1 2 = m) ∨
      (b 2 0 = m ∧ b 2 1 = m ∧ b 2 2 = m) ∨ (b 0 0 = m ∧ b 1 0 = m ∧ b 2 0 = m) ∨
      (b 0 1 = m ∧ b 1 1 = m ∧ b 2 1 = m) ∨ (b 0 2 = m ∧ b 1 2 = m ∧ b 2 2 = m) ∨
      (b 0 0 = m ∧ b 1 1 = m ∧ b 2 2 = m) ∨ (b 0 2 = m ∧ b 1 1 = m ∧ b 2 0 = m) := by
  simp [owns_line, board_lines]

theorem board_full_iff (b : Int → Int → Int) :
    board_full b = true ↔
      b 0 0 ≠ 0 ∧ b 0 1 ≠ 0 ∧ b 0 2 ≠ 0 ∧ b 1 0 ≠ 0 ∧ b 1 1 ≠ 0 ∧ b 1 2 ≠ 0 ∧
      b 2 0 ≠ 0 ∧ b 2 1 ≠ 0 ∧ b 2 2 ≠ 0 := by
  simp [board_full, and_assoc]

theorem found_zero_iff (g : GAME) :
    found_zero g = true ↔
      g.game_board 0 0 = 0 ∨ g.game_board 0 1 = 0 ∨ g.game_board 0 2 = 0 ∨
      g.game_board 1 0 = 0 ∨ g.game_board 1 1 = 0 ∨ g.game_board 1 2 = 0 ∨
      g.game_board 2 0 = 0 ∨ g.game_board 2 1 = 0 ∨ g.game_board 2 2 = 0 := by
  simp [found_zero, or_assoc]

theorem lines_loop_spec (g : GAME) (l : List Int) :
    (check_lines_loop g l = 1 ∧ ∃ i ∈ l, row_sum g i = 3 ∨ col_sum g i = 3) ∨
    (check_lines_loop g l = 2 ∧ ∃ i ∈ l, row_sum g i = -3 ∨ col_sum g i = -3) ∨
    (check_lines_loop g l = 0 ∧ ∀ i ∈ l, row_sum g i ≠ 3 ∧ col_sum g i ≠ 3 ∧
        row_sum g i ≠ -3 ∧ col_sum g i ≠ -3) := by
  induction l with
  | nil => right; right; simp [check_lines_loop]
  | cons i rest ih =>
    rw [check_lines_loop]
    by_cases h1 : row_sum g i = 3
    · left; rw [if_pos h1]; exact ⟨rfl, i, List.mem_cons_self _ _, Or.inl h1⟩
    rw [if_neg h1]
    by_cases h2 : col_sum g i = 3
    · left; rw [if_pos h2]; exact ⟨rfl, i, List.mem_cons_self _ _, Or.inr h2⟩
    rw [if_neg h2]
    by_cases h3 : row_sum g i = -3
    · right; left; rw [if_pos h3]; exact ⟨rfl, i, List.mem_cons_self _ _, Or.inl h3⟩
    rw [if_neg h3]
    by_cases h4 : col_sum g i = -3
    · right; left; rw [if_pos h4]; exact ⟨rfl, i, List.mem_cons_self _ _, Or.inr h4⟩
    rw [if_neg h4]
    rcases ih with ⟨e, j, hj, hs⟩ | ⟨e, j, hj, hs⟩ | ⟨e, hall⟩
    · exact Or.inl ⟨e, j, List.mem_cons_of_mem _ hj, hs⟩
    · exact Or.inr (Or.inl ⟨e, j, List.mem_cons_of_mem _ hj, hs⟩)
    · refine Or.inr (Or.inr ⟨e, ?_⟩)
      intro j hj
      rcases List.mem_cons.1 hj with rfl | hj
      · exact ⟨h1, h2, h3, h4⟩
      · exact hall j hj

theorem diagonals_spec (g : GAME) :
    (check_diagonals g = 1 ∧ (g.game_board 0 0 + g.game_board 1 1 + g.game_board 2 2 = 3 ∨
        g.game_board 0 2 + g.game_board 1 1 + g.game_board 2 0 = 3)) ∨
    (check_diagonals g = 2 ∧ (g.game_board 0 0 + g.game_board 1 1 + g.game_board 2 2 = -3 ∨
        g.game_board 0 2 + g.game_board 1 1 + g.game_board 2 0 = -3)) ∨
    (check_diagonals g = 0 ∧ g.game_board 0 0 + g.game_board 1 1 + g.game_board 2 2 ≠ 3 ∧
        g.game_board 0 2 + g.game_board 1 1 + g.game_board 2 0 ≠ 3 ∧
        g.game_board 0 0 + g.game_board 1 1 + g.game_board 2 2 ≠ -3 ∧
        g.game_board 0 2 + g.game_board 1 1 + g.game_board 2 0 ≠ -3) := by
  unfold check_diagonals
  by_cases h1 : g.game_board 0 0 + g.game_board 1 1 + g.game_board 2 2 = 3
  · left; rw [if_pos h1]; exact ⟨rfl, Or.inl h1⟩
  rw [if_neg h1]
  by_cases h2 : g.game_board 0 2 + g.game_board 1 1 + g.game_board 2 0 = 3
  · left; rw [if_pos h2]; exact ⟨rfl, Or.inr h2⟩
  rw [if_neg h2]
  by_cases h3 : g.game_board 0 0 + g.game_board 1 1 + g.game_board 2 2 = -3
  · right; left; rw [if_pos h3]; exact ⟨rfl, Or.inl h3⟩
  rw [if_neg h3]
  by_cases h4 : g.game_board 0 2 + g.game_board 1 1 + g.game_board 2 0 = -3
  · right; left; rw [if_pos h4]; exact ⟨rfl, Or.inr h4⟩
  rw [if_neg h4]
  exact Or.inr (Or.inr ⟨rfl, h1, h2, h3, h4⟩)

/-- On a valid board a line sums to 3 exactly when its three cells are 1, and to
-3 exactly when they are -1. -/
theorem sum_three {x y z : Int} (hx : -1 ≤ x ∧ x ≤ 1) (hy : -1 ≤ y ∧ y ≤ 1)
    (hz : -1 ≤ z ∧ z ≤ 1) :
    (x + y + z = 3 ↔ x = 1 ∧ y = 1 ∧ z = 1) ∧ (x + y + z = -3 ↔ x = -1 ∧ y = -1 ∧ z = -1) := by
  constructor <;> constructor <;> intro h <;> omega

theorem lines_code_spec (g : GAME) (hv : board_valid g.game_board) :
    (lines_code g = 1 ∧ owns_line g.game_board 1 = true) ∨
    (lines_code g = 2 ∧ owns_line g.game_board (-1) = true) ∨
    (lines_code g = 0 ∧ owns_line g.game_board 1 = false ∧
      owns_line g.game_board (-1) = false) := by
  obtain ⟨h00, h01, h02, h10, h11, h12, h20, h21, h22⟩ := bounds_of_valid hv
  have r0 := sum_three h00 h01 h02
  have r1 := sum_three h10 h11 h12
  have r2 := sum_three h20 h21 h22
  have c0 := sum_three h00 h10 h20
  have c1 := sum_three h01 h11 h21
  have c2 := sum_three h02 h12 h22
  have d1 := sum_three h00 h11 h22
  have d2 := sum_three h02 h11 h20
  unfold lines_code
  rcases lines_loop_spec g [0, 1, 2] with ⟨e, i, hi, hs⟩ | ⟨e, i, hi, hs⟩ | ⟨e, hall⟩
  · left
    rw [e]
    refine ⟨if_neg (by decide), (owns_line_iff _ _).2 ?_⟩
    simp only [List.mem_cons, List.mem_singleton, List.not_mem_nil, or_false] at hi
    rcases hi with rfl | rfl | rfl <;> rcases hs with hs | hs
    · exact Or.inl (r0.1.1 hs)
    · exact Or.inr (Or.inr (Or.inr (Or.inl (c0.1.1 hs))))
    · exact Or.inr (Or.inl (r1.1.1 hs))
    · exact Or.inr (Or.inr (Or.inr (Or.inr (Or.inl (c1.1.1 hs)))))
    · exact Or.inr (Or.inr (Or.inl (r2.1.1 hs)))
    · exact Or.inr (Or.inr (Or.inr (Or.inr (Or.inr (Or.inl (c2.1.1 hs))))))
  · right; left
    rw [e]
    refine ⟨if_neg (by decide), (owns_line_iff _ _).2 ?_⟩
    simp only [List.mem_cons, List.mem_singleton, List.not_mem_nil, or_false] at hi
    rcases hi with rfl | rfl | rfl <;> rcases hs with hs | hs
    · exact Or.inl (r0.2.1 hs)
    · exact Or.inr (Or.inr (Or.inr (Or.inl (c0.2.1 hs))))
    · exact Or.inr (Or.inl (r1.2.1 hs))
    · exact Or.inr (Or.inr (Or.inr (Or.inr (Or.inl (c1.2.1 hs)))))
    · exact Or.inr (Or.inr (Or.inl (r2.2.1 hs)))
    · exact Or.inr (Or.inr (Or.inr (Or.inr (Or.inr (Or.inl (c2.2.1 hs))))))
  · rw [e, if_pos rfl]
    have a0 := hall 0 (by simp)
    have a1 := hall 1 (by simp)
    have a2 := hall 2 (by simp)
    rcases diagonals_spec g with ⟨e2, hs⟩ | ⟨e2, hs⟩ | ⟨e2, hd⟩
    · left
      refine ⟨e2, (owns_line_iff _ _).2 ?_⟩
      rcases hs with hs | hs
      · exact Or.inr (Or.inr (Or.inr (Or.inr (Or.inr (Or.inr (Or.inl (d1.1.1 hs)))))))
      · exact Or.inr (Or.inr (Or.inr (Or.inr (Or.inr (Or.inr (Or.inr (d2.1.1 hs)))))))
    · right; left
      refine ⟨e2, (owns_line_iff _ _).2 ?_⟩
      rcases hs with hs | hs
      · exact Or.inr (Or.inr (Or.inr (Or.inr (Or.inr (Or.inr (Or.inl (d1.2.1 hs)))))))
      · exact Or.inr (Or.inr (Or.inr (Or.inr (Or.inr (Or.inr (Or.inr (d2.2.1 hs)))))))
    · right; right
      refine ⟨e2, ?_, ?_⟩
      · rw [Bool.eq_false_iff]
        intro h
        rcases (owns_line_iff _ _).1 h with h | h | h | h | h | h | h | h
        · exact a0.1 (r0.1.2 h)
        · exact a1.1 (r1.1.2 h)
        · exact a2.1 (r2.1.2 h)
        · exact a0.2.1 (c0.1.2 h)
        · exact a1.2.1 (c1.1.2 h)
        · exact a2.2.1 (c2.1.2 h)
        · exact hd.1 (d1.1.2 h)
        · exact hd.2.1 (d2.1.2 h)
      · rw [Bool.eq_false_iff]
        intro h
        rcases (owns_line_iff _ _).1 h with h | h | h | h | h | h | h | h
        · exact a0.2.2.1 (r0.2.2 h)
        · exact a1.2.2.1 (r1.2.2 h)
        · exact a2.2.2.1 (r2.2.2 h)
        · exact a0.2.2.2 (c0.2.2 h)
        · exact a1.2.2.2 (c1.2.2 h)
        · exact a2.2.2.2 (c2.2.2 h)
        · exact hd.2.2.1 (d1.2.2 h)
        · exact hd.2.2.2 (d2.2.2 h)


theorem check_game_over_norm (g : GAME) (h1 : g.first_player_resigned = false)
    (h2 : g.second_player_resigned = false) :
    check_game_over g =
      if lines_code g = 0 then
        (if found_zero g = true then (g, 0) else ({ g with game_over := true }, 3))
      else ({ g with game_over := true }, lines_code g) := by
  unfold check_game_over lines_code
  simp only [h1, h2, Bool.or_self, Bool.false_eq_true, if_false]
  generalize check_lines_loop g [0, 1, 2] = x
  generalize check_diagonals g = y
  by_cases hx : x = 0
  · subst hx
    by_cases hy : y = 0
    · subst hy
      cases hz : found_zero g <;> simp
    · simp [hy]
  · simp [hx]

theorem found_zero_eq (g : GAME) : found_zero g = !board_full g.game_board := by
  simp [found_zero, board_full]


theorem game_over_fix (g : GAME) (h : g.game_over = true) : { g with game_over := true } = g := by
  cases g
  simp_all

theorem check_game_over_state (g : GAME) :
    (check_game_over g).1 = g ∨ (check_game_over g).1 = { g with game_over := true } := by
  by_cases h : (g.first_player_resigned || g.second_player_resigned) = true
  · right
    unfold check_game_over
    rw [if_pos h]
  · have h1 : g.first_player_resigned = false := by
      cases hh : g.first_player_resigned
      · rfl
      · simp [hh] at h
    have h2 : g.second_player_resigned = false := by
      cases hh : g.second_player_resigned
      · rfl
      · simp [hh] at h
    rw [check_game_over_norm g h1 h2]
    split_ifs
    · exact Or.inl rfl
    · exact Or.inr rfl
    · exact Or.inr rfl

theorem check_game_over_of_over (g : GAME) (h : g.game_over = true) :
    (check_game_over g).1 = g := by
  rcases check_game_over_state g with e | e
  · exact e
  · rw [e, game_over_fix g h]

theorem game_get_winner_state (g : GAME) : (game_get_winner g).1 = g := by
  unfold game_get_winner
  by_cases h1 : g.first_player_resigned = true
  · simp [h1]
  by_cases h2 : g.second_player_resigned = true
  · simp [h1, h2]
  by_cases h3 : g.game_over = true
  · have e := check_game_over_of_over g h3
    simp only [h1, h2, h3, if_false, Bool.not_true, Bool.false_eq_true]
    split_ifs <;> exact e
  · simp [h1, h2, h3]

theorem board_valid_set {b : Int → Int → Int} (hv : board_valid b) (r c v : Int)
    (h : v = 1 ∨ v = -1) : board_valid (board_set b r c v) := by
  intro i j hi hi2 hj hj2
  unfold board_set
  split_ifs
  · rcases h with h | h <;> simp [h]
  · exact hv i j hi hi2 hj hj2

theorem game_inv_create : game_inv game_create := by
  refine ⟨?_, by decide, by decide⟩
  intro i j _ _ _ _
  exact Or.inl rfl

/-- State after the board tests when nobody has resigned and the game was not over. -/
theorem check_game_over_inv (g : GAME) (hv : board_valid g.game_board)
    (hr : g.current_role ≠ NULL_ROLE) (h1 : g.first_player_resigned = false)
    (h2 : g.second_player_resigned = false) (h3 : g.game_over = false) :
    game_inv (check_game_over g).1 := by
  rw [check_game_over_norm g h1 h2]
  rcases lines_code_spec g hv with ⟨e, ho⟩ | ⟨e, ho⟩ | ⟨e, ho1, ho2⟩
  · rw [e, if_neg (by decide)]
    exact ⟨hv, hr, by simp [ho]⟩
  · rw [e, if_neg (by decide)]
    exact ⟨hv, hr, by simp [ho]⟩
  · rw [e, if_pos rfl]
    cases hz : found_zero g
    · have hf : board_full g.game_board = true := by
        have := found_zero_eq g
        rw [hz] at this
        simpa using this.symm
      simp only [Bool.false_eq_true, if_false]
      exact ⟨hv, hr, by simp [hf]⟩
    · have hf : board_full g.game_board = false := by
        have := found_zero_eq g
        rw [hz] at this
        simpa using this.symm
      simp only [if_true]
      exact ⟨hv, hr, by simp [h1, h2, h3, ho1, ho2, hf]⟩

theorem game_inv_not_over {g : GAME} (hi : game_inv g) (h : g.game_over = false) :
    g.first_player_resigned = false ∧ g.second_player_resigned = false := by
  obtain ⟨_, _, ho⟩ := hi
  rw [h] at ho
  have ho2 := ho.symm
  simp only [Bool.or_eq_false_iff] at ho2
  exact ⟨ho2.1.1.1.1, ho2.1.1.1.2⟩

theorem game_apply_move_cases (g : GAME) (m : GAME_MOVE) (hc : g.current_role ≠ NULL_ROLE) :
    game_apply_move g m = (g, -1) ∨
    (g.game_over = false ∧ 1 ≤ m.value ∧ m.value ≤ 9 ∧
      game_apply_move g m = ((check_game_over (game_marked g m)).1, 0)) := by
  unfold game_apply_move
  by_cases h : g.game_over = true
  · left; rw [if_pos h]
  rw [if_neg h]
  by_cases hrange : m.value < 1 ∨ m.value > 9
  · left; rw [if_pos hrange]
  rw [if_neg hrange]
  by_cases hlast : (match g.last_move with
      | some lm => decide (lm.value = m.value)
      | none => false) = true
  · left; rw [if_pos hlast]
  rw [if_neg hlast]
  have h3 : g.game_over = false := by simpa using h
  have hr : 1 ≤ m.value ∧ m.value ≤ 9 := by omega
  unfold game_marked
  cases hrole : g.current_role with
  | NULL_ROLE => exact absurd hrole hc
  | FIRST_PLAYER_ROLE =>
    by_cases hres : g.first_player_resigned = true
    · left; simp only [hres, if_true]
    · right; simp only [hres, if_false]
      exact ⟨h3, hr.1, hr.2, rfl⟩
  | SECOND_PLAYER_ROLE =>
    by_cases hres : g.second_player_resigned = true
    · left; simp only [hres, if_true]
    · right; simp only [hres, if_false]
      exact ⟨h3, hr.1, hr.2, rfl⟩

theorem game_marked_valid (g : GAME) (m : GAME_MOVE) (hi : game_inv g) :
    board_valid (game_marked g m).game_board := by
  apply board_valid_set hi.1
  cases hrole : g.current_role with
  | NULL_ROLE => exact absurd hrole hi.2.1
  | FIRST_PLAYER_ROLE => exact Or.inl rfl
  | SECOND_PLAYER_ROLE => exact Or.inr rfl

theorem game_marked_role (g : GAME) (m : GAME_MOVE) (hi : game_inv g) :
    (game_marked g m).current_role ≠ NULL_ROLE := by
  show other_role g.current_role ≠ NULL_ROLE
  cases hrole : g.current_role with
  | NULL_ROLE => exact absurd hrole hi.2.1
  | FIRST_PLAYER_ROLE => simp [other_role]
  | SECOND_PLAYER_ROLE => simp [other_role]

theorem game_apply_move_inv (g : GAME) (m : GAME_MOVE) (hi : game_inv g) :
    game_inv (game_apply_move g m).1 := by
  rcases game_apply_move_cases g m hi.2.1 with e | ⟨h3, _, _, e⟩
  · rw [e]; exact hi
  · rw [e]
    obtain ⟨hr1, hr2⟩ := game_inv_not_over hi h3
    exact check_game_over_inv _ (game_marked_valid g m hi) (game_marked_role g m hi) hr1 hr2 h3

theorem game_resign_cases (g : GAME) (r : GAME_ROLE) :
    game_resign g r = (g, -1) ∨
    (g.game_over = false ∧ r = FIRST_PLAYER_ROLE ∧
      game_resign g r = ({ g with first_player_resigned := true, game_over := true }, 0)) ∨
    (g.game_over = false ∧ r = SECOND_PLAYER_ROLE ∧
      game_resign g r = ({ g with second_player_resigned := true, game_over := true }, 0)) := by
  unfold game_resign
  by_cases h : g.game_over = true
  · left; rw [if_pos h]
  rw [if_neg h]
  have h3 : g.game_over = false := by simpa using h
  cases r with
  | NULL_ROLE => exact Or.inl rfl
  | FIRST_PLAYER_ROLE => exact Or.inr (Or.inl ⟨h3, rfl, by simp⟩)
  | SECOND_PLAYER_ROLE => exact Or.inr (Or.inr ⟨h3, rfl, by simp⟩)

theorem game_resign_inv (g : GAME) (r : GAME_ROLE) (hi : game_inv g) :
    game_inv (game_resign g r).1 := by
  rcases game_resign_cases g r with e | ⟨_, _, e⟩ | ⟨_, _, e⟩
  · rw [e]; exact hi
  · rw [e]; exact ⟨hi.1, hi.2.1, by simp⟩
  · rw [e]; exact ⟨hi.1, hi.2.1, by simp⟩

theorem game_exec_inv (g : GAME) (c : GameCall) (hi : game_inv g) : game_inv (c.exec g) := by
  cases c with
  | apply_move m => exact game_apply_move_inv g m hi
  | resign r => exact game_resign_inv g r hi
  | get_winner =>
    show game_inv (game_get_winner g).1
    rw [game_get_winner_state]
    exact hi

theorem game_run_inv (cs : List GameCall) (g : GAME) (hi : game_inv g) :
    game_inv (game_run g cs) := by
  induction cs generalizing g with
  | nil => exact hi
  | cons c rest ih => exact ih _ (game_exec_inv g c hi)


theorem check_game_over_fields (g : GAME) :
    (check_game_over g).1.game_board = g.game_board ∧
    (check_game_over g).1.current_role = g.current_role ∧
    (check_game_over g).1.first_player_resigned = g.first_player_resigned ∧
    (check_game_over g).1.second_player_resigned = g.second_player_resigned ∧
    (check_game_over g).1.last_move = g.last_move := by
  rcases check_game_over_state g with e | e <;> rw [e] <;> exact ⟨rfl, rfl, rfl, rfl, rfl⟩

theorem game_apply_move_of_over (g : GAME) (m : GAME_MOVE) (h : g.game_over = true) :
    game_apply_move g m = (g, -1) := by
  unfold game_apply_move
  rw [if_pos h]

theorem game_resign_of_over (g : GAME) (r : GAME_ROLE) (h : g.game_over = true) :
    game_resign g r = (g, -1) := by
  unfold game_resign
  rw [if_pos h]

theorem game_exec_of_over (g : GAME) (c : GameCall) (h : g.game_over = true) : c.exec g = g := by
  cases c with
  | apply_move m => show (game_apply_move g m).1 = g; rw [game_apply_move_of_over g m h]
  | resign r => show (game_resign g r).1 = g; rw [game_resign_of_over g r h]
  | get_winner => exact game_get_winner_state g

theorem game_run_of_over (g : GAME) (cs : List GameCall) (h : g.game_over = true) :
    game_run g cs = g := by
  induction cs with
  | nil => rfl
  | cons c rest ih =>
    show game_run (c.exec g) rest = g
    rw [game_exec_of_over g c h]
    exact ih

theorem game_winner_of_over (g : GAME) (hi : game_inv g) (h : g.game_over = true) :
    (game_get_winner g).2 = FIRST_PLAYER_ROLE ∨ (game_get_winner g).2 = SECOND_PLAYER_ROLE ∨
    ((game_get_winner g).2 = NULL_ROLE ∧ g.first_player_resigned = false ∧
      g.second_player_resigned = false ∧ board_full g.game_board = true ∧
      owns_line g.game_board 1 = false ∧ owns_line g.game_board (-1) = false) := by
  unfold game_get_winner
  by_cases h1 : g.first_player_resigned = true
  · right; left; rw [if_pos h1]
  rw [if_neg h1]
  by_cases h2 : g.second_player_resigned = true
  · left; rw [if_pos h2]
  rw [if_neg h2]
  have h1f : g.first_player_resigned = false := by simpa using h1
  have h2f : g.second_player_resigned = false := by simpa using h2
  have hf := check_game_over_fields g
  rw [if_neg (by simp [h])]
  simp only [hf.2.2.1, hf.2.2.2.1, h1f, h2f, Bool.false_eq_true, if_false]
  rw [check_game_over_norm g h1f h2f]
  rcases lines_code_spec g hi.1 with ⟨e, _⟩ | ⟨e, _⟩ | ⟨e, ho1, ho2⟩
  · left; rw [e]; simp
  · right; left; rw [e]; simp
  · right; right
    have hfull : board_full g.game_board = true := by
      have := hi.2.2
      rw [h, h1f, h2f, ho1, ho2] at this
      simpa using this.symm
    have hz : found_zero g = false := by rw [found_zero_eq, hfull]; rfl
    rw [e, hz]
    simp [hfull, ho1, ho2]

theorem check_game_over_snd (g : GAME) :
    (check_game_over g).2 =
      if (g.first_player_resigned || g.second_player_resigned) = true then 1
      else if lines_code g = 0 then (if found_zero g = true then 0 else 3)
      else lines_code g := by
  by_cases h : (g.first_player_resigned || g.second_player_resigned) = true
  · unfold check_game_over
    rw [if_pos h, if_pos h]
  · have h1 : g.first_player_resigned = false := by
      cases hh : g.first_player_resigned
      · rfl
      · simp [hh] at h
    have h2 : g.second_player_resigned = false := by
      cases hh : g.second_player_resigned
      · rfl
      · simp [hh] at h
    rw [check_game_over_norm g h1 h2, if_neg h]
    split_ifs <;> rfl

theorem check_game_over_snd_over (g : GAME) :
    (check_game_over { g with game_over := true }).2 = (check_game_over g).2 := by
  rw [check_game_over_snd, check_game_over_snd]
  rfl

theorem game_get_winner_snd (g : GAME) (h1 : g.first_player_resigned = false)
    (h2 : g.second_player_resigned = false) (h : g.game_over = true) :
    (game_get_winner g).2 = outcome_role (check_game_over g).2 := by
  have hf := check_game_over_fields g
  unfold game_get_winner outcome_role
  simp only [hf.2.2.1, hf.2.2.2.1, h1, h2, h, Bool.false_eq_true, if_false, Bool.not_true]
  split_ifs <;> rfl

/-- C1 (code defect, evaluated): on a fresh game, where FIRST is to move, the
move "1" submitted under SECOND_PLAYER_ROLE is parsed, `game_apply_move` returns 0
instead of -1, cell (0,0) changes from empty to X and the turn passes to SECOND. -/
theorem C1_wrong_role_move_applied :
    game_create.game_over = false ∧ game_create.current_role = FIRST_PLAYER_ROLE ∧
    game_parse_move game_create SECOND_PLAYER_ROLE "1" = some ⟨1, SECOND_PLAYER_ROLE⟩ ∧
    (game_apply_move game_create ⟨1, SECOND_PLAYER_ROLE⟩).2 = 0 ∧
    game_create.game_board 0 0 = 0 ∧
    (game_apply_move game_create ⟨1, SECOND_PLAYER_ROLE⟩).1.game_board 0 0 = 1 ∧
    (game_apply_move game_create ⟨1, SECOND_PLAYER_ROLE⟩).1.current_role =
      SECOND_PLAYER_ROLE := by
  decide

/-- C2 (code defect, evaluated): after X on 1, O on 2 and X on 3 the game is not
over and cell 1 holds X; the move 1 is then accepted (`game_apply_move` returns 0),
the X in cell (0,0) is overwritten by O and the turn changes. -/
theorem C2_occupied_cell_overwritten :
    (game_run game_create [.apply_move ⟨1, FIRST_PLAYER_ROLE⟩,
      .apply_move ⟨2, SECOND_PLAYER_ROLE⟩, .apply_move ⟨3, FIRST_PLAYER_ROLE⟩]).game_over = false ∧
    (game_run game_create [.apply_move ⟨1, FIRST_PLAYER_ROLE⟩,
      .apply_move ⟨2, SECOND_PLAYER_ROLE⟩, .apply_move ⟨3, FIRST_PLAYER_ROLE⟩]).game_board 0 0 = 1 ∧
    (game_run game_create [.apply_move ⟨1, FIRST_PLAYER_ROLE⟩,
      .apply_move ⟨2, SECOND_PLAYER_ROLE⟩, .apply_move ⟨3, FIRST_PLAYER_ROLE⟩]).current_role =
      SECOND_PLAYER_ROLE ∧
    (game_apply_move (game_run game_create [.apply_move ⟨1, FIRST_PLAYER_ROLE⟩,
      .apply_move ⟨2, SECOND_PLAYER_ROLE⟩, .apply_move ⟨3, FIRST_PLAYER_ROLE⟩])
      ⟨1, SECOND_PLAYER_ROLE⟩).2 = 0 ∧
    (game_apply_move (game_run game_create [.apply_move ⟨1, FIRST_PLAYER_ROLE⟩,
      .apply_move ⟨2, SECOND_PLAYER_ROLE⟩, .apply_move ⟨3, FIRST_PLAYER_ROLE⟩])
      ⟨1, SECOND_PLAYER_ROLE⟩).1.game_board 0 0 = -1 ∧
    (game_apply_move (game_run game_create [.apply_move ⟨1, FIRST_PLAYER_ROLE⟩,
      .apply_move ⟨2, SECOND_PLAYER_ROLE⟩, .apply_move ⟨3, FIRST_PLAYER_ROLE⟩])
      ⟨1, SECOND_PLAYER_ROLE⟩).1.current_role = FIRST_PLAYER_ROLE := by
  decide

/-- C3: on a board with cells in EMPTY, FIRST, SECOND, without resignation and
where the two sides do not both own a line, `check_game_over` returns the outcome
of the specification (1 when FIRST owns a line, 2 when SECOND owns one, otherwise
3 when no cell is empty, otherwise 0); it writes `game_over` (and nothing else)
exactly when that code is not 0, and `game_get_winner` on the resulting over game
returns the matching role, NULL_ROLE for a draw. -/
theorem C3_check_game_over_outcome (g : GAME) (hv : board_valid g.game_board)
    (hr1 : g.first_player_resigned = false) (hr2 : g.second_player_resigned = false)
    (hnb : ¬ (owns_line g.game_board 1 = true ∧ owns_line g.game_board (-1) = true)) :
    (check_game_over g).2 = spec_outcome g.game_board ∧
    ((check_game_over g).2 ≠ 0 → (check_game_over g).1 = { g with game_over := true }) ∧
    ((check_game_over g).2 = 0 → (check_game_over g).1 = g) ∧
    ((check_game_over g).2 ≠ 0 →
      (game_get_winner (check_game_over g).1).2 = outcome_role (check_game_over g).2) := by
  have hnorm := check_game_over_norm g hr1 hr2
  have key : (check_game_over g).2 = spec_outcome g.game_board ∧
      ((check_game_over g).2 ≠ 0 → (check_game_over g).1 = { g with game_over := true }) ∧
      ((check_game_over g).2 = 0 → (check_game_over g).1 = g) := by
    rcases lines_code_spec g hv with ⟨e, ho⟩ | ⟨e, ho⟩ | ⟨e, ho1, ho2⟩
    · rw [e, if_neg (by decide)] at hnorm
      rw [hnorm]
      exact ⟨by simp [spec_outcome, ho], fun _ => rfl, fun h0 => absurd h0 (by simp)⟩
    · have ho1 : owns_line g.game_board 1 = false := by
        cases hh : owns_line g.game_board 1
        · rfl
        · exact absurd ⟨hh, ho⟩ hnb
      rw [e, if_neg (by decide)] at hnorm
      rw [hnorm]
      exact ⟨by simp [spec_outcome, ho, ho1], fun _ => rfl, fun h0 => absurd h0 (by simp)⟩
    · rw [e, if_pos rfl] at hnorm
      cases hz : found_zero g
      · have hfull : board_full g.game_board = true := by
          have := found_zero_eq g
          rw [hz] at this
          simpa using this.symm
        rw [hz] at hnorm
        simp only [Bool.false_eq_true, if_false] at hnorm
        rw [hnorm]
        exact ⟨by simp [spec_outcome, ho1, ho2, hfull], fun _ => rfl,
          fun h0 => absurd h0 (by simp)⟩
      · have hfull : board_full g.game_board = false := by
          have := found_zero_eq g
          rw [hz] at this
          simpa using this.symm
        rw [hz] at hnorm
        simp only [if_true] at hnorm
        rw [hnorm]
        exact ⟨by simp [spec_outcome, ho1, ho2, hfull], fun h0 => absurd rfl h0, fun _ => rfl⟩
  refine ⟨key.1, key.2.1, key.2.2, ?_⟩
  intro hne
  rw [key.2.1 hne, game_get_winner_snd { g with game_over := true } hr1 hr2 rfl,
    check_game_over_snd_over]


theorem x_row_game_valid : board_valid x_row_game.game_board := by
  intro i j _ _ _ _
  show (if i = 0 then (1 : Int) else if i = 1 ∧ j < 2 then -1 else 0) = 0 ∨
    (if i = 0 then (1 : Int) else if i = 1 ∧ j < 2 then -1 else 0) = 1 ∨
    (if i = 0 then (1 : Int) else if i = 1 ∧ j < 2 then -1 else 0) = -1
  split_ifs <;> simp

theorem C3_check_game_over_outcome_witness :
    board_valid x_row_game.game_board ∧
    ¬ (owns_line x_row_game.game_board 1 = true ∧ owns_line x_row_game.game_board (-1) = true) ∧
    spec_outcome x_row_game.game_board = 1 ∧
    ((check_game_over x_row_game).2 = spec_outcome x_row_game.game_board ∧
    ((check_game_over x_row_game).2 ≠ 0 →
      (check_game_over x_row_game).1 = { x_row_game with game_over := true }) ∧
    ((check_game_over x_row_game).2 = 0 → (check_game_over x_row_game).1 = x_row_game) ∧
    ((check_game_over x_row_game).2 ≠ 0 →
      (game_get_winner (check_game_over x_row_game).1).2 =
        outcome_role (check_game_over x_row_game).2)) :=
  ⟨x_row_game_valid, by decide, by decide,
    C3_check_game_over_outcome x_row_game x_row_game_valid rfl rfl (by decide)⟩

/-- C4: in a game reached from `game_create`, whenever `game_apply_move` returns 0
for a move with cell index v, then v is in 1..9, cell ((v-1)/3, (v-1)%3) holds the
mark of the role that was on move (1 = X for FIRST, -1 = O for SECOND), every other
cell is unchanged, the turn is the other role, and `game_over` is the win-or-draw
status of the new board. -/
theorem C4_successful_move_effect (cs : List GameCall) (m : GAME_MOVE)
    (h0 : (game_apply_move (game_run game_create cs) m).2 = 0) :
    1 ≤ m.value ∧ m.value ≤ 9 ∧
    (game_run game_create cs).current_role ≠ NULL_ROLE ∧
    (game_apply_move (game_run game_create cs) m).1.game_board
        ((m.value - 1) / 3) ((m.value - 1) % 3) =
      role_mark (game_run game_create cs).current_role ∧
    (∀ i j : Int, ¬ (i = (m.value - 1) / 3 ∧ j = (m.value - 1) % 3) →
      (game_apply_move (game_run game_create cs) m).1.game_board i j =
        (game_run game_create cs).game_board i j) ∧
    (game_apply_move (game_run game_create cs) m).1.current_role =
      other_role (game_run game_create cs).current_role ∧
    (game_apply_move (game_run game_create cs) m).1.game_over =
      (owns_line (game_apply_move (game_run game_create cs) m).1.game_board 1 ||
       owns_line (game_apply_move (game_run game_create cs) m).1.game_board (-1) ||
       board_full (game_apply_move (game_run game_create cs) m).1.game_board) := by
  have hi := game_run_inv cs game_create game_inv_create
  have hi2 := game_apply_move_inv _ m hi
  rcases game_apply_move_cases (game_run game_create cs) m hi.2.1 with e | ⟨h3, hlo, hhi, e⟩
  · rw [e] at h0
    exact absurd h0 (by simp)
  · obtain ⟨hr1, hr2⟩ := game_inv_not_over hi h3
    have hf := check_game_over_fields (game_marked (game_run game_create cs) m)
    have hover := hi2.2.2
    rw [e] at hover ⊢
    simp only at hover ⊢
    refine ⟨hlo, hhi, hi.2.1, ?_, ?_, ?_, ?_⟩
    · rw [hf.1]
      simp [game_marked, board_set]
    · intro i j hij
      rw [hf.1]
      simp [game_marked, board_set, hij]
    · rw [hf.2.1]
      rfl
    · rw [hover, hf.2.2.1, hf.2.2.2.1]
      have e1 : (game_marked (game_run game_create cs) m).first_player_resigned = false := hr1
      have e2 : (game_marked (game_run game_create cs) m).second_player_resigned = false := hr2
      rw [e1, e2]
      simp

theorem C4_successful_move_effect_witness :
    (game_apply_move (game_run game_create [.apply_move ⟨1, FIRST_PLAYER_ROLE⟩])
      ⟨5, SECOND_PLAYER_ROLE⟩).2 = 0 ∧
    (game_apply_move (game_run game_create [.apply_move ⟨1, FIRST_PLAYER_ROLE⟩])
      ⟨5, SECOND_PLAYER_ROLE⟩).1.game_board 1 1 = -1 ∧
    (game_apply_move (game_run game_create [.apply_move ⟨1, FIRST_PLAYER_ROLE⟩])
      ⟨5, SECOND_PLAYER_ROLE⟩).1.current_role = FIRST_PLAYER_ROLE :=
  ⟨by decide,
   (C4_successful_move_effect [.apply_move ⟨1, FIRST_PLAYER_ROLE⟩] ⟨5, SECOND_PLAYER_ROLE⟩
      (by decide)).2.2.2.1,
   (C4_successful_move_effect [.apply_move ⟨1, FIRST_PLAYER_ROLE⟩] ⟨5, SECOND_PLAYER_ROLE⟩
      (by decide)).2.2.2.2.2.1⟩

/-- C5: in a game reached from `game_create` by `game_apply_move`, `game_resign`
and `game_get_winner`, once `game_over` is true: the winner is FIRST, SECOND, or the
draw value NULL_ROLE on a full board on which nobody owns a line and nobody
resigned; every further `game_apply_move` and `game_resign` returns -1 and leaves
the state unchanged; so the state, and with it the winner, is the same after any
further sequence of calls. -/
theorem C5_winner_fixed_once_over (cs : List GameCall)
    (hover : (game_run game_create cs).game_over = true) :
    ((game_get_winner (game_run game_create cs)).2 = FIRST_PLAYER_ROLE ∨
     (game_get_winner (game_run game_create cs)).2 = SECOND_PLAYER_ROLE ∨
     ((game_get_winner (game_run game_create cs)).2 = NULL_ROLE ∧
      (game_run game_create cs).first_player_resigned = false ∧
      (game_run game_create cs).second_player_resigned = false ∧
      board_full (game_run game_create cs).game_board = true ∧
      owns_line (game_run game_create cs).game_board 1 = false ∧
      owns_line (game_run game_create cs).game_board (-1) = false)) ∧
    (∀ m : GAME_MOVE,
      game_apply_move (game_run game_create cs) m = (game_run game_create cs, -1)) ∧
    (∀ r : GAME_ROLE, game_resign (game_run game_create cs) r = (game_run game_create cs, -1)) ∧
    (∀ more : List GameCall,
      game_run (game_run game_create cs) more = game_run game_create cs) ∧
    (∀ more : List GameCall,
      (game_get_winner (game_run (game_run game_create cs) more)).2 =
        (game_get_winner (game_run game_create cs)).2) := by
  have hi := game_run_inv cs game_create game_inv_create
  refine ⟨game_winner_of_over _ hi hover, fun m => game_apply_move_of_over _ m hover,
    fun r => game_resign_of_over _ r hover, fun more => game_run_of_over _ more hover, ?_⟩
  intro more
  rw [game_run_of_over _ more hover]

theorem C5_winner_fixed_once_over_witness :
    (game_run game_create [.apply_move ⟨1, FIRST_PLAYER_ROLE⟩,
      .apply_move ⟨4, SECOND_PLAYER_ROLE⟩, .apply_move ⟨2, FIRST_PLAYER_ROLE⟩,
      .apply_move ⟨5, SECOND_PLAYER_ROLE⟩, .apply_move ⟨3, FIRST_PLAYER_ROLE⟩]).game_over = true ∧
    (game_get_winner (game_run game_create [.apply_move ⟨1, FIRST_PLAYER_ROLE⟩,
      .apply_move ⟨4, SECOND_PLAYER_ROLE⟩, .apply_move ⟨2, FIRST_PLAYER_ROLE⟩,
      .apply_move ⟨5, SECOND_PLAYER_ROLE⟩, .apply_move ⟨3, FIRST_PLAYER_ROLE⟩])).2 =
      FIRST_PLAYER_ROLE ∧
    (∀ more : List GameCall,
      (game_get_winner (game_run (game_run game_create [.apply_move ⟨1, FIRST_PLAYER_ROLE⟩,
        .apply_move ⟨4, SECOND_PLAYER_ROLE⟩, .apply_move ⟨2, FIRST_PLAYER_ROLE⟩,
        .apply_move ⟨5, SECOND_PLAYER_ROLE⟩, .apply_move ⟨3, FIRST_PLAYER_ROLE⟩]) more)).2 =
      (game_get_winner (game_run game_create [.apply_move ⟨1, FIRST_PLAYER_ROLE⟩,
        .apply_move ⟨4, SECOND_PLAYER_ROLE⟩, .apply_move ⟨2, FIRST_PLAYER_ROLE⟩,
        .apply_move ⟨5, SECOND_PLAYER_ROLE⟩, .apply_move ⟨3, FIRST_PLAYER_ROLE⟩])).2) :=
  ⟨by decide, by decide,
   (C5_winner_fixed_once_over [.apply_move ⟨1, FIRST_PLAYER_ROLE⟩,
      .apply_move ⟨4, SECOND_PLAYER_ROLE⟩, .apply_move ⟨2, FIRST_PLAYER_ROLE⟩,
      .apply_move ⟨5, SECOND_PLAYER_ROLE⟩, .apply_move ⟨3, FIRST_PLAYER_ROLE⟩]
      (by decide)).2.2.2.2⟩

/-! ## Theorems: invitation list of a client -/

/-- C6 (code defect, evaluated): starting from a client with an empty invitation
list, two calls of `client_add_invitation` leave a list whose two entries both
carry the local id 0. -/
theorem C6_two_adds_share_local_id :
    client_run_invitations (client_create 1 4) [.add 100, .add 200] =
      some { addr := 1, fd := 4, player := none,
             invitations := [⟨0, 100⟩, ⟨0, 200⟩] } ∧
    ¬ (([⟨0, 100⟩, ⟨0, 200⟩] : List INVITATION_NODE).map fun n => n.id).Nodup := by
  decide

/-- C7 (code defect, evaluated): on a list holding only id 0 the smallest unused
id is 1, but `client_add_invitation` gives the new entry the id 0. -/
theorem C7_add_after_single_entry_reuses_zero :
    smallest_unused_id [0] = 1 ∧
    (client_add_invitation
        { addr := 1, fd := 4, player := none, invitations := [⟨0, 100⟩] } 200).1.invitations =
      [⟨0, 100⟩, ⟨0, 200⟩] := by
  decide

/-- C8 (code defect, evaluated): the list with entries (0, 100) and (1, 300) is
reached by three additions and one removal; removing invitation 100, its first
entry, empties the whole list, so the entry of invitation 300 is lost, and the
call returns -1. -/
theorem C8_remove_first_drops_whole_list :
    client_run_invitations (client_create 1 4)
        [.add 100, .add 200, .add 300, .remove 200] =
      some { addr := 1, fd := 4, player := none,
             invitations := [⟨0, 100⟩, ⟨1, 300⟩] } ∧
    client_remove_invitation
        { addr := 1, fd := 4, player := none, invitations := [⟨0, 100⟩, ⟨1, 300⟩] } 100 =
      some ({ addr := 1, fd := 4, player := none, invitations := [] }, -1) := by
  decide

/-! ## Theorems: client registry -/

/-- C9 (code defect, evaluated): two clients are registered; the first logs in as
"x", the second as "alice"; the first logs out and logs in again as "alice".  Every
call succeeds, and in the end both registered clients are logged in as "alice". -/
theorem C9_two_clients_logged_in_under_one_name :
    (registries_run { creg := creg_init, preg := preg_init }
        [.register 4 1, .register 5 2, .login 1 "x", .login 2 "alice", .logout 1,
         .login 1 "alice"]).map (fun s => s.creg) =
      some { head := [ { addr := 1, fd := 4, player := some ⟨"alice", 1500⟩, invitations := [] },
                       { addr := 2, fd := 5, player := some ⟨"alice", 1500⟩, invitations := [] } ],
             client_count := 2 } ∧
    (client_login
        { head := [ { addr := 1, fd := 4, player := none, invitations := [] },
                    { addr := 2, fd := 5, player := some ⟨"alice", 1500⟩, invitations := [] } ],
          client_count := 2 } 1 (some ⟨"alice", 1500⟩)).map (fun r => r.2) = some 0 ∧
    (logged_in_as
        { head := [ { addr := 1, fd := 4, player := some ⟨"alice", 1500⟩, invitations := [] },
                    { addr := 2, fd := 5, player := some ⟨"alice", 1500⟩, invitations := [] } ],
          client_count := 2 } "alice").length = 2 := by
  decide

/-- C10 (code defect, evaluated): `creg_lookup` returns the first client of the
registry when that client is not logged in: for a registry holding one logged-out
client it returns that client although nobody is logged in as "alice", and when a
logged-out client precedes the client logged in as "alice" it returns the
logged-out one. -/
theorem C10_lookup_returns_logged_out_client :
    creg_lookup
        { head := [ { addr := 1, fd := 4, player := none, invitations := [] } ],
          client_count := 1 } "alice" =
      some { addr := 1, fd := 4, player := none, invitations := [] } ∧
    creg_lookup
        { head := [ { addr := 1, fd := 4, player := none, invitations := [] },
                    { addr := 2, fd := 5, player := some ⟨"alice", 1500⟩, invitations := [] } ],
          client_count := 2 } "alice" =
      some { addr := 1, fd := 4, player := none, invitations := [] } := by
  decide

/-! ## Theorems: invitation state machine -/

theorem inv_accept_step (inv : INVITATION) :
    ((inv_accept inv).2 ≠ 0 → (inv_accept inv).1 = inv) ∧
    ((inv_accept inv).1.state = inv.state ∨
      inv_state_step inv.state (inv_accept inv).1.state) := by
  unfold inv_accept
  by_cases h : inv.state ≠ INV_OPEN_STATE
  · rw [if_pos h]
    exact ⟨fun _ => rfl, Or.inl rfl⟩
  · rw [if_neg h]
    have h2 : inv.state = INV_OPEN_STATE := by simpa using h
    exact ⟨fun hne => absurd rfl hne, Or.inr (Or.inl ⟨h2, rfl⟩)⟩

theorem inv_close_step (inv : INVITATION) (role : GAME_ROLE) :
    ((inv_close inv role).2 ≠ 0 → (inv_close inv role).1 = inv) ∧
    ((inv_close inv role).1.state = inv.state ∨
      inv_state_step inv.state (inv_close inv role).1.state) := by
  have hstate : ∀ i : INVITATION, i.state = INV_CLOSED_STATE →
      (i.state = inv.state ∨ inv_state_step inv.state i.state) := by
    intro i hi
    rw [hi]
    cases hs : inv.state
    · exact Or.inr (Or.inr (Or.inl ⟨rfl, rfl⟩))
    · exact Or.inr (Or.inr (Or.inr ⟨rfl, rfl⟩))
    · exact Or.inl rfl
  unfold inv_close
  by_cases hr : role = NULL_ROLE
  · rw [if_pos hr]
    cases hg : inv.game with
    | none => exact ⟨fun hne => absurd rfl hne, hstate _ rfl⟩
    | some g => exact ⟨fun _ => rfl, Or.inl rfl⟩
  · rw [if_neg hr]
    by_cases hs : inv.state = INV_ACCEPTED_STATE ∨ inv.state = INV_OPEN_STATE
    · rw [if_pos hs]
      cases hg : inv.game with
      | none => exact ⟨fun hne => absurd rfl hne, hstate _ rfl⟩
      | some g => exact ⟨fun hne => absurd rfl hne, hstate _ rfl⟩
    · rw [if_neg hs]
      exact ⟨fun _ => rfl, Or.inl rfl⟩

/-- C12: on an invitation created by `inv_create`, after any sequence of
`inv_accept` and `inv_close` calls, one more call that fails (non-zero return)
leaves the invitation, and so its state, unchanged; every call either keeps the
state or moves it OPEN to ACCEPTED, OPEN to CLOSED or ACCEPTED to CLOSED; so no
call takes ACCEPTED back to OPEN, or CLOSED back to OPEN or ACCEPTED. -/
theorem C12_invitation_state_monotonic (source target : Nat)
    (source_role target_role : GAME_ROLE) (inv0 : INVITATION)
    (hcreate : inv_create source target source_role target_role = some inv0)
    (cs : List InvCall) (c : InvCall) :
    inv0.state = INV_OPEN_STATE ∧
    ((c.exec (inv_run inv0 cs)).2 ≠ 0 → (c.exec (inv_run inv0 cs)).1 = inv_run inv0 cs) ∧
    ((c.exec (inv_run inv0 cs)).1.state = (inv_run inv0 cs).state ∨
      inv_state_step (inv_run inv0 cs).state (c.exec (inv_run inv0 cs)).1.state) ∧
    ¬ ((inv_run inv0 cs).state = INV_ACCEPTED_STATE ∧
        (c.exec (inv_run inv0 cs)).1.state = INV_OPEN_STATE) ∧
    ¬ ((inv_run inv0 cs).state = INV_CLOSED_STATE ∧
        (c.exec (inv_run inv0 cs)).1.state ≠ INV_CLOSED_STATE) := by
  have hstep : ((c.exec (inv_run inv0 cs)).2 ≠ 0 →
        (c.exec (inv_run inv0 cs)).1 = inv_run inv0 cs) ∧
      ((c.exec (inv_run inv0 cs)).1.state = (inv_run inv0 cs).state ∨
        inv_state_step (inv_run inv0 cs).state (c.exec (inv_run inv0 cs)).1.state) := by
    cases c with
    | accept => exact inv_accept_step _
    | close role => exact inv_close_step _ role
  have hopen : inv0.state = INV_OPEN_STATE := by
    unfold inv_create at hcreate
    split_ifs at hcreate
    simp only [Option.some.injEq] at hcreate
    rw [← hcreate]
  refine ⟨hopen, hstep.1, hstep.2, ?_, ?_⟩
  · rintro ⟨ha, hb⟩
    rcases hstep.2 with h | h
    · rw [ha, hb] at h
      exact absurd h (by decide)
    · unfold inv_state_step at h
      rw [ha, hb] at h
      simp at h
  · rintro ⟨ha, hb⟩
    rcases hstep.2 with h | h
    · rw [ha] at h
      exact hb h
    · unfold inv_state_step at h
      rw [ha] at h
      simp at h

theorem C12_invitation_state_monotonic_witness :
    inv_create 1 2 FIRST_PLAYER_ROLE SECOND_PLAYER_ROLE =
      some { source := 1, target := 2, source_role := FIRST_PLAYER_ROLE,
             target_role := SECOND_PLAYER_ROLE, state := INV_OPEN_STATE, game := none } ∧
    (inv_run { source := 1, target := 2, source_role := FIRST_PLAYER_ROLE,
               target_role := SECOND_PLAYER_ROLE, state := INV_OPEN_STATE, game := none }
        [.accept]).state = INV_ACCEPTED_STATE ∧
    ((InvCall.close FIRST_PLAYER_ROLE).exec
        (inv_run { source := 1, target := 2, source_role := FIRST_PLAYER_ROLE,
                   target_role := SECOND_PLAYER_ROLE, state := INV_OPEN_STATE, game := none }
          [.accept])).1.state = INV_CLOSED_STATE ∧
    ¬ ((inv_run { source := 1, target := 2, source_role := FIRST_PLAYER_ROLE,
                  target_role := SECOND_PLAYER_ROLE, state := INV_OPEN_STATE, game := none }
          [.accept]).state = INV_ACCEPTED_STATE ∧
        ((InvCall.close FIRST_PLAYER_ROLE).exec
          (inv_run { source := 1, target := 2, source_role := FIRST_PLAYER_ROLE,
                     target_role := SECOND_PLAYER_ROLE, state := INV_OPEN_STATE, game := none }
            [.accept])).1.state = INV_OPEN_STATE) :=
  ⟨rfl, by decide, by decide,
   (C12_invitation_state_monotonic 1 2 FIRST_PLAYER_ROLE SECOND_PLAYER_ROLE _ rfl
      [.accept] (.close FIRST_PLAYER_ROLE)).2.2.2.1⟩

/-! ## Theorems: resignation and login -/

/-- C19: in a game reached from `game_create` that is not over, `game_resign` for
a role r in FIRST, SECOND returns 0, sets the resigned flag of r and `game_over`,
leaves the other resigned flag, the board, the turn and the last move unchanged,
and `game_get_winner` then returns the opponent of r; on every game that is
already over `game_resign` returns -1 and changes nothing, whatever the role. -/
theorem C19_resign_effect (cs : List GameCall) (r : GAME_ROLE)
    (hr : r = FIRST_PLAYER_ROLE ∨ r = SECOND_PLAYER_ROLE)
    (hnot : (game_run game_create cs).game_over = false) :
    (game_resign (game_run game_create cs) r).2 = 0 ∧
    (game_resign (game_run game_create cs) r).1.game_over = true ∧
    (game_resign (game_run game_create cs) r).1.first_player_resigned =
      decide (r = FIRST_PLAYER_ROLE) ∧
    (game_resign (game_run game_create cs) r).1.second_player_resigned =
      decide (r = SECOND_PLAYER_ROLE) ∧
    (game_resign (game_run game_create cs) r).1.game_board =
      (game_run game_create cs).game_board ∧
    (game_resign (game_run game_create cs) r).1.current_role =
      (game_run game_create cs).current_role ∧
    (game_resign (game_run game_create cs) r).1.last_move =
      (game_run game_create cs).last_move ∧
    (game_get_winner (game_resign (game_run game_create cs) r).1).2 = other_role r ∧
    (∀ (g : GAME) (role : GAME_ROLE), g.game_over = true → game_resign g role = (g, -1)) := by
  have hi := game_run_inv cs game_create game_inv_create
  obtain ⟨h1, h2⟩ := game_inv_not_over hi hnot
  refine ⟨?_, ?_, ?_, ?_, ?_, ?_, ?_, ?_, fun g role h => game_resign_of_over g role h⟩
  all_goals
    rcases hr with rfl | rfl
    · simp [game_resign, hnot, h1, h2, game_get_winner, other_role]
    · simp [game_resign, hnot, h1, h2, game_get_winner, other_role]

theorem C19_resign_effect_witness :
    game_create.game_over = false ∧
    (game_resign game_create FIRST_PLAYER_ROLE).2 = 0 ∧
    (game_resign game_create FIRST_PLAYER_ROLE).1.game_over = true ∧
    (game_get_winner (game_resign game_create FIRST_PLAYER_ROLE).1).2 = SECOND_PLAYER_ROLE :=
  ⟨rfl,
   (C19_resign_effect [] FIRST_PLAYER_ROLE (Or.inl rfl) rfl).1,
   (C19_resign_effect [] FIRST_PLAYER_ROLE (Or.inl rfl) rfl).2.1,
   (C19_resign_effect [] FIRST_PLAYER_ROLE (Or.inl rfl) rfl).2.2.2.2.2.2.2.1⟩

/-- C11 (code defect, evaluated): with two registered clients that are both logged
out, `client_login` of the second one as "bob" returns -1 although it is not logged
in and nobody is logged in as "bob" (the lookup returns the first, logged-out,
client); and with the first client logged out and the second logged in as "alice",
`client_login` of the first one as "alice" returns 0 and logs it in although another
registered client is logged in as that player. -/
theorem C11_login_wrong_both_ways :
    client_login
        { head := [ { addr := 1, fd := 4, player := none, invitations := [] },
                    { addr := 2, fd := 5, player := none, invitations := [] } ],
          client_count := 2 } 2 (some ⟨"bob", 1500⟩) =
      some ({ head := [ { addr := 1, fd := 4, player := none, invitations := [] },
                        { addr := 2, fd := 5, player := none, invitations := [] } ],
              client_count := 2 }, -1) ∧
    logged_in_as
        { head := [ { addr := 1, fd := 4, player := none, invitations := [] },
                    { addr := 2, fd := 5, player := none, invitations := [] } ],
          client_count := 2 } "bob" = [] ∧
    client_login
        { head := [ { addr := 1, fd := 4, player := none, invitations := [] },
                    { addr := 2, fd := 5, player := some ⟨"alice", 1500⟩, invitations := [] } ],
          client_count := 2 } 1 (some ⟨"alice", 1500⟩) =
      some ({ head := [ { addr := 1, fd := 4, player := some ⟨"alice", 1500⟩,
                          invitations := [] },
                        { addr := 2, fd := 5, player := some ⟨"alice", 1500⟩,
                          invitations := [] } ],
              client_count := 2 }, 0) := by
  decide

/-! ## Theorems: rating update -/

theorem c_round_zero : c_round (32 * ((1 : ℚ) / 2 - 1 / 2)) = 0 := by
  unfold c_round
  norm_num

theorem c_round_win : c_round (32 * ((1 : ℚ) - 1 / 2)) = 16 := by
  unfold c_round
  norm_num

theorem c_round_loss : c_round (32 * ((0 : ℚ) - 1 / 2)) = -16 := by
  unfold c_round
  norm_num

theorem expected_score_equal (r : Int) : expected_score r r = some (1 / 2) := by
  unfold expected_score libm_pow
  norm_num

/-- C17: for two players with equal ratings, `player_post_result` leaves both
ratings unchanged for a draw (result 0), and gives the winner 16 points more and
the loser 16 points less when player 1 wins (result 1) or player 2 wins
(result 2). -/
theorem C17_post_result_equal_ratings (p1 p2 : PLAYER) (h : p1.rating = p2.rating) :
    player_post_result p1 p2 0 = some (p1, p2) ∧
    player_post_result p1 p2 1 =
      some ({ p1 with rating := p1.rating + 16 }, { p2 with rating := p2.rating - 16 }) ∧
    player_post_result p1 p2 2 =
      some ({ p1 with rating := p1.rating - 16 }, { p2 with rating := p2.rating + 16 }) := by
  have e1 : expected_score p1.rating p2.rating = some (1 / 2) := by
    rw [h]
    exact expected_score_equal _
  have e2 : expected_score p2.rating p1.rating = some (1 / 2) := by
    rw [h]
    exact expected_score_equal _
  unfold player_post_result
  rw [e1, e2]
  simp only [update_rating, c_round_zero, c_round_win, c_round_loss]
  refine ⟨?_, ?_, ?_⟩
  · simp
  · simp
    rfl
  · simp
    rfl

theorem C17_post_result_equal_ratings_witness :
    player_post_result ⟨"alice", 1500⟩ ⟨"bob", 1500⟩ 0 = some (⟨"alice", 1500⟩, ⟨"bob", 1500⟩) ∧
    player_post_result ⟨"alice", 1500⟩ ⟨"bob", 1500⟩ 1 = some (⟨"alice", 1516⟩, ⟨"bob", 1484⟩) ∧
    player_post_result ⟨"alice", 1500⟩ ⟨"bob", 1500⟩ 2 = some (⟨"alice", 1484⟩, ⟨"bob", 1516⟩) :=
  C17_post_result_equal_ratings ⟨"alice", 1500⟩ ⟨"bob", 1500⟩ rfl

/-! ## Theorems: wire codec -/

theorem header_bytes_length (h : JEUX_PACKET_HEADER) : (header_bytes h).length = 16 := by
  simp [header_bytes, le_bytes]

theorem header_of_bytes_bytes (h : JEUX_PACKET_HEADER) (hw : header_wf h) :
    header_of_bytes (header_bytes h) = some h := by
  obtain ⟨h1, h2, h3, h4, h5, h6, h7⟩ := hw
  cases h with
  | mk t i r s a b c =>
    simp only at h1 h2 h3 h4 h5 h6 h7
    simp only [header_bytes, le_bytes, List.cons_append, List.nil_append, header_of_bytes,
      Option.some.injEq, JEUX_PACKET_HEADER.mk.injEq]
    refine ⟨?_, ?_, ?_, ?_, ?_, ?_, ?_⟩ <;> omega

theorem header_of_bytes_short (l : List Nat) (h : l.length < 16) : header_of_bytes l = none := by
  unfold header_of_bytes
  split
  · simp at h
  · rfl

theorem take_header (h : JEUX_PACKET_HEADER) (l : List Nat) :
    (header_bytes h ++ l).take 16 = header_bytes h := by
  rw [List.take_append_of_le_length (by rw [header_bytes_length])]
  rw [List.take_of_length_le (by rw [header_bytes_length])]

theorem drop_header (h : JEUX_PACKET_HEADER) (l : List Nat) :
    (header_bytes h ++ l).drop 16 = l := by
  have := header_bytes_length h
  rw [List.drop_append_of_le_length (by omega), List.drop_of_length_le (by omega)]
  rfl

/-- C16: for every header whose fields fit their widths and every payload whose
length is the payload size the header carries (`ntohs` of its `size` field, at
most 65535), `proto_send_packet` returns 0, and `proto_recv_packet` applied to the
bytes it wrote (followed by any later bytes `more`) returns 0 with a header equal
in every field, the payload equal byte for byte (no payload when the size is 0)
and `more` left unread; and `proto_recv_packet` returns -1 whenever fewer than 16
bytes are available. -/
theorem C16_frame_round_trip (hdr : JEUX_PACKET_HEADER) (data more : List Nat)
    (hw : header_wf hdr) (hlen : data.length = ntohs hdr.size) :
    ntohs hdr.size ≤ 65535 ∧
    proto_send_packet [] hdr (some data) = some (header_bytes hdr ++ data, 0) ∧
    proto_recv_packet (header_bytes hdr ++ data ++ more) =
      { ret := 0, hdr := some hdr,
        payload := if ntohs hdr.size = 0 then none else some data, rest := more } ∧
    (∀ inp : List Nat, inp.length < 16 → (proto_recv_packet inp).ret = -1) := by
  refine ⟨?_, ?_, ?_, ?_⟩
  · unfold ntohs
    omega
  · unfold proto_send_packet
    by_cases hz : ntohs hdr.size > 0
    · simp only [hz, if_true, List.nil_append]
      rw [if_neg (by omega)]
      rw [← hlen, List.take_length]
    · have h0 : data = [] := by
        apply List.eq_nil_of_length_eq_zero
        omega
      simp only [hz, if_false, List.nil_append, h0, List.append_nil]
  · unfold proto_recv_packet
    rw [List.append_assoc, take_header, drop_header, header_of_bytes_bytes hdr hw]
    by_cases hz : ntohs hdr.size > 0
    · have hne : ntohs hdr.size ≠ 0 := by omega
      simp only [hz, if_true, hne, if_false]
      rw [← hlen, List.take_left, List.drop_left]
      simp
    · have h0 : ntohs hdr.size = 0 := by omega
      have hd : data = [] := by
        apply List.eq_nil_of_length_eq_zero
        omega
      simp [h0, hd]
  · intro inp hinp
    unfold proto_recv_packet
    rw [header_of_bytes_short _ (by rw [List.length_take]; omega)]

theorem C16_frame_round_trip_witness :
    header_wf moved_header_example ∧
    [88, 124, 79].length = ntohs moved_header_example.size ∧
    proto_recv_packet (header_bytes moved_header_example ++ [88, 124, 79] ++ [1, 2]) =
      { ret := 0, hdr := some moved_header_example, payload := some [88, 124, 79],
        rest := [1, 2] } :=
  ⟨by decide, by decide,
   (C16_frame_round_trip moved_header_example [88, 124, 79] [1, 2]
      (by decide) (by decide)).2.2.1⟩

/-! ## Theorems: client operations on invitations -/

/-- C13 (code defect, evaluated): client A invites client B and then calls
`client_accept_invitation` itself with its own id 0.  A is the source of the
invitation, not its target, yet the call returns 0, and afterwards the invitation
is ACCEPTED and holds a new game. -/
theorem C13_source_accepts_own_invitation :
    (world_run world_init (invite_calls ++ [.accept 1 0])).map (fun r => r.2) =
      some [0, 0, 0, 0, 0, 0] ∧
    (world_run world_init invite_calls).map
        (fun r => (world_invitations_of r.1 1,
          (world_inv r.1 100).map fun i => (i.source, i.target, i.state, i.game.isSome))) =
      some ([100], some (1, 2, INV_OPEN_STATE, false)) ∧
    (world_run world_init (invite_calls ++ [.accept 1 0])).map
        (fun r => (world_inv r.1 100).map fun i => (i.source, i.target, i.state, i.game.isSome)) =
      some (some (1, 2, INV_ACCEPTED_STATE, true)) :=
  ⟨by decide, by decide, by decide⟩

/-- C15 (code defect): `client_revoke_invitation` never returns 0, because the
path that has passed all checks calls `client_remove_invitation` on the client,
whose mutex the call holds, and behind that call stores through a `NULL` header
pointer; in particular, when client A revokes the OPEN invitation it has made (its
id 0), the call does not return, the invitation is still OPEN and still in the
list of the target. -/
theorem C15_revoke_never_succeeds :
    (∀ (w w1 : World) (client : Nat) (id : Int),
      client_revoke_invitation w client id ≠ some (w1, 0)) ∧
    (world_run world_init invite_calls).map (fun r => r.2) = some [0, 0, 0, 0, 0] ∧
    ((world_run world_init invite_calls).bind
      fun r => (client_revoke_invitation r.1 1 0).map fun q => q.2) = none ∧
    (world_run world_init invite_calls).map
        (fun r => (world_invitations_of r.1 2, (world_inv r.1 100).map fun i => i.state)) =
      some ([100], some INV_OPEN_STATE) := by
  refine ⟨?_, by decide, by decide, by decide⟩
  intro w w1 client id h
  unfold client_revoke_invitation at h
  by_cases hl : is_locked w client = true
  · rw [if_pos hl] at h
    exact absurd h (by simp)
  · rw [if_neg hl] at h
    split at h
    · exact absurd h (by simp)
    · split at h
      · simp at h
      · split at h
        · exact absurd h (by simp)
        · split_ifs at h
          · simp at h
          · simp at h
          · split at h <;> exact absurd h (by simp)

theorem is_locked_lock_self (w : World) (a : Nat) : is_locked (world_lock w a) a = true := by
  simp [is_locked, world_lock]

theorem is_locked_lock_of (w : World) (a b : Nat) (h : is_locked w b = true) :
    is_locked (world_lock w a) b = true := by
  simp only [is_locked, world_lock, List.any_cons, Bool.or_eq_true] at h ⊢
  exact Or.inr h

theorem resign_game_finish_waits (w : World) (client p : Nat) (inv : INVITATION)
    (h : is_locked w inv.source = true) :
    resign_game_finish w client p inv = .waiting w := by
  unfold resign_game_finish remove_invitation_call
  rw [if_pos h]

/-- C20 (code defect): no call of `client_resign_game` returns 0, in any state.
A call that has passed the checks holds the mutex of the source of the invitation
(line 820) when line 842 calls `client_remove_invitation` on the source, which
locks that mutex again (line 419) and waits.  A invites B and B accepts; then
`client_resign_game` of A with its id 0 does not return, and neither does that of
B: the thread waits, the invitation is still in both lists and ACCEPTED, no
RESIGNED frame has been written to the connection of B, which has received the
INVITED frame only, the game is not over, no resigned flag is set,
`game_get_winner` reports no winner, and both ratings are still 1500. -/
theorem C20_resign_game_never_returns_zero :
    (∀ (w w1 : World) (client : Nat) (id : Int),
      client_resign_game w client id ≠ .returned w1 0) ∧
    (world_run world_init (invite_calls ++ [.accept 2 0])).map (fun r => r.2) =
      some [0, 0, 0, 0, 0, 0] ∧
    ((world_run world_init (invite_calls ++ [.accept 2 0])).map fun r =>
      ((client_resign_game r.1 1 0).waits, (client_resign_game r.1 2 0).waits)) =
      some (true, true) ∧
    (world_run world_init (invite_calls ++ [.accept 2 0, .resign 1 0])).isNone = true ∧
    ((world_run world_init (invite_calls ++ [.accept 2 0])).bind fun r =>
      (client_resign_game r.1 1 0).state.map fun w =>
        (world_invitations_of w 1, world_invitations_of w 2, wire_types (w.wire 5),
          (world_inv w 100).map fun i => i.state)) =
      some ([100], [100], [JEUX_INVITED_PKT], some INV_ACCEPTED_STATE) ∧
    ((world_run world_init (invite_calls ++ [.accept 2 0])).bind fun r =>
      (client_resign_game r.1 1 0).state.bind fun w =>
        (world_inv w 100).bind fun i => i.game.map fun g =>
          (g.game_over, g.first_player_resigned, g.second_player_resigned,
            (game_get_winner g).2)) =
      some (false, false, false, NULL_ROLE) ∧
    ((world_run world_init (invite_calls ++ [.accept 2 0])).bind fun r =>
      (client_resign_game r.1 1 0).state.map fun w =>
        (world_rating w 1, world_rating w 2)) =
      some (some 1500, some 1500) := by
  refine ⟨?_, by decide, by decide, by decide, by decide, by decide, by decide⟩
  intro w w1 client id h
  unfold client_resign_game at h
  by_cases hl : is_locked w client = true
  · rw [if_pos hl] at h
    exact Outcome.noConfusion h
  rw [if_neg hl] at h
  cases hc : world_client w client with
  | none =>
    rw [hc] at h
    exact Outcome.noConfusion h
  | some c =>
    rw [hc] at h
    simp only at h
    cases hf : client_find_invitation c id with
    | none =>
      rw [hf] at h
      exact Outcome.noConfusion h
    | some p =>
      rw [hf] at h
      simp only at h
      cases hi : world_inv w p with
      | none =>
        rw [hi] at h
        exact Outcome.noConfusion h
      | some inv =>
        rw [hi] at h
        simp only at h
        cases hs : world_client w inv.source with
        | none =>
          rw [hs] at h
          exact Outcome.noConfusion h
        | some src =>
          cases ht : world_client w inv.target with
          | none =>
            rw [hs, ht] at h
            exact Outcome.noConfusion h
          | some tgt =>
            rw [hs, ht] at h
            simp only at h
            by_cases h1 : is_locked w inv.source = true
            · rw [if_pos h1] at h
              exact Outcome.noConfusion h
            rw [if_neg h1] at h
            by_cases h2 : is_locked (world_lock w inv.source) inv.target = true
            · rw [if_pos h2] at h
              exact Outcome.noConfusion h
            rw [if_neg h2] at h
            by_cases h3 : (inv_get_game inv).isNone = true
            · rw [if_pos h3] at h
              injection h with _ hret
              exact absurd hret (by decide)
            rw [if_neg h3, resign_game_finish_waits _ client p inv
              (is_locked_lock_of _ _ _ (is_locked_lock_self w inv.source))] at h
            exact Outcome.noConfusion h

theorem world_client_addr {w : World} {a : Nat} {c : CLIENT} (h : world_client w a = some c) :
    c.addr = a := by
  unfold world_client at h
  have := List.find?_some h
  simpa using this

theorem find_client_map_ne (l : List CLIENT) (c : CLIENT) (a : Nat) (h : a ≠ c.addr) :
    (l.map fun d => if d.addr = c.addr then c else d).find? (fun d => decide (d.addr = a)) =
      l.find? (fun d => decide (d.addr = a)) := by
  induction l with
  | nil => rfl
  | cons d rest ih =>
    simp only [List.map_cons, List.find?_cons]
    by_cases hd : d.addr = c.addr
    · have h1 : ¬ c.addr = a := fun e => h e.symm
      have h2 : ¬ d.addr = a := fun e => h (by rw [← e, hd])
      simp only [hd, if_true, h1, h2, decide_False, ih]
    · simp only [hd, if_false, ih]

theorem find_client_map_same (l : List CLIENT) (c c0 : CLIENT)
    (h : l.find? (fun d => decide (d.addr = c.addr)) = some c0) :
    (l.map fun d => if d.addr = c.addr then c else d).find? (fun d => decide (d.addr = c.addr)) =
      some c := by
  induction l with
  | nil => simp at h
  | cons d rest ih =>
    simp only [List.map_cons, List.find?_cons] at h ⊢
    by_cases hd : d.addr = c.addr
    · simp [hd]
    · simp only [hd, if_false, decide_False] at h ⊢
      exact ih h

theorem world_client_put_client_ne (w : World) (c : CLIENT) (a : Nat) (h : a ≠ c.addr) :
    world_client (world_put_client w c) a = world_client w a :=
  find_client_map_ne w.creg.head c a h

theorem world_client_put_client_same (w : World) (c c0 : CLIENT)
    (h : world_client w c.addr = some c0) :
    world_client (world_put_client w c) c.addr = some c :=
  find_client_map_same w.creg.head c c0 h

theorem find_inv_append (l : List (Nat × INVITATION)) (p : Nat) (inv : INVITATION)
    (h : l.any (fun e => decide (e.1 = p)) = false) :
    (l ++ [(p, inv)]).find? (fun e => decide (e.1 = p)) = some (p, inv) := by
  induction l with
  | nil => simp
  | cons e rest ih =>
    simp only [List.any_cons, Bool.or_eq_false_iff, decide_eq_false_iff_not] at h
    simp only [List.cons_append, List.find?_cons, h.1, decide_False]
    exact ih h.2

theorem find_inv_map (l : List (Nat × INVITATION)) (p : Nat) (inv : INVITATION)
    (h : l.any (fun e => decide (e.1 = p)) = true) :
    (l.map fun e => if e.1 = p then (p, inv) else e).find? (fun e => decide (e.1 = p)) =
      some (p, inv) := by
  induction l with
  | nil => simp at h
  | cons e rest ih =>
    simp only [List.map_cons, List.find?_cons]
    by_cases he : e.1 = p
    · simp [he]
    · simp only [List.any_cons, he, decide_False, Bool.false_or] at h
      simp only [he, if_false, decide_False]
      exact ih h

theorem world_inv_put_inv (w : World) (p : Nat) (inv : INVITATION) :
    world_inv (world_put_inv w p inv) p = some inv := by
  unfold world_inv world_put_inv
  by_cases h : w.invitations.any (fun e => decide (e.1 = p)) = true
  · simp only [h, if_true]
    rw [find_inv_map _ _ _ h]
    rfl
  · have h2 : w.invitations.any (fun e => decide (e.1 = p)) = false :=
      Bool.eq_false_iff.2 h
    simp only [h2, Bool.false_eq_true, if_false]
    rw [find_inv_append _ _ _ h2]
    rfl

theorem client_add_invitation_spec (c : CLIENT) (inv : Nat) :
    (client_add_invitation c inv).2 = 0 ∧ (client_add_invitation c inv).1.addr = c.addr ∧
    (client_add_invitation c inv).1.player = c.player ∧
    (client_add_invitation c inv).1.fd = c.fd ∧
    ((client_add_invitation c inv).1.invitations.map fun n => n.invitation) =
      (c.invitations.map fun n => n.invitation) ++ [inv] := by
  unfold client_add_invitation
  cases h : c.invitations with
  | nil => simp
  | cons n rest => simp

theorem world_add_invitation_eq (w : World) (a : Nat) (c : CLIENT) (inv : Nat)
    (h : world_client w a = some c) :
    world_add_invitation w a inv =
      some (world_put_client w (client_add_invitation c inv).1, 0) := by
  unfold world_add_invitation
  rw [h]
  simp only [(client_add_invitation_spec c inv).1]

theorem client_send_packet_null (w : World) (a : Nat) (c : CLIENT) (pkt : JEUX_PACKET_HEADER)
    (h : world_client w a = some c) :
    ∃ (out : List Nat) (hdr : JEUX_PACKET_HEADER) (res : Int),
      client_send_packet w a pkt none =
        some ({ w with wire := fun fd => if fd = c.fd then out else w.wire fd }, hdr, res) := by
  unfold client_send_packet
  rw [h]
  unfold proto_send_packet
  by_cases hz : ntohs (htons pkt.size) > 0
  · simp only [hz, if_true]
    exact ⟨_, _, _, rfl⟩
  · simp only [hz, if_false]
    exact ⟨_, _, _, rfl⟩

theorem is_locked_lock_ne (w : World) (a b : Nat) (hne : b ≠ a)
    (h : is_locked w b = false) : is_locked (world_lock w a) b = false := by
  simp only [is_locked, world_lock, List.any_cons, Bool.or_eq_false_iff,
    decide_eq_false_iff_not] at h ⊢
  exact ⟨fun e => hne e.symm, h⟩

/-- C14 (code defect when the target is the source): for live clients `source` and
`target` and a new invitation object whose address occurs in neither list.
Whenever `client_make_invitation` returns a value other than -1, each of the two
lists is the old list followed by one entry for the new invitation, which
therefore occurs exactly once in each, and the new invitation is OPEN, has no
game, and has the two clients and the two roles as its fields.  When the source or
the target is not logged in, the two clients differ and their mutexes are not
locked, the call returns -1 and changes nothing but the two mutexes, which it
leaves locked.  When the target is the source, the call does not return: line 469
locks the mutex that line 468 has locked, before `inv_create` could reject the
pair. -/
theorem C14_make_invitation (w : World) (source target : Nat)
    (source_role target_role : GAME_ROLE) (inv_addr : Nat) (junk : JEUX_PACKET_HEADER)
    (s t : CLIENT) (hs : world_client w source = some s) (ht : world_client w target = some t)
    (hfs : inv_addr ∉ world_invitations_of w source)
    (hft : inv_addr ∉ world_invitations_of w target) :
    (∀ (w1 : World) (r : Int),
      client_make_invitation w source target source_role target_role inv_addr junk =
        some (w1, r) → r ≠ -1 →
      world_invitations_of w1 source = world_invitations_of w source ++ [inv_addr] ∧
      world_invitations_of w1 target = world_invitations_of w target ++ [inv_addr] ∧
      (world_invitations_of w1 source).count inv_addr = 1 ∧
      (world_invitations_of w1 target).count inv_addr = 1 ∧
      (world_inv w1 inv_addr).map
          (fun i => (i.source, i.target, i.source_role, i.target_role, i.state, i.game.isNone)) =
        some (source, target, source_role, target_role, INV_OPEN_STATE, true)) ∧
    ((s.player = none ∨ t.player = none) → target ≠ source →
      is_locked w source = false → is_locked w target = false →
      client_make_invitation w source target source_role target_role inv_addr junk =
        some (world_lock (world_lock w source) target, -1)) ∧
    (target = source →
      client_make_invitation w source target source_role target_role inv_addr junk = none) := by
  have hsa := world_client_addr hs
  have hta := world_client_addr ht
  refine ⟨?_, ?_, ?_⟩
  · intro w1 r hcall hr
    unfold client_make_invitation at hcall
    simp only [hs, ht] at hcall
    by_cases hl1 : is_locked w source = true
    · rw [if_pos hl1] at hcall
      exact absurd hcall (by simp)
    rw [if_neg hl1] at hcall
    by_cases hl2 : is_locked (world_lock w source) target = true
    · rw [if_pos hl2] at hcall
      exact absurd hcall (by simp)
    rw [if_neg hl2] at hcall
    by_cases hp : (s.player.isNone || t.player.isNone) = true
    · rw [if_pos hp] at hcall
      simp only [Option.some.injEq, Prod.mk.injEq] at hcall
      exact absurd hcall.2.symm hr
    rw [if_neg hp] at hcall
    by_cases hst : source = target
    · simp only [inv_create, hst, if_true] at hcall
      simp only [Option.some.injEq, Prod.mk.injEq] at hcall
      exact absurd hcall.2.symm hr
    simp only [inv_create, hst, if_false] at hcall
    obtain ⟨I, hI⟩ : ∃ I : INVITATION, I =
        { source := source, target := target, source_role := source_role,
          target_role := target_role, state := INV_OPEN_STATE, game := none } := ⟨_, rfl⟩
    rw [← hI] at hcall
    obtain ⟨W, hW⟩ : ∃ W : World, W = world_lock (world_lock w source) target := ⟨_, rfl⟩
    rw [← hW] at hcall
    have hWc : ∀ a, world_client W a = world_client w a := by
      intro a
      rw [hW]
      rfl
    have hWi : ∀ a, world_invitations_of W a = world_invitations_of w a := by
      intro a
      rw [hW]
      rfl
    have hs1 : world_client (world_put_inv W inv_addr I) source = some s := (hWc _).trans hs
    have ht1 : world_client (world_put_inv W inv_addr I) target = some t := (hWc _).trans ht
    rw [world_add_invitation_eq (world_put_inv W inv_addr I) source s inv_addr hs1] at hcall
    simp only at hcall
    have hsa2 : (client_add_invitation s inv_addr).1.addr = source := by
      rw [(client_add_invitation_spec s inv_addr).2.1, hsa]
    have hta2 : (client_add_invitation t inv_addr).1.addr = target := by
      rw [(client_add_invitation_spec t inv_addr).2.1, hta]
    have ht2 : world_client (world_put_client (world_put_inv W inv_addr I)
        (client_add_invitation s inv_addr).1) target = some t := by
      rw [world_client_put_client_ne _ _ _ (by rw [hsa2]; exact fun e => hst e.symm)]
      exact ht1
    rw [world_add_invitation_eq _ target t inv_addr ht2] at hcall
    simp only at hcall
    have ht3 := world_client_put_client_same (world_put_client (world_put_inv W inv_addr I)
        (client_add_invitation s inv_addr).1) (client_add_invitation t inv_addr).1 t
      (by rw [hta2]; exact ht2)
    rw [hta2] at ht3
    have hs2 := world_client_put_client_same (world_put_inv W inv_addr I)
        (client_add_invitation s inv_addr).1 s (by rw [hsa2]; exact hs1)
    rw [hsa2] at hs2
    have hs3 : world_client (world_put_client (world_put_client (world_put_inv W inv_addr I)
        (client_add_invitation s inv_addr).1) (client_add_invitation t inv_addr).1) source =
        some (client_add_invitation s inv_addr).1 := by
      rw [world_client_put_client_ne _ _ _ (by rw [hta2]; exact hst)]
      exact hs2
    obtain ⟨out, hdr, res, hsend⟩ := client_send_packet_null _ target _
      { junk with type := JEUX_INVITED_PKT } ht3
    unfold make_invitation_finish at hcall
    rw [if_neg (by decide), if_neg (by decide), hsend] at hcall
    simp only at hcall
    by_cases hres : res ≠ 0
    · rw [if_pos hres] at hcall
      split at hcall
      · exact absurd hcall (by simp)
      · split at hcall
        · exact absurd hcall (by simp)
        · simp only [Option.some.injEq, Prod.mk.injEq] at hcall
          exact absurd hcall.2.symm hr
    · rw [if_neg hres] at hcall
      simp only [Option.some.injEq, Prod.mk.injEq] at hcall
      obtain ⟨hw1, _⟩ := hcall
      have hsrc : world_client w1 source = some (client_add_invitation s inv_addr).1 := by
        rw [← hw1]
        exact hs3
      have htgt : world_client w1 target = some (client_add_invitation t inv_addr).1 := by
        rw [← hw1]
        exact ht3
      have hinv : world_inv w1 inv_addr = some I := by
        rw [← hw1]
        exact world_inv_put_inv W inv_addr I
      have hls : world_invitations_of w1 source = world_invitations_of w source ++ [inv_addr] := by
        unfold world_invitations_of
        rw [hsrc, hs]
        exact (client_add_invitation_spec s inv_addr).2.2.2.2
      have hlt : world_invitations_of w1 target = world_invitations_of w target ++ [inv_addr] := by
        unfold world_invitations_of
        rw [htgt, ht]
        exact (client_add_invitation_spec t inv_addr).2.2.2.2
      refine ⟨hls, hlt, ?_, ?_, ?_⟩
      · rw [hls, List.count_append, List.count_eq_zero_of_not_mem hfs]
        simp
      · rw [hlt, List.count_append, List.count_eq_zero_of_not_mem hft]
        simp
      · rw [hinv, hI]
        rfl
  · intro h hne hl1 hl2
    have hl3 := is_locked_lock_ne w source target hne hl2
    unfold client_make_invitation
    simp only [hs, ht]
    rw [if_neg (by rw [hl1]; decide), if_neg (by rw [hl3]; decide)]
    have hp : (s.player.isNone || t.player.isNone) = true := by
      rcases h with h | h
      · simp [h]
      · simp [h]
    rw [if_pos hp]
  · intro h
    subst h
    unfold client_make_invitation
    simp only [hs]
    by_cases hl1 : is_locked w target = true
    · rw [if_pos hl1]
    · rw [if_neg hl1, if_pos (is_locked_lock_self w target)]

theorem C14_make_invitation_witness :
    world_client two_clients_world 1 =
      some { addr := 1, fd := 4, player := some ⟨"alice", 1500⟩, invitations := [] } ∧
    world_client two_clients_world 2 =
      some { addr := 2, fd := 5, player := some ⟨"bob", 1500⟩, invitations := [] } ∧
    100 ∉ world_invitations_of two_clients_world 1 ∧
    100 ∉ world_invitations_of two_clients_world 2 ∧
    (client_make_invitation two_clients_world 1 2 FIRST_PLAYER_ROLE SECOND_PLAYER_ROLE 100
        header_zero).map (fun x => x.2) = some 0 ∧
    (∀ (w1 : World) (r : Int),
      client_make_invitation two_clients_world 1 2 FIRST_PLAYER_ROLE SECOND_PLAYER_ROLE 100
        header_zero = some (w1, r) → r ≠ -1 →
      (world_invitations_of w1 1).count 100 = 1 ∧ (world_invitations_of w1 2).count 100 = 1) ∧
    (world_client alice_world 2 =
      some { addr := 2, fd := 5, player := none, invitations := [] } ∧
     is_locked alice_world 1 = false ∧ is_locked alice_world 2 = false ∧
     client_make_invitation alice_world 1 2 FIRST_PLAYER_ROLE SECOND_PLAYER_ROLE 100
        header_zero = some (world_lock (world_lock alice_world 1) 2, -1)) ∧
    client_make_invitation two_clients_world 1 1 FIRST_PLAYER_ROLE SECOND_PLAYER_ROLE 100
        header_zero = none :=
  ⟨rfl, rfl, by decide, by decide, by decide,
   fun w1 r hc hr =>
     ⟨((C14_make_invitation two_clients_world 1 2 FIRST_PLAYER_ROLE SECOND_PLAYER_ROLE 100
          header_zero _ _ rfl rfl (by decide) (by decide)).1 w1 r hc hr).2.2.1,
      ((C14_make_invitation two_clients_world 1 2 FIRST_PLAYER_ROLE SECOND_PLAYER_ROLE 100
          header_zero _ _ rfl rfl (by decide) (by decide)).1 w1 r hc hr).2.2.2.1⟩,
   ⟨by decide, by decide, by decide,
    (C14_make_invitation alice_world 1 2 FIRST_PLAYER_ROLE SECOND_PLAYER_ROLE 100
      header_zero { addr := 1, fd := 4, player := some ⟨"alice", 1500⟩, invitations := [] }
      { addr := 2, fd := 5, player := none, invitations := [] }
      (by decide) (by decide) (by decide) (by decide)).2.1
      (Or.inr rfl) (by decide) (by decide) (by decide)⟩,
   (C14_make_invitation two_clients_world 1 1 FIRST_PLAYER_ROLE SECOND_PLAYER_ROLE 100
      header_zero _ _ rfl rfl (by decide) (by decide)).2.2 rfl⟩


/-! ## Theorems: move parsing and rejected moves -/

/-- C29: `game_parse_move` never fails.  It returns a move for every game, role
and text, with `atoi` of the text as the cell: the empty text, "abc" and "0" give
the cell 0, "10" gives 10, "5 and more" gives 5, and "5<-O" passed with
FIRST_PLAYER_ROLE gives the cell 5 with role FIRST_PLAYER_ROLE, where the claim
requires the result `NULL`. -/
theorem C29_parse_move_never_fails :
    (∀ (g : GAME) (role : GAME_ROLE) (text : String),
      (game_parse_move g role text).isSome = true) ∧
    game_parse_move game_create FIRST_PLAYER_ROLE "" = some ⟨0, FIRST_PLAYER_ROLE⟩ ∧
    game_parse_move game_create FIRST_PLAYER_ROLE "abc" = some ⟨0, FIRST_PLAYER_ROLE⟩ ∧
    game_parse_move game_create FIRST_PLAYER_ROLE "0" = some ⟨0, FIRST_PLAYER_ROLE⟩ ∧
    game_parse_move game_create FIRST_PLAYER_ROLE "10" = some ⟨10, FIRST_PLAYER_ROLE⟩ ∧
    game_parse_move game_create FIRST_PLAYER_ROLE "5 and more" = some ⟨5, FIRST_PLAYER_ROLE⟩ ∧
    game_parse_move game_create FIRST_PLAYER_ROLE "5<-O" = some ⟨5, FIRST_PLAYER_ROLE⟩ :=
  ⟨fun _ _ _ => rfl, by decide, by decide, by decide, by decide, by decide, by decide⟩

/-- C30: for every game and every move, when `game_over` is set, or when the cell
index of the move is below 1 or above 9, `game_apply_move` returns -1 and the game
it leaves is the game it was given. -/
theorem C30_rejected_move_changes_nothing (g : GAME) (m : GAME_MOVE)
    (h : g.game_over = true ∨ m.value < 1 ∨ m.value > 9) :
    game_apply_move g m = (g, -1) := by
  unfold game_apply_move
  by_cases ho : g.game_over = true
  · rw [if_pos ho]
  · rw [if_neg ho]
    rcases h with h | h | h
    · exact absurd h ho
    · rw [if_pos (Or.inl h)]
    · rw [if_pos (Or.inr h)]

theorem C30_rejected_move_changes_nothing_witness :
    ((game_resign game_create FIRST_PLAYER_ROLE).1.game_over = true ∧
     game_apply_move (game_resign game_create FIRST_PLAYER_ROLE).1 ⟨5, SECOND_PLAYER_ROLE⟩ =
       ((game_resign game_create FIRST_PLAYER_ROLE).1, -1)) ∧
    ((0 : Int) < 1 ∧
     game_apply_move game_create ⟨0, FIRST_PLAYER_ROLE⟩ = (game_create, -1)) ∧
    ((10 : Int) > 9 ∧
     game_apply_move game_create ⟨10, FIRST_PLAYER_ROLE⟩ = (game_create, -1)) :=
  ⟨⟨rfl, C30_rejected_move_changes_nothing _ ⟨5, SECOND_PLAYER_ROLE⟩ (Or.inl rfl)⟩,
   ⟨by decide, C30_rejected_move_changes_nothing game_create ⟨0, FIRST_PLAYER_ROLE⟩
      (Or.inr (Or.inl (by decide)))⟩,
   ⟨by decide, C30_rejected_move_changes_nothing game_create ⟨10, FIRST_PLAYER_ROLE⟩
      (Or.inr (Or.inr (by decide)))⟩⟩

/-! ## Theorems: logout and the service loop -/

/-- C21: `client_logout` resigns the game of an invitation under
FIRST_PLAYER_ROLE when the client is the source and under SECOND_PLAYER_ROLE
otherwise, whatever roles the invitation gives them.  A, at address 1, is the
source of the invitation at address 100 and plays SECOND_PLAYER_ROLE in it; after B
has accepted, `client_logout` of A returns 0 and marks the first player, who is
B, as the one who resigned, so that the winner is SECOND_PLAYER_ROLE: A, who
logged out, and not the opponent. -/
theorem C21_logout_resigns_by_position :
    ((world_run world_init (invite_calls ++ [.accept 2 0])).bind fun r =>
      (world_client_logout r.1 1).bind fun q =>
        (world_inv q.1 100).bind fun i =>
          i.game.map fun g =>
            (q.2, i.source, i.source_role, g.first_player_resigned, g.second_player_resigned,
              (game_get_winner g).2)) =
      some (0, 1, SECOND_PLAYER_ROLE, true, false, SECOND_PLAYER_ROLE) := by
  decide

/-- C22: the service loop answers LOGIN, INVITE and REVOKE with ACK whatever the
operation returns.  With A logged in as "alice": a LOGIN of B as "alice", for
which `client_login` returns -1, is answered with ACK, leaves B without a player
and sets the flag `logged_in` of B, so that a USERS request of B is then answered
with ACK as well; an INVITE of A naming "bob", who is not logged in and for whom
`client_make_invitation` returns -1, is answered with ACK; a REVOKE of A with the
unknown id 5, for which `client_revoke_invitation` returns -1, is answered with
ACK. -/
theorem C22_failed_requests_answered_with_ack :
    ((server_run server_init alice_events).bind fun s =>
      (client_login s.world.creg 2 (some (preg_register s.world.preg "alice").2)).map
        fun r => r.2) = some (-1) ∧
    ((server_run server_init (alice_events ++
        [.packet 2 (request_header JEUX_LOGIN_PKT 0 0) (some (string_bytes "alice"))
          (env_at 100)])).map fun s =>
      (wire_types (s.world.wire 5), s.logged_in 2,
        (world_client s.world 2).map fun c => c.player)) =
      some ([JEUX_ACK_PKT], true, some none) ∧
    ((server_run server_init (alice_events ++
        [.packet 2 (request_header JEUX_LOGIN_PKT 0 0) (some (string_bytes "alice"))
          (env_at 100),
         .packet 2 (request_header JEUX_USERS_PKT 0 0) none (env_at 100)])).map fun s =>
      wire_types (s.world.wire 5)) = some [JEUX_ACK_PKT, JEUX_ACK_PKT] ∧
    ((server_run server_init alice_events).bind fun s =>
      (client_make_invitation s.world 1 2 SECOND_PLAYER_ROLE FIRST_PLAYER_ROLE 100
        header_zero).map fun r => r.2) = some (-1) ∧
    ((server_run server_init (alice_events ++
        [.packet 1 (request_header JEUX_INVITE_PKT 0 1) (some (string_bytes "bob"))
          (env_at 100)])).map fun s =>
      (wire_types (s.world.wire 4), wire_types (s.world.wire 5))) =
      some ([JEUX_ACK_PKT, JEUX_ACK_PKT], []) ∧
    ((server_run server_init alice_events).bind fun s =>
      (client_revoke_invitation s.world 1 5).map fun r => r.2) = some (-1) ∧
    ((server_run server_init (alice_events ++
        [.packet 1 (request_header JEUX_REVOKE_PKT 5 0) none (env_at 100)])).map fun s =>
      wire_types (s.world.wire 4)) = some [JEUX_ACK_PKT, JEUX_ACK_PKT] :=
  ⟨by decide, by decide, by decide, by decide, by decide, by decide, by decide⟩

/-- C23: a frame of type ENDED gets no reply at all.  In every state, for every
client, payload and header, the loop body run on a header of type ENDED while the
flag `logged_in` is clear returns the state as it was, so nothing is written to
the connection; a client that connects and sends an ENDED frame has received no
frame, where a USERS frame sent instead is answered with one NACK. -/
theorem C23_ended_frame_gets_no_reply :
    (∀ (w : World) (client : Nat) (hdr : JEUX_PACKET_HEADER) (payload : Option (List Nat))
        (env : ServiceEnv),
      service_dispatch w client false { hdr with type := JEUX_ENDED_PKT } payload env =
        some (w, false)) ∧
    ((server_run server_init
        [.connect 4 1, .packet 1 (request_header JEUX_ENDED_PKT 0 0) none (env_at 100)]).map
      fun s => wire_types (s.world.wire 4)) = some [] ∧
    ((server_run server_init
        [.connect 4 1, .packet 1 (request_header JEUX_USERS_PKT 0 0) none (env_at 100)]).map
      fun s => wire_types (s.world.wire 4)) = some [JEUX_NACK_PKT] :=
  ⟨fun _ _ _ _ _ => rfl, by decide, by decide⟩

/-- C25: `client_make_invitation` sets only the `type` field of the INVITED
header; `id` and `role` keep what the allocated block held.  With a block of
zeros, the INVITED frame sent to B for the invitation of `invite_calls` has role 0
although B is given FIRST_PLAYER_ROLE, and the INVITED frame for the third
invitation in the list of B has id 0 although the id of that invitation in the
list of B is 1; with a block that holds 7 and 9 in these fields, the frame has id
7 and role 9. -/
theorem C25_invited_frame_fields_not_set :
    ((world_run world_init invite_calls).bind fun r =>
      (world_inv r.1 100).map fun i =>
        (r.2, (wire_frames 100 (r.1.wire 5)).map (fun f => (f.1.type, f.1.id, f.1.role)),
          i.target, i.target_role.toInt)) =
      some ([0, 0, 0, 0, 0], [(JEUX_INVITED_PKT, 0, 0)], 2, 1) ∧
    ((world_run world_init (ended_calls.take 9)).bind fun r =>
      (world_client r.1 2).map fun b =>
        (r.2.getLast?, (wire_frames 100 (r.1.wire 5)).map (fun f => (f.1.type, f.1.id, f.1.role)),
          client_get_inv_id b 102)) =
      some (some 0, [(JEUX_INVITED_PKT, 0, 0)], 1) ∧
    ((world_run world_init
        [.register 4 1, .register 5 2, .login 1 "alice", .login 2 "bob",
         .make_invitation 1 2 SECOND_PLAYER_ROLE FIRST_PLAYER_ROLE 100
           { header_zero with id := 7, role := 9 }]).bind fun r =>
      (world_client r.1 2).map fun b =>
        (r.2.getLast?, (wire_frames 100 (r.1.wire 5)).map (fun f => (f.1.type, f.1.id, f.1.role)),
          client_get_inv_id b 100)) =
      some (some 0, [(JEUX_INVITED_PKT, 7, 9)], 0) :=
  ⟨by decide, by decide, by decide⟩

/-! ## Theorems: the INVITE request -/

theorem world_inv_congr {w1 w2 : World} (h : w1.invitations = w2.invitations) (p : Nat) :
    world_inv w1 p = world_inv w2 p := by
  unfold world_inv
  rw [h]

theorem client_send_packet_keeps {w : World} {a : Nat} {pkt : JEUX_PACKET_HEADER}
    {data : Option (List Nat)} {s : World × JEUX_PACKET_HEADER × Int}
    (h : client_send_packet w a pkt data = some s) :
    s.1.invitations = w.invitations ∧ s.1.creg = w.creg ∧ s.1.preg = w.preg := by
  unfold client_send_packet at h
  cases hc : world_client w a with
  | none => simp [hc] at h
  | some c =>
    simp only [hc] at h
    cases hp : proto_send_packet (w.wire c.fd) { pkt with size := htons pkt.size } data with
    | none => simp [hp] at h
    | some r =>
      simp only [hp, Option.some.injEq] at h
      subst h
      exact ⟨rfl, rfl, rfl⟩

theorem world_remove_invitation_keeps {w : World} {a p : Nat} {r : World × Int}
    (h : world_remove_invitation w a p = some r) : r.1.invitations = w.invitations := by
  unfold world_remove_invitation at h
  by_cases hl : is_locked w a = true
  · rw [if_pos hl] at h
    exact absurd h (by simp)
  rw [if_neg hl] at h
  cases hc : world_client w a with
  | none => simp [hc] at h
  | some c =>
    simp only [hc] at h
    cases hp : client_remove_invitation c p with
    | none => simp [hp] at h
    | some q =>
      simp only [hp] at h
      by_cases hq : q.2 = 0
      · rw [if_pos hq] at h
        simp only [Option.some.injEq] at h
        subst h
        rfl
      · rw [if_neg hq] at h
        simp only [Option.some.injEq] at h
        subst h
        rfl

theorem world_add_invitation_keeps {w : World} {a p : Nat} {r : World × Int}
    (h : world_add_invitation w a p = some r) : r.1.invitations = w.invitations := by
  unfold world_add_invitation at h
  cases hc : world_client w a with
  | none => simp [hc] at h
  | some c =>
    simp only [hc, Option.some.injEq] at h
    subst h
    rfl

theorem make_invitation_finish_keeps {w : World} {source target invitation : Nat}
    {sid tid : Int} {junk : JEUX_PACKET_HEADER} {r : World × Int}
    (h : make_invitation_finish w source target invitation sid tid junk = some r) :
    r.1.invitations = w.invitations := by
  unfold make_invitation_finish at h
  by_cases h1 : tid = -1
  · rw [if_pos h1] at h
    cases hr : world_remove_invitation w source invitation with
    | none => simp [hr] at h
    | some q =>
      simp only [hr, Option.some.injEq] at h
      subst h
      have hq := world_remove_invitation_keeps hr
      exact hq
  rw [if_neg h1] at h
  by_cases h2 : sid = -1
  · rw [if_pos h2] at h
    cases hr : world_remove_invitation w target invitation with
    | none => simp [hr] at h
    | some q =>
      simp only [hr, Option.some.injEq] at h
      subst h
      have hq := world_remove_invitation_keeps hr
      exact hq
  rw [if_neg h2] at h
  cases hs : client_send_packet w target { junk with type := JEUX_INVITED_PKT } none with
  | none => simp [hs] at h
  | some s =>
    simp only [hs] at h
    have hk := (client_send_packet_keeps hs).1
    by_cases h3 : s.2.2 ≠ 0
    · rw [if_pos h3] at h
      cases hr1 : world_remove_invitation s.1 source invitation with
      | none => simp [hr1] at h
      | some r1 =>
        simp only [hr1] at h
        cases hr2 : world_remove_invitation r1.1 target invitation with
        | none => simp [hr2] at h
        | some r2 =>
          simp only [hr2, Option.some.injEq] at h
          subst h
          show r2.1.invitations = w.invitations
          rw [world_remove_invitation_keeps hr2, world_remove_invitation_keeps hr1, hk]
    · rw [if_neg h3] at h
      simp only [Option.some.injEq] at h
      subst h
      show s.1.invitations = w.invitations
      exact hk

theorem client_make_invitation_created {w : World} {source target : Nat}
    {source_role target_role : GAME_ROLE} {inv_addr : Nat} {junk : JEUX_PACKET_HEADER}
    {r : World × Int}
    (h : client_make_invitation w source target source_role target_role inv_addr junk = some r) :
    r.1.invitations = w.invitations ∨
    world_inv r.1 inv_addr =
      some { source := source, target := target, source_role := source_role,
             target_role := target_role, state := INV_OPEN_STATE, game := none } := by
  unfold client_make_invitation at h
  cases hs : world_client w source with
  | none => simp [hs] at h
  | some s =>
    cases ht : world_client w target with
    | none => simp [hs, ht] at h
    | some t =>
      simp only [hs, ht] at h
      by_cases hl1 : is_locked w source = true
      · rw [if_pos hl1] at h
        exact absurd h (by simp)
      rw [if_neg hl1] at h
      by_cases hl2 : is_locked (world_lock w source) target = true
      · rw [if_pos hl2] at h
        exact absurd h (by simp)
      rw [if_neg hl2] at h
      by_cases hp : (s.player.isNone || t.player.isNone) = true
      · rw [if_pos hp] at h
        simp only [Option.some.injEq] at h
        subst h
        exact Or.inl rfl
      rw [if_neg hp] at h
      by_cases hst : source = target
      · simp only [inv_create, hst, if_true, Option.some.injEq] at h
        subst h
        exact Or.inl rfl
      simp only [inv_create, hst, if_false] at h
      obtain ⟨I, hI⟩ : ∃ I : INVITATION, I =
          { source := source, target := target, source_role := source_role,
            target_role := target_role, state := INV_OPEN_STATE, game := none } := ⟨_, rfl⟩
      rw [← hI] at h ⊢
      cases ha : world_add_invitation
          (world_put_inv (world_lock (world_lock w source) target) inv_addr I)
          source inv_addr with
      | none => simp [ha] at h
      | some rs =>
        simp only [ha] at h
        cases hb : world_add_invitation rs.1 target inv_addr with
        | none => simp [hb] at h
        | some rt =>
          simp only [hb] at h
          right
          rw [world_inv_congr (make_invitation_finish_keeps h),
            world_inv_congr (world_add_invitation_keeps hb),
            world_inv_congr (world_add_invitation_keeps ha)]
          exact world_inv_put_inv (world_lock (world_lock w source) target) inv_addr I

theorem reply_ack_keeps {w : World} {client : Nat} {logged_in : Bool}
    {data : Option (List Nat)} {datalen : Nat} {r : World × Bool}
    (h : reply_ack w client logged_in data datalen = some r) :
    r.1.invitations = w.invitations ∧ r.1.creg = w.creg ∧ r.1.preg = w.preg ∧
    r.2 = logged_in := by
  unfold reply_ack client_send_ack at h
  cases hs : client_send_packet w client
      { header_zero with type := JEUX_ACK_PKT, size := datalen % 65536 } data with
  | none => simp [hs] at h
  | some s =>
    simp only [hs, Option.some.injEq] at h
    subst h
    have hk := client_send_packet_keeps hs
    exact ⟨hk.1, hk.2.1, hk.2.2, rfl⟩

theorem reply_nack_keeps {w : World} {client : Nat} {logged_in : Bool} {env : ServiceEnv}
    {r : World × Bool} (h : reply_nack w client logged_in env = some r) :
    r.1.invitations = w.invitations ∧ r.1.creg = w.creg ∧ r.1.preg = w.preg ∧
    r.2 = logged_in := by
  unfold reply_nack client_send_nack at h
  by_cases hl : is_locked w client = true
  · rw [if_pos hl] at h
    exact absurd h (by simp)
  rw [if_neg hl] at h
  cases hs : client_send_packet w client
      { env.nack_junk with type := JEUX_NACK_PKT, size := 0 } none with
  | none => simp [hs] at h
  | some s =>
    simp only [hs, Option.some.injEq] at h
    subst h
    have hk := client_send_packet_keeps hs
    exact ⟨hk.1, hk.2.1, hk.2.2, rfl⟩

/-- C24 (as the code has it): on an INVITE request whose header role is r in
{1, 2}, handled while the client is logged in, an invitation that the loop body
creates at a fresh address has the requesting client as its source, r as the role
of the target, and the other role as the role of the source. -/
theorem C24_invite_role_is_the_role_of_the_target (w : World) (client : Nat)
    (hdr : JEUX_PACKET_HEADER) (payload : Option (List Nat)) (env : ServiceEnv)
    (w2 : World) (flag : Bool) (inv : INVITATION)
    (ht : hdr.type = JEUX_INVITE_PKT) (hr : hdr.role = 1 ∨ hdr.role = 2)
    (hfresh : world_inv w env.inv_addr = none)
    (h : service_dispatch w client true hdr payload env = some (w2, flag))
    (hinv : world_inv w2 env.inv_addr = some inv) :
    inv.source = client ∧ inv.target_role.toInt = hdr.role ∧
    inv.source_role.toInt = 3 - hdr.role ∧ inv.state = INV_OPEN_STATE := by
  unfold service_dispatch at h
  rw [if_neg (by rw [ht]; decide), if_neg (by rw [ht]; decide), if_pos ht] at h
  unfold service_invite at h
  rw [if_neg (by decide), if_neg (by omega)] at h
  cases hl : creg_lookup_payload w.creg payload with
  | none => simp [hl] at h
  | some ot =>
    cases ot with
    | none => simp [hl] at h
    | some target =>
      simp only [hl] at h
      cases hm : client_make_invitation w client target.addr
          (if hdr.role = 1 then SECOND_PLAYER_ROLE else FIRST_PLAYER_ROLE)
          (if hdr.role = 1 then FIRST_PLAYER_ROLE else SECOND_PLAYER_ROLE)
          env.inv_addr env.invited_junk with
      | none => simp [hm] at h
      | some r =>
        simp only [hm] at h
        have hk := (reply_ack_keeps h).1
        rw [world_inv_congr hk] at hinv
        rcases client_make_invitation_created hm with hc | hc
        · rw [world_inv_congr hc, hfresh] at hinv
          simp at hinv
        · rw [hc] at hinv
          simp only [Option.some.injEq] at hinv
          subst hinv
          rcases hr with hr | hr
          · simp [hr, GAME_ROLE.toInt]
          · simp [hr, GAME_ROLE.toInt]

theorem C24_invite_role_is_the_role_of_the_target_witness :
    (request_header JEUX_INVITE_PKT 0 1).type = JEUX_INVITE_PKT ∧
    world_inv two_clients_world 100 = none ∧
    ((service_dispatch two_clients_world 1 true (request_header JEUX_INVITE_PKT 0 1)
        (some (string_bytes "bob")) (env_at 100)).bind fun r =>
      (world_inv r.1 100).map fun i => (i.source, i.target, i.source_role, i.target_role)) =
      some (1, 2, SECOND_PLAYER_ROLE, FIRST_PLAYER_ROLE) ∧
    (∀ (w2 : World) (flag : Bool) (inv : INVITATION),
      service_dispatch two_clients_world 1 true (request_header JEUX_INVITE_PKT 0 1)
        (some (string_bytes "bob")) (env_at 100) = some (w2, flag) →
      world_inv w2 100 = some inv →
      inv.source = 1 ∧ inv.target_role.toInt = 1 ∧ inv.source_role.toInt = 2 ∧
      inv.state = INV_OPEN_STATE) :=
  ⟨rfl, rfl, by decide,
   fun w2 flag inv h hinv =>
     C24_invite_role_is_the_role_of_the_target two_clients_world 1
       (request_header JEUX_INVITE_PKT 0 1) (some (string_bytes "bob")) (env_at 100) w2 flag inv
       rfl (Or.inl rfl) rfl h hinv⟩

/-- C24, the claim as stated fails: after A and B have logged in as "alice" and
"bob", the INVITE of A with role 1 that names "bob" creates an invitation in which
A, the inviter, has SECOND_PLAYER_ROLE and B has FIRST_PLAYER_ROLE. -/
theorem C24_inviter_gets_the_other_role :
    ((server_run server_init (alice_events ++
        [.packet 2 (request_header JEUX_LOGIN_PKT 0 0) (some (string_bytes "bob")) (env_at 100),
         .packet 1 (request_header JEUX_INVITE_PKT 0 1) (some (string_bytes "bob"))
           (env_at 100)])).bind fun s =>
      (world_inv s.world 100).map fun i => (i.source, i.target, i.source_role, i.target_role)) =
      some (1, 2, SECOND_PLAYER_ROLE, FIRST_PLAYER_ROLE) := by
  decide

/-! ## Theorems: the state of a new game on acceptance -/

theorem state_text_length : (game_unparse_state game_create).2.length = 39 := by decide

theorem string_bytes_length (s : String) : (string_bytes s).length = s.length := by
  unfold string_bytes
  rw [List.length_map]
  cases s
  rfl

theorem world_client_congr {w1 w2 : World} (h : w1.creg = w2.creg) (a : Nat) :
    world_client w1 a = world_client w2 a := by
  unfold world_client
  rw [h]

theorem client_send_packet_eq (w : World) (a : Nat) (c : CLIENT) (pkt : JEUX_PACKET_HEADER)
    (data : Option (List Nat)) (out : List Nat) (ret : Int)
    (hc : world_client w a = some c)
    (hp : proto_send_packet (w.wire c.fd) { pkt with size := htons pkt.size } data =
      some (out, ret)) :
    client_send_packet w a pkt data =
      some ({ w with wire := fun fd => if fd = c.fd then out else w.wire fd },
        { pkt with size := htons pkt.size }, ret) := by
  unfold client_send_packet
  rw [hc]
  simp only [hp]

theorem proto_send_packet_empty (out : List Nat) (hdr : JEUX_PACKET_HEADER)
    (data : Option (List Nat)) (hz : ntohs hdr.size = 0) :
    proto_send_packet out hdr data = some (out ++ header_bytes hdr, 0) := by
  unfold proto_send_packet
  simp only [hz, gt_iff_lt, lt_irrefl, if_false]

theorem proto_send_packet_data (out : List Nat) (hdr : JEUX_PACKET_HEADER) (d : List Nat)
    (hz : 0 < ntohs hdr.size) (hl : ntohs hdr.size ≤ d.length) :
    proto_send_packet out hdr (some d) =
      some (out ++ header_bytes hdr ++ d.take (ntohs hdr.size), 0) := by
  unfold proto_send_packet
  simp only [gt_iff_lt, hz, if_true]
  rw [if_neg (by omega)]

theorem client_send_packet_empty (w : World) (a : Nat) (c : CLIENT) (pkt : JEUX_PACKET_HEADER)
    (data : Option (List Nat)) (hc : world_client w a = some c)
    (hz : ntohs (htons pkt.size) = 0) :
    client_send_packet w a pkt data =
      some ({ w with wire := fun fd =>
                if fd = c.fd then w.wire c.fd ++ header_bytes { pkt with size := htons pkt.size }
                else w.wire fd },
        { pkt with size := htons pkt.size }, 0) :=
  client_send_packet_eq w a c pkt data _ 0 hc
    (proto_send_packet_empty (w.wire c.fd) { pkt with size := htons pkt.size } data hz)

theorem client_send_packet_data (w : World) (a : Nat) (c : CLIENT) (pkt : JEUX_PACKET_HEADER)
    (d : List Nat) (hc : world_client w a = some c)
    (hz : 0 < ntohs (htons pkt.size)) (hl : ntohs (htons pkt.size) = d.length) :
    client_send_packet w a pkt (some d) =
      some ({ w with wire := fun fd =>
                if fd = c.fd then
                  w.wire c.fd ++ header_bytes { pkt with size := htons pkt.size } ++ d
                else w.wire fd },
        { pkt with size := htons pkt.size }, 0) := by
  have hp := proto_send_packet_data (w.wire c.fd) { pkt with size := htons pkt.size } d hz
    (le_of_eq hl)
  have ht : d.take (ntohs (htons pkt.size)) = d := by
    rw [hl]
    exact List.take_length d
  have hp2 : proto_send_packet (w.wire c.fd) { pkt with size := htons pkt.size } (some d) =
      some (w.wire c.fd ++ header_bytes { pkt with size := htons pkt.size } ++ d, 0) := by
    rw [hp]
    show some (_ ++ d.take (ntohs (htons pkt.size)), (0 : Int)) = _
    rw [ht]
  exact client_send_packet_eq w a c pkt (some d) _ 0 hc hp2

theorem client_send_packet_terminated (w : World) (a : Nat) (c : CLIENT) (pkt : JEUX_PACKET_HEADER)
    (d : List Nat) (hc : world_client w a = some c)
    (hz : 0 < ntohs (htons pkt.size)) (hl : ntohs (htons pkt.size) = d.length) :
    client_send_packet w a pkt (some (d ++ [0])) =
      some ({ w with wire := fun fd =>
                if fd = c.fd then
                  w.wire c.fd ++ header_bytes { pkt with size := htons pkt.size } ++ d
                else w.wire fd },
        { pkt with size := htons pkt.size }, 0) := by
  have hp := proto_send_packet_data (w.wire c.fd) { pkt with size := htons pkt.size } (d ++ [0])
    hz (by rw [hl, List.length_append]; omega)
  have ht : (d ++ [0]).take (ntohs (htons pkt.size)) = d := by
    rw [hl]
    exact List.take_left' rfl
  have hp2 : proto_send_packet (w.wire c.fd) { pkt with size := htons pkt.size }
      (some (d ++ [0])) =
      some (w.wire c.fd ++ header_bytes { pkt with size := htons pkt.size } ++ d, 0) := by
    rw [hp]
    show some (_ ++ (d ++ [0]).take (ntohs (htons pkt.size)), (0 : Int)) = _
    rw [ht]
  exact client_send_packet_eq w a c pkt (some (d ++ [0])) _ 0 hc hp2

theorem reply_ack_empty (w : World) (client : Nat) (c : CLIENT) (flag : Bool)
    (hc : world_client w client = some c) :
    reply_ack w client flag none 0 =
      some ({ w with wire := fun fd =>
                if fd = c.fd then
                  w.wire c.fd ++ header_bytes { header_zero with type := JEUX_ACK_PKT }
                else w.wire fd }, flag) := by
  unfold reply_ack client_send_ack
  rw [client_send_packet_empty w client c _ none hc (by decide)]
  rfl

theorem reply_ack_text (w : World) (client : Nat) (c : CLIENT) (flag : Bool)
    (hc : world_client w client = some c) (msg : String) (hlen : msg.length = 39) :
    reply_ack w client flag (some (string_bytes msg ++ [0])) msg.length =
      some ({ w with wire := fun fd =>
                if fd = c.fd then
                  w.wire c.fd ++
                    header_bytes { header_zero with type := JEUX_ACK_PKT, size := htons 39 } ++
                    string_bytes msg
                else w.wire fd }, flag) := by
  unfold reply_ack client_send_ack
  rw [hlen, client_send_packet_terminated w client c _ (string_bytes msg) hc (by decide)
    (by rw [string_bytes_length, hlen]; decide)]

/-- C26 (as the code has it): whenever `client_accept_invitation` returns 0, the
invitation found under the id has a live source.  If the role of the source is FIRST_PLAYER_ROLE, the
bytes written to the connection of the source are an ACCEPTED header with size 40
followed by the 39 characters of the text of the new game and its terminating 0,
and `*strp` is `NULL`; otherwise they are an ACCEPTED header with size 0, and
`*strp` is the text of the new game.  No other connection is written.  The ACCEPT
case of the service loop, for a header with that id, then writes to the connection
of the accepting client an ACK header with size 0 in the first case, and an ACK
header with size 39 followed by the text of the new game in the second. -/
theorem C26_accept_delivers_initial_state (w : World) (client : Nat) (id : Int)
    (strp : Option String) (res : AcceptResult)
    (h : client_accept_invitation w client id strp = some res) (hret : res.ret = 0) :
    ∃ (c : CLIENT) (p : Nat) (inv : INVITATION) (src : CLIENT),
      world_client w client = some c ∧ client_find_invitation c id = some p ∧
      world_inv w p = some inv ∧ world_client w inv.source = some src ∧
      (∀ fd, fd ≠ src.fd → res.world.wire fd = w.wire fd) ∧
      (inv.source_role = FIRST_PLAYER_ROLE →
        res.strp = none ∧
        res.world.wire src.fd = w.wire src.fd ++
          header_bytes { header_zero with
            type := JEUX_ACCEPTED_PKT
            id := to_uint8 (client_get_inv_id src p)
            size := htons 40 } ++
          (string_bytes (game_unparse_state game_create).2 ++ [0]) ∧
        ∀ (hdr : JEUX_PACKET_HEADER) (payload : Option (List Nat)) (env : ServiceEnv),
          hdr.type = JEUX_ACCEPT_PKT → (hdr.id : Int) = id → strp = none →
          ∃ w2, service_dispatch w client true hdr payload env = some (w2, true) ∧
            w2.wire c.fd = res.world.wire c.fd ++
              header_bytes { header_zero with type := JEUX_ACK_PKT }) ∧
      (inv.source_role ≠ FIRST_PLAYER_ROLE →
        res.strp = some (game_unparse_state game_create).2 ∧
        res.world.wire src.fd = w.wire src.fd ++
          header_bytes { header_zero with type := JEUX_ACCEPTED_PKT } ∧
        ∀ (hdr : JEUX_PACKET_HEADER) (payload : Option (List Nat)) (env : ServiceEnv),
          hdr.type = JEUX_ACCEPT_PKT → (hdr.id : Int) = id → strp = none →
          ∃ w2, service_dispatch w client true hdr payload env = some (w2, true) ∧
            w2.wire c.fd = res.world.wire c.fd ++
              header_bytes { header_zero with type := JEUX_ACK_PKT, size := htons 39 } ++
              string_bytes (game_unparse_state game_create).2) := by
  have hdisp : ∀ (hdr : JEUX_PACKET_HEADER) (payload : Option (List Nat)) (env : ServiceEnv),
      hdr.type = JEUX_ACCEPT_PKT → (hdr.id : Int) = id → strp = none →
      (res.strp = none →
        service_dispatch w client true hdr payload env =
          reply_ack res.world client true none 0) ∧
      (∀ msg, res.strp = some msg →
        service_dispatch w client true hdr payload env =
          reply_ack res.world client true (some (string_bytes msg ++ [0])) msg.length) := by
    intro hdr payload env ht hid hnone
    subst hnone
    have hd : service_dispatch w client true hdr payload env =
        service_accept w client true hdr env := by
      unfold service_dispatch
      rw [if_neg (by rw [ht]; decide), if_neg (by rw [ht]; decide), if_neg (by rw [ht]; decide),
        if_neg (by rw [ht]; decide), if_neg (by rw [ht]; decide), if_pos ht]
    rw [hd]
    unfold service_accept
    rw [if_neg (by decide), hid, h]
    simp only [hret, ne_eq, not_true_eq_false, if_false]
    constructor
    · intro h1
      rw [h1]
    · intro msg h1
      rw [h1]
  unfold client_accept_invitation at h
  by_cases hl : is_locked w client = true
  · rw [if_pos hl] at h
    exact absurd h (by simp)
  rw [if_neg hl] at h
  cases hc : world_client w client with
  | none => simp [hc] at h
  | some c =>
    simp only [hc] at h
    cases hf : client_find_invitation c id with
    | none =>
      simp only [hf, Option.some.injEq] at h
      subst h
      simp at hret
    | some p =>
      simp only [hf] at h
      cases hi : world_inv w p with
      | none => simp [hi] at h
      | some inv =>
        simp only [hi] at h
        by_cases hg : (inv_get_game inv).isSome = true
        · rw [if_pos hg] at h
          simp only [Option.some.injEq] at h
          subst h
          simp at hret
        rw [if_neg hg] at h
        by_cases ha : (inv_accept inv).2 = -1
        · rw [if_pos ha] at h
          simp only [Option.some.injEq] at h
          subst h
          simp at hret
        rw [if_neg ha] at h
        have hopen : inv.state = INV_OPEN_STATE := by
          by_contra hne
          apply ha
          unfold inv_accept
          rw [if_pos hne]
        have hacc : (inv_accept inv).1 =
            { inv with game := some game_create, state := INV_ACCEPTED_STATE } := by
          unfold inv_accept
          rw [if_neg (by rw [hopen]; decide)]
        rw [hacc] at h
        simp only [inv_get_game] at h
        obtain ⟨W0, hW0⟩ : ∃ W0 : World, W0 = world_put_inv w p
            { inv with state := INV_ACCEPTED_STATE
                       game := some (game_unparse_state game_create).1 } := ⟨_, rfl⟩
        rw [← hW0] at h
        have hWc : ∀ a, world_client W0 a = world_client w a := by
          intro a
          rw [hW0]
          rfl
        have hWw : W0.wire = w.wire := by
          rw [hW0]
          rfl
        unfold accept_invitation_finish at h
        simp only [inv_get_source_role, inv_get_source] at h
        by_cases hfirst : inv.source_role = FIRST_PLAYER_ROLE
        · rw [if_pos hfirst, hWc] at h
          cases hs : world_client w inv.source with
          | none => simp [hs] at h
          | some src =>
            simp only [hs] at h
            rw [state_text_length] at h
            rw [client_send_packet_data W0 inv.source src
              { header_zero with
                type := JEUX_ACCEPTED_PKT
                size := (39 + 1) % 65536
                id := to_uint8 (client_get_inv_id src p) }
              (string_bytes (game_unparse_state game_create).2 ++ [0]) ((hWc _).trans hs)
              (show 0 < ntohs (htons ((39 + 1) % 65536)) from by decide)
              (show ntohs (htons ((39 + 1) % 65536)) =
                  (string_bytes (game_unparse_state game_create).2 ++ [0]).length from by
                rw [List.length_append, string_bytes_length, state_text_length]; decide)] at h
            simp only at h
            rw [if_neg (by decide)] at h
            simp only [Option.some.injEq] at h
            subst h
            refine ⟨c, p, inv, src, rfl, hf, hi, hs, ?_, ?_, ?_⟩
            · intro fd hfd
              simp only [hfd, if_false, hWw]
            · intro _
              refine ⟨rfl, ?_, ?_⟩
              · simp only [if_true, hWw]
              · intro hdr payload env ht hid hnone
                refine ⟨_, ((hdisp hdr payload env ht hid hnone).1 rfl).trans
                  (reply_ack_empty _ client c true ?_), ?_⟩
                · exact (hWc _).trans hc
                · simp only [if_true]
            · intro hn
              exact absurd hfirst hn
        · rw [if_neg hfirst] at h
          cases hs : world_client w inv.source with
          | none =>
            unfold client_send_packet at h
            rw [hWc, hs] at h
            simp at h
          | some src =>
            rw [client_send_packet_empty W0 inv.source src _ none ((hWc _).trans hs)
              (by decide)] at h
            simp only [Option.some.injEq] at h
            subst h
            refine ⟨c, p, inv, src, rfl, hf, hi, hs, ?_, ?_, ?_⟩
            · intro fd hfd
              simp only [hfd, if_false, hWw]
            · intro hn
              exact absurd hn hfirst
            · intro _
              refine ⟨rfl, ?_, ?_⟩
              · simp only [if_true, hWw]
                rfl
              · intro hdr payload env ht hid hnone
                refine ⟨_, ((hdisp hdr payload env ht hid hnone).2 _ rfl).trans
                  (reply_ack_text _ client c true ?_ _ state_text_length), ?_⟩
                · exact (hWc _).trans hc
                · simp only [if_true]

theorem C26_accept_delivers_initial_state_witness :
    ((client_accept_invitation (invited_world FIRST_PLAYER_ROLE SECOND_PLAYER_ROLE) 2 0 none).map
      fun r => (r.ret, r.strp, (wire_frames 9 (r.world.wire 4)).map fun f => (f.1.type, f.1.size))) =
      some (0, none, [(JEUX_ACCEPTED_PKT, htons 40)]) ∧
    ((client_accept_invitation (invited_world SECOND_PLAYER_ROLE FIRST_PLAYER_ROLE) 2 0 none).map
      fun r => (r.ret, r.strp, (wire_frames 9 (r.world.wire 4)).map fun f => (f.1.type, f.1.size))) =
      some (0, some " | | \n-----\n | | \n-----\n | | \nX to move", [(JEUX_ACCEPTED_PKT, 0)]) ∧
    ((service_dispatch (invited_world SECOND_PLAYER_ROLE FIRST_PLAYER_ROLE) 2 true
        (request_header JEUX_ACCEPT_PKT 0 0) none (env_at 101)).map
      fun r => (wire_frames 9 (r.1.wire 5)).getLast?) =
      some (some ({ header_zero with type := JEUX_ACK_PKT, size := htons 39 },
        some (string_bytes " | | \n-----\n | | \n-----\n | | \nX to move"))) ∧
    (∀ res : AcceptResult,
      client_accept_invitation (invited_world SECOND_PLAYER_ROLE FIRST_PLAYER_ROLE) 2 0 none =
        some res → res.ret = 0 →
      ∃ (c : CLIENT) (p : Nat) (inv : INVITATION) (src : CLIENT),
        world_client (invited_world SECOND_PLAYER_ROLE FIRST_PLAYER_ROLE) 2 = some c ∧
        client_find_invitation c 0 = some p ∧
        world_inv (invited_world SECOND_PLAYER_ROLE FIRST_PLAYER_ROLE) p = some inv ∧
        world_client (invited_world SECOND_PLAYER_ROLE FIRST_PLAYER_ROLE) inv.source = some src) :=
  ⟨by decide, by decide, by decide,
   fun res h hret =>
     match C26_accept_delivers_initial_state
       (invited_world SECOND_PLAYER_ROLE FIRST_PLAYER_ROLE) 2 0 none res h hret with
     | ⟨c, p, inv, src, h1, h2, h3, h4, _⟩ => ⟨c, p, inv, src, h1, h2, h3, h4⟩⟩

/-- C26, the claim as stated fails: when B accepts the invitation in which the
source A has FIRST_PLAYER_ROLE, the payload of the ACCEPTED frame written to the
connection of A is not the text of the new game.  The text has 39 characters; the
frame has size 40 and its payload is the 39 bytes of the text followed by a byte
0.  In the other case the ACK that answers ACCEPT has size 39 and its payload is
the text alone. -/
theorem C26_accepted_payload_ends_with_zero_byte :
    (game_unparse_state game_create).2 = " | | \n-----\n | | \n-----\n | | \nX to move" ∧
    (string_bytes (game_unparse_state game_create).2).length = 39 ∧
    ((client_accept_invitation (invited_world FIRST_PLAYER_ROLE SECOND_PLAYER_ROLE) 2 0 none).map
      fun r => (r.ret, (wire_frames 9 (r.world.wire 4)).map fun f =>
        (f.1.type, ntohs f.1.size, f.2))) =
      some (0, [(JEUX_ACCEPTED_PKT, 40,
        some (string_bytes (game_unparse_state game_create).2 ++ [0]))]) ∧
    ((client_accept_invitation (invited_world FIRST_PLAYER_ROLE SECOND_PLAYER_ROLE) 2 0 none).map
      fun r => (wire_frames 9 (r.world.wire 4)).map fun f =>
        decide (f.2 = some (string_bytes (game_unparse_state game_create).2))) =
      some [false] ∧
    ((service_dispatch (invited_world SECOND_PLAYER_ROLE FIRST_PLAYER_ROLE) 2 true
        (request_header JEUX_ACCEPT_PKT 0 0) none (env_at 101)).map
      fun r => (wire_frames 9 (r.1.wire 5)).getLast?.map fun f =>
        (f.1.type, ntohs f.1.size, f.2)) =
      some (some (JEUX_ACK_PKT, 39, some (string_bytes (game_unparse_state game_create).2))) :=
  ⟨by decide, by decide, by decide, by decide, by decide⟩

/-! ## Theorems: the USERS request -/

theorem all_players_loop_length (l : List CLIENT) :
    all_players_loop l l.length = some (l.filterMap client_get_player) := by
  induction l with
  | nil => rfl
  | cons c rest ih =>
    show all_players_loop (c :: rest) (rest.length + 1) = _
    unfold all_players_loop
    cases hp : client_get_player c with
    | none => simp only [ih, List.filterMap_cons, hp]
    | some p => simp only [ih, List.filterMap_cons, hp, Option.map_some']

theorem owns_line_board_set (b : Int → Int → Int) (r c m k : Int) (hk : k ≠ m)
    (h : owns_line (board_set b r c m) k = true) : owns_line b k = true := by
  simp only [owns_line, List.any_eq_true, List.all_eq_true, decide_eq_true_eq] at h ⊢
  obtain ⟨l, hl, hall⟩ := h
  refine ⟨l, hl, fun p hp => ?_⟩
  have hp2 := hall p hp
  unfold board_set at hp2
  by_cases hc : p.1 = r ∧ p.2 = c
  · rw [if_pos hc] at hp2
    exact absurd hp2.symm hk
  · rw [if_neg hc] at hp2
    exact hp2

theorem game_inv_no_line {g : GAME} (hi : game_inv g) (h : g.game_over = false) :
    owns_line g.game_board 1 = false ∧ owns_line g.game_board (-1) = false := by
  obtain ⟨_, _, ho⟩ := hi
  rw [h] at ho
  have ho2 := ho.symm
  simp only [Bool.or_eq_false_iff] at ho2
  exact ⟨ho2.1.1.2, ho2.1.2⟩

theorem game_inv_strong_create : game_inv_strong game_create :=
  ⟨game_inv_create, rfl, by decide, by decide⟩

theorem game_apply_move_strong (g : GAME) (m : GAME_MOVE) (hi : game_inv_strong g) :
    game_inv_strong (game_apply_move g m).1 := by
  have hinv := game_apply_move_inv g m hi.1
  rcases game_apply_move_cases g m hi.1.2.1 with e | ⟨h3, _, _, e⟩
  · rw [e]; exact hi
  · rw [e] at hinv ⊢
    obtain ⟨hr1, hr2⟩ := game_inv_not_over hi.1 h3
    obtain ⟨hl1, hl2⟩ := game_inv_no_line hi.1 h3
    obtain ⟨hb, _, hf1, hf2, _⟩ := check_game_over_fields (game_marked g m)
    refine ⟨hinv, ?_, ?_, ?_⟩
    · rcases check_game_over_state (game_marked g m) with e2 | e2
      · rw [e2]; exact hi.2.1
      · rw [e2]; exact hi.2.1
    · intro hboth
      rw [hf1] at hboth
      have : g.first_player_resigned = true := hboth.1
      rw [hr1] at this
      exact absurd this (by decide)
    · intro hboth
      show False
      have hbd : (check_game_over (game_marked g m)).1.game_board =
          board_set g.game_board ((m.value - 1) / 3) ((m.value - 1) % 3)
            (role_mark g.current_role) := hb
      rw [hbd] at hboth
      cases hrole : g.current_role with
      | NULL_ROLE => exact absurd hrole hi.1.2.1
      | FIRST_PLAYER_ROLE =>
        rw [hrole] at hboth
        have := owns_line_board_set _ _ _ _ (-1) (by decide) hboth.2
        rw [hl2] at this
        exact absurd this (by decide)
      | SECOND_PLAYER_ROLE =>
        rw [hrole] at hboth
        have := owns_line_board_set _ _ _ _ 1 (by decide) hboth.1
        rw [hl1] at this
        exact absurd this (by decide)

theorem game_resign_strong (g : GAME) (r : GAME_ROLE) (hi : game_inv_strong g) :
    game_inv_strong (game_resign g r).1 := by
  have hinv := game_resign_inv g r hi.1
  rcases game_resign_cases g r with e | ⟨h3, _, e⟩ | ⟨h3, _, e⟩
  · rw [e]; exact hi
  · rw [e] at hinv ⊢
    obtain ⟨_, hr2⟩ := game_inv_not_over hi.1 h3
    refine ⟨hinv, hi.2.1, ?_, hi.2.2.2⟩
    intro hboth
    have : g.second_player_resigned = true := hboth.2
    rw [hr2] at this
    exact absurd this (by decide)
  · rw [e] at hinv ⊢
    obtain ⟨hr1, _⟩ := game_inv_not_over hi.1 h3
    refine ⟨hinv, hi.2.1, ?_, hi.2.2.2⟩
    intro hboth
    have : g.first_player_resigned = true := hboth.1
    rw [hr1] at this
    exact absurd this (by decide)

theorem game_exec_strong (g : GAME) (c : GameCall) (hi : game_inv_strong g) :
    game_inv_strong (c.exec g) := by
  cases c with
  | apply_move m => exact game_apply_move_strong g m hi
  | resign r => exact game_resign_strong g r hi
  | get_winner =>
    show game_inv_strong (game_get_winner g).1
    rw [game_get_winner_state]
    exact hi

theorem game_run_strong (cs : List GameCall) (g : GAME) (hi : game_inv_strong g) :
    game_inv_strong (game_run g cs) := by
  induction cs generalizing g with
  | nil => exact hi
  | cons c rest ih => exact ih _ (game_exec_strong g c hi)

/-- C38: in every game state reached from `game_create` by calls of
`game_apply_move` and `game_resign` (and `game_get_winner`), `game_over` is set if
and only if a player has resigned, or one side owns a row, column or diagonal, or
no cell is empty; the two resignation flags are not both set; and the two sides do
not both own a line. -/
theorem C38_game_over_characterised (cs : List GameCall) :
    ((game_run game_create cs).game_over = true ↔
      ((game_run game_create cs).first_player_resigned = true ∨
       (game_run game_create cs).second_player_resigned = true ∨
       owns_line (game_run game_create cs).game_board 1 = true ∨
       owns_line (game_run game_create cs).game_board (-1) = true ∨
       board_full (game_run game_create cs).game_board = true)) ∧
    ¬ ((game_run game_create cs).first_player_resigned = true ∧
       (game_run game_create cs).second_player_resigned = true) ∧
    ¬ (owns_line (game_run game_create cs).game_board 1 = true ∧
       owns_line (game_run game_create cs).game_board (-1) = true) := by
  obtain ⟨⟨_, _, ho⟩, _, hf, hl⟩ := game_run_strong cs game_create game_inv_strong_create
  refine ⟨?_, hf, hl⟩
  rw [ho]
  simp only [Bool.or_eq_true, or_assoc]

/-! ## Theorems: the text of a game state -/

theorem cell_char_spec (v : Int) (h : v = 0 ∨ v = 1 ∨ v = -1) :
    cell_char v = spec_cell_char v := by
  rcases h with h | h | h <;> rw [h] <;> decide

theorem board_row_string_spec (g : GAME) (hv : board_valid g.game_board) (i : Int)
    (h0 : 0 ≤ i) (h3 : i < 3) : board_row_string g i = spec_row_text g.game_board i := by
  unfold board_row_string spec_row_text
  rw [cell_char_spec _ (hv i 0 h0 h3 (by decide) (by decide)),
    cell_char_spec _ (hv i 1 h0 h3 (by decide) (by decide)),
    cell_char_spec _ (hv i 2 h0 h3 (by decide) (by decide))]

theorem game_unparse_state_text (g : GAME) (hv : board_valid g.game_board) (hid : g.id = 0) :
    (game_unparse_state g).2 =
      if g.game_over then "Game  #0 is over\n" ++ spec_result_line (game_get_winner g).2
      else spec_board_text g := by
  unfold game_unparse_state
  by_cases ho : g.game_over = true
  · rw [if_pos ho, if_pos ho, hid]
    show "Game  #0 is over\n" ++ _ = _
    cases (game_get_winner g).2 <;> rfl
  · rw [if_neg ho, if_neg ho]
    unfold spec_board_text
    rw [board_row_string_spec g hv 0 (by decide) (by decide),
      board_row_string_spec g hv 1 (by decide) (by decide),
      board_row_string_spec g hv 2 (by decide) (by decide)]
    by_cases hr : g.current_role = FIRST_PLAYER_ROLE
    · rw [if_pos hr, if_pos hr]
      rfl
    · rw [if_neg hr, if_neg hr]
      rfl

/-- C31 (as the code has it): for every game state reached from `game_create`,
`game_unparse_state` returns, when the game is not over, the three board rows, each
as its three cells separated by bars and ended by a line feed (X for the first
player, O for the second, a blank for an empty cell), with a line of five dashes
between rows, followed by "X to move" when FIRST_PLAYER_ROLE is on move and
"O to move" otherwise; and when the game is over, the line "Game  #0 is over",
which carries the id of the game, followed by "Player 1 has won", "Player 2 has
won" or "The game was drawn" according to `game_get_winner`.  A new game gives the
empty board and "X to move". -/
theorem C31_unparse_state_text (cs : List GameCall) :
    (game_unparse_state (game_run game_create cs)).2 =
      (if (game_run game_create cs).game_over then
        "Game  #0 is over\n" ++ spec_result_line (game_get_winner (game_run game_create cs)).2
       else spec_board_text (game_run game_create cs)) ∧
    (game_unparse_state game_create).2 = " | | \n-----\n | | \n-----\n | | \nX to move" := by
  obtain ⟨⟨hv, _, _⟩, hid, _, _⟩ := game_run_strong cs game_create game_inv_strong_create
  exact ⟨game_unparse_state_text _ hv hid, by decide⟩

/-- C31, the claim as stated fails for a finished game: after the first player
has resigned a new game, the text returned is "Game  #0 is over" and, on the next
line, "Player 2 has won"; its first twelve characters are not "Game is over". -/
theorem C31_over_text_carries_game_id :
    (game_unparse_state (game_run game_create [.resign FIRST_PLAYER_ROLE])).2 =
      "Game  #0 is over\nPlayer 2 has won" ∧
    (game_unparse_state (game_run game_create [.resign FIRST_PLAYER_ROLE])).2.toList.take 12 ≠
      "Game is over".toList ∧
    (game_unparse_state x_row_win).2 = "Game  #0 is over\nPlayer 1 has won" :=
  ⟨by decide, by decide, by decide⟩

/-! ## Theorems: invariants of an invitation -/

theorem inv_run_snoc (inv : INVITATION) (cs : List InvCall) (c : InvCall) :
    inv_run inv (cs ++ [c]) = (c.exec (inv_run inv cs)).1 := by
  unfold inv_run
  rw [List.foldl_append]
  rfl

theorem inv_accept_wf (inv : INVITATION) (h : inv_wf inv) : inv_wf (inv_accept inv).1 := by
  unfold inv_accept
  by_cases hs : inv.state ≠ INV_OPEN_STATE
  · rw [if_pos hs]; exact h
  · rw [if_neg hs]
    exact ⟨h.1, fun h1 => absurd h1 (by simp), fun _ => rfl⟩

theorem inv_close_wf (inv : INVITATION) (role : GAME_ROLE) (h : inv_wf inv) :
    inv_wf (inv_close inv role).1 := by
  have hclosed : ∀ i : INVITATION, i.source = inv.source → i.target = inv.target →
      i.state = INV_CLOSED_STATE → inv_wf i := by
    intro i h1 h2 h3
    refine ⟨by rw [h1, h2]; exact h.1, ?_, ?_⟩
    · intro h4; rw [h3] at h4; exact absurd h4 (by decide)
    · intro h4; rw [h3] at h4; exact absurd h4 (by decide)
  unfold inv_close
  by_cases hr : role = NULL_ROLE
  · rw [if_pos hr]
    cases hg : inv.game with
    | none => exact hclosed _ rfl rfl rfl
    | some g => exact h
  · rw [if_neg hr]
    by_cases hs : inv.state = INV_ACCEPTED_STATE ∨ inv.state = INV_OPEN_STATE
    · rw [if_pos hs]
      cases hg : inv.game with
      | none => exact hclosed _ rfl rfl rfl
      | some g => exact hclosed _ rfl rfl rfl
    · rw [if_neg hs]
      exact h

theorem inv_accept_game (inv : INVITATION) (h : (inv_accept inv).1.game.isSome = true) :
    inv.game.isSome = true ∨ (inv_accept inv).1.state = INV_ACCEPTED_STATE := by
  unfold inv_accept at h ⊢
  by_cases hs : inv.state ≠ INV_OPEN_STATE
  · rw [if_pos hs] at h
    exact Or.inl h
  · rw [if_neg hs]
    exact Or.inr rfl

theorem inv_close_game (inv : INVITATION) (role : GAME_ROLE)
    (h : (inv_close inv role).1.game.isSome = true) : inv.game.isSome = true := by
  unfold inv_close at h
  by_cases hr : role = NULL_ROLE
  · rw [if_pos hr] at h
    cases hg : inv.game with
    | none => rw [hg] at h; exact absurd h (by simp)
    | some g => rfl
  · rw [if_neg hr] at h
    by_cases hs : inv.state = INV_ACCEPTED_STATE ∨ inv.state = INV_OPEN_STATE
    · rw [if_pos hs] at h
      cases hg : inv.game with
      | none => rw [hg] at h; exact absurd h (by simp)
      | some g => rfl
    · rw [if_neg hs] at h
      exact h

theorem inv_run_wf (inv : INVITATION) (h : inv_wf inv) (cs : List InvCall) :
    inv_wf (inv_run inv cs) := by
  induction cs using List.reverseRecOn with
  | nil => exact h
  | append_singleton cs c ih =>
    rw [inv_run_snoc]
    cases c with
    | accept => exact inv_accept_wf _ ih
    | close role => exact inv_close_wf _ role ih

theorem inv_run_game_origin (inv : INVITATION) (h0 : inv.game = none) (cs : List InvCall)
    (hg : (inv_run inv cs).game.isSome = true) :
    ∃ k, k ≤ cs.length ∧ (inv_run inv (cs.take k)).state = INV_ACCEPTED_STATE := by
  induction cs using List.reverseRecOn with
  | nil =>
    have : inv.game.isSome = true := hg
    rw [h0] at this
    exact absurd this (by simp)
  | append_singleton cs c ih =>
    rw [inv_run_snoc] at hg
    have hprev : (inv_run inv cs).game.isSome = true →
        ∃ k, k ≤ (cs ++ [c]).length ∧
          (inv_run inv ((cs ++ [c]).take k)).state = INV_ACCEPTED_STATE := by
      intro hp
      obtain ⟨k, hk, hs⟩ := ih hp
      refine ⟨k, by rw [List.length_append]; omega, ?_⟩
      rw [List.take_append_of_le_length hk]
      exact hs
    cases c with
    | accept =>
      rcases inv_accept_game _ hg with h1 | h1
      · exact hprev h1
      · refine ⟨(cs ++ [InvCall.accept]).length, le_refl _, ?_⟩
        rw [List.take_length, inv_run_snoc]
        exact h1
    | close role => exact hprev (inv_close_game _ role hg)

/-- C32: for an invitation created by `inv_create`, after any sequence of
`inv_accept` and `inv_close` calls: source and target are different clients; if
the state is OPEN there is no game; if the state is ACCEPTED there is a game; and
if there is a game, as in a CLOSED invitation with a game, the invitation was in
the ACCEPTED state after some earlier part of the sequence. -/
theorem C32_invitation_invariants (source target : Nat)
    (source_role target_role : GAME_ROLE) (inv0 : INVITATION)
    (hcreate : inv_create source target source_role target_role = some inv0)
    (cs : List InvCall) :
    (inv_run inv0 cs).source ≠ (inv_run inv0 cs).target ∧
    ((inv_run inv0 cs).state = INV_OPEN_STATE → (inv_run inv0 cs).game.isNone = true) ∧
    ((inv_run inv0 cs).state = INV_ACCEPTED_STATE → (inv_run inv0 cs).game.isSome = true) ∧
    ((inv_run inv0 cs).game.isSome = true →
      ∃ k, k ≤ cs.length ∧ (inv_run inv0 (cs.take k)).state = INV_ACCEPTED_STATE) := by
  unfold inv_create at hcreate
  by_cases hst : source = target
  · rw [if_pos hst] at hcreate
    exact absurd hcreate (by simp)
  rw [if_neg hst] at hcreate
  simp only [Option.some.injEq] at hcreate
  have hwf0 : inv_wf inv0 := by
    rw [← hcreate]
    exact ⟨hst, fun _ => rfl,
      fun h => absurd h (show INV_OPEN_STATE ≠ INV_ACCEPTED_STATE by decide)⟩
  have hg0 : inv0.game = none := by rw [← hcreate]
  obtain ⟨h1, h2, h3⟩ := inv_run_wf inv0 hwf0 cs
  refine ⟨h1, ?_, h3, inv_run_game_origin inv0 hg0 cs⟩
  intro hs
  rw [h2 hs]
  rfl

theorem C32_invitation_invariants_witness :
    inv_create 1 2 FIRST_PLAYER_ROLE SECOND_PLAYER_ROLE =
      some { source := 1, target := 2, source_role := FIRST_PLAYER_ROLE,
             target_role := SECOND_PLAYER_ROLE, state := INV_OPEN_STATE, game := none } ∧
    (inv_run { source := 1, target := 2, source_role := FIRST_PLAYER_ROLE,
               target_role := SECOND_PLAYER_ROLE, state := INV_OPEN_STATE, game := none }
        [.accept, .close FIRST_PLAYER_ROLE]).state = INV_CLOSED_STATE ∧
    (inv_run { source := 1, target := 2, source_role := FIRST_PLAYER_ROLE,
               target_role := SECOND_PLAYER_ROLE, state := INV_OPEN_STATE, game := none }
        [.accept, .close FIRST_PLAYER_ROLE]).game.isSome = true ∧
    (∃ k, k ≤ [InvCall.accept, InvCall.close FIRST_PLAYER_ROLE].length ∧
      (inv_run { source := 1, target := 2, source_role := FIRST_PLAYER_ROLE,
                 target_role := SECOND_PLAYER_ROLE, state := INV_OPEN_STATE, game := none }
          ([InvCall.accept, InvCall.close FIRST_PLAYER_ROLE].take k)).state =
        INV_ACCEPTED_STATE) :=
  ⟨rfl, by decide, by decide,
   (C32_invitation_invariants 1 2 FIRST_PLAYER_ROLE SECOND_PLAYER_ROLE _ rfl
      [.accept, .close FIRST_PLAYER_ROLE]).2.2.2 (by decide)⟩

/-- C33: `inv_close` with NULL_ROLE does not look at the state.  On the
invitation made by `inv_create` and closed once, a second `inv_close` with
NULL_ROLE returns 0 although the invitation is already CLOSED; in general, for
every invitation, the call with NULL_ROLE on the same invitation put in the CLOSED
state with no game returns 0.  With another role the call on a CLOSED invitation
returns -1. -/
theorem C33_close_of_closed_returns_zero :
    ((inv_create 1 2 FIRST_PLAYER_ROLE SECOND_PLAYER_ROLE).map fun i =>
      ((inv_close i NULL_ROLE).2, (inv_close i NULL_ROLE).1.state,
        (inv_close (inv_close i NULL_ROLE).1 NULL_ROLE).2,
        (inv_close (inv_close i NULL_ROLE).1 FIRST_PLAYER_ROLE).2)) =
      some (0, INV_CLOSED_STATE, 0, -1) ∧
    (∀ inv : INVITATION,
      (inv_close { inv with state := INV_CLOSED_STATE, game := none } NULL_ROLE).2 = 0) :=
  ⟨by decide, fun _ => rfl⟩

/-! ## Theorems: the two registries -/

theorem find_by_name_of_mem (l : List PLAYER) (hn : (l.map fun q => q.name).Nodup)
    (p : PLAYER) (hp : p ∈ l) : l.find? (fun q => decide (q.name = p.name)) = some p := by
  induction l with
  | nil => exact absurd hp (List.not_mem_nil _)
  | cons q rest ih =>
    rw [List.map_cons, List.nodup_cons] at hn
    rw [List.find?_cons]
    rcases List.mem_cons.1 hp with e | hmem
    · rw [← e]
      simp
    · have hne : ¬ q.name = p.name := by
        intro e
        apply hn.1
        rw [e]
        exact List.mem_map_of_mem _ hmem
      simp only [hne, decide_False]
      exact ih hn.2 hmem

theorem find_by_name_none (l : List PLAYER) (name : String)
    (h : ∀ p ∈ l, p.name ≠ name) : l.find? (fun q => decide (q.name = name)) = none := by
  rw [List.find?_eq_none]
  intro p hp
  simpa using h p hp

theorem preg_register_names (preg : PLAYER_REGISTRY) (name : String)
    (hn : (preg.head.map fun q => q.name).Nodup)
    (hc : preg.player_count = preg.head.length) :
    ((preg_register preg name).1.head.map fun q => q.name).Nodup ∧
    (preg_register preg name).1.player_count = (preg_register preg name).1.head.length := by
  unfold preg_register
  cases hf : preg.head.find? (fun p => decide (p.name = name)) with
  | some p => exact ⟨hn, hc⟩
  | none =>
    refine ⟨?_, ?_⟩
    · show ((player_create name :: preg.head).map fun q => q.name).Nodup
      rw [List.map_cons, List.nodup_cons]
      refine ⟨?_, hn⟩
      intro hmem
      obtain ⟨q, hq, hqn⟩ := List.mem_map.1 hmem
      have := List.find?_eq_none.1 hf q hq
      simp only [decide_eq_true_eq] at this
      exact this hqn
    · show preg.player_count + 1 = ((player_create name :: preg.head).length : Int)
      rw [hc, List.length_cons]
      push_cast
      rfl

theorem preg_run_names (names : List String) (preg : PLAYER_REGISTRY)
    (hn : (preg.head.map fun q => q.name).Nodup)
    (hc : preg.player_count = preg.head.length) :
    ((preg_run preg names).head.map fun q => q.name).Nodup ∧
    (preg_run preg names).player_count = (preg_run preg names).head.length := by
  induction names generalizing preg with
  | nil => exact ⟨hn, hc⟩
  | cons name rest ih =>
    exact ih _ (preg_register_names preg name hn hc).1 (preg_register_names preg name hn hc).2

/-- C34: in a player registry in which no two players share a name,
`preg_register` with the name of a registered player returns that player and
leaves the registry as it was; with a name that no registered player has, it puts
one new player with that name and rating 1500 in front of the list, adds one to
`player_count` and returns that player; registering a name a second time returns
the player the first call returned and changes nothing.  After any sequence of
`preg_register` calls on the registry made by `preg_init`, no two registered
players share a name and `player_count` is the number of registered players. -/
theorem C34_register_or_get (preg : PLAYER_REGISTRY) (name : String) (names : List String)
    (hn : (preg.head.map fun q => q.name).Nodup) :
    (∀ p ∈ preg.head, preg_register preg p.name = (preg, p)) ∧
    ((∀ p ∈ preg.head, p.name ≠ name) →
      preg_register preg name =
        ({ head := { name := name, rating := 1500 } :: preg.head,
           player_count := preg.player_count + 1 },
         { name := name, rating := 1500 })) ∧
    preg_register (preg_register preg name).1 name =
      ((preg_register preg name).1, (preg_register preg name).2) ∧
    ((preg_run preg_init names).head.map fun q => q.name).Nodup ∧
    (preg_run preg_init names).player_count = (preg_run preg_init names).head.length := by
  refine ⟨?_, ?_, ?_, (preg_run_names names preg_init (by simp [preg_init]) rfl).1,
    (preg_run_names names preg_init (by simp [preg_init]) rfl).2⟩
  · intro p hp
    unfold preg_register
    rw [find_by_name_of_mem preg.head hn p hp]
  · intro hnew
    unfold preg_register
    rw [find_by_name_none preg.head name hnew]
    rfl
  · cases hf : preg.head.find? (fun p => decide (p.name = name)) with
    | some p =>
      have e : preg_register preg name = (preg, p) := by
        unfold preg_register
        rw [hf]
      rw [e]
      exact e
    | none =>
      have e : preg_register preg name =
          ({ head := player_create name :: preg.head, player_count := preg.player_count + 1 },
            player_create name) := by
        unfold preg_register
        rw [hf]
      rw [e]
      unfold preg_register
      simp [List.find?_cons, player_create]

theorem C34_register_or_get_witness :
    ((preg_run preg_init ["alice", "bob"]).head.map fun q => q.name).Nodup ∧
    (preg_run preg_init ["alice", "bob"]).head = [⟨"bob", 1500⟩, ⟨"alice", 1500⟩] ∧
    preg_register (preg_run preg_init ["alice", "bob"]) "alice" =
      (preg_run preg_init ["alice", "bob"], ⟨"alice", 1500⟩) ∧
    ((∀ p ∈ (preg_run preg_init ["alice", "bob"]).head, p.name ≠ "carol") ∧
     preg_register (preg_run preg_init ["alice", "bob"]) "carol" =
      ({ head := { name := "carol", rating := 1500 } :: (preg_run preg_init ["alice", "bob"]).head,
         player_count := (preg_run preg_init ["alice", "bob"]).player_count + 1 },
       { name := "carol", rating := 1500 })) :=
  ⟨by decide, by decide,
   (C34_register_or_get (preg_run preg_init ["alice", "bob"]) "carol" [] (by decide)).1
     ⟨"alice", 1500⟩ (by decide),
   by decide,
   (C34_register_or_get (preg_run preg_init ["alice", "bob"]) "carol" [] (by decide)).2.1
     (by decide)⟩

/-- C35: when `client_count` has reached MAX_CLIENTS, `creg_register` returns
`NULL` and leaves the registry as it was; otherwise it puts one new client at the
end of the list, with the given file descriptor, no player and an empty invitation
list, adds one to `client_count`, and returns that client. -/
theorem C35_creg_register (cr : CLIENT_REGISTRY) (fd : Int) (addr : Nat) :
    (cr.client_count ≥ MAX_CLIENTS → creg_register cr fd addr = (cr, none)) ∧
    (cr.client_count < MAX_CLIENTS →
      creg_register cr fd addr =
        ({ head := cr.head ++ [{ addr := addr, fd := fd, player := none, invitations := [] }],
           client_count := cr.client_count + 1 },
         some { addr := addr, fd := fd, player := none, invitations := [] })) := by
  unfold creg_register
  constructor
  · intro h
    rw [if_pos h]
  · intro h
    rw [if_neg (by omega)]
    rfl

theorem C35_creg_register_witness :
    ((registry_after 64).client_count ≥ MAX_CLIENTS ∧
     creg_register (registry_after 64) 99 77 = (registry_after 64, none)) ∧
    ((registry_after 2).client_count < MAX_CLIENTS ∧
     creg_register (registry_after 2) 6 3 =
      ({ head := (registry_after 2).head ++
           [{ addr := 3, fd := 6, player := none, invitations := [] }],
         client_count := (registry_after 2).client_count + 1 },
       some { addr := 3, fd := 6, player := none, invitations := [] })) ∧
    (registry_after 2).head =
      [{ addr := 1, fd := 4, player := none, invitations := [] },
       { addr := 2, fd := 5, player := none, invitations := [] }] :=
  ⟨⟨by decide!, (C35_creg_register (registry_after 64) 99 77).1 (by decide!)⟩,
   ⟨by decide, (C35_creg_register (registry_after 2) 6 3).2 (by decide)⟩,
   by decide⟩

theorem unregister_walk_length (l : List CLIENT) (fd : Int) (l2 : List CLIENT)
    (h : unregister_walk l fd = some l2) : l2.length + 1 = l.length := by
  induction l generalizing l2 with
  | nil => simp [unregister_walk] at h
  | cons c rest ih =>
    unfold unregister_walk at h
    by_cases hc : c.fd = fd
    · rw [if_pos hc] at h
      simp only [Option.some.injEq] at h
      rw [← h, List.length_cons]
    · rw [if_neg hc] at h
      cases hw : unregister_walk rest fd with
      | none => simp [hw] at h
      | some l3 =>
        simp only [hw, Option.map_some', Option.some.injEq] at h
        rw [← h, List.length_cons, List.length_cons, ih l3 hw]

theorem creg_exec_count (cr cr1 : CLIENT_REGISTRY) (c : CregCall)
    (hi : cr.client_count = cr.head.length) (h : c.exec cr = some cr1) :
    cr1.client_count = cr1.head.length := by
  cases c with
  | register fd addr =>
    simp only [CregCall.exec, Option.some.injEq] at h
    rw [← h]
    unfold creg_register
    by_cases hfull : cr.client_count ≥ MAX_CLIENTS
    · rw [if_pos hfull]; exact hi
    · rw [if_neg hfull]
      show cr.client_count + 1 = ((cr.head ++ [client_create addr fd]).length : Int)
      rw [hi, List.length_append]
      push_cast
      rfl
  | unregister client =>
    simp only [CregCall.exec] at h
    unfold creg_unregister at h
    cases hf : cr.head.find? (fun c => decide (c.addr = client)) with
    | none => simp [hf] at h
    | some c =>
      simp only [hf] at h
      cases hw : unregister_walk cr.head c.fd with
      | none =>
        simp only [hw, Option.some.injEq] at h
        rw [← h]; exact hi
      | some l =>
        simp only [hw, Option.some.injEq] at h
        rw [← h]
        show cr.client_count - 1 = (l.length : Int)
        have := unregister_walk_length cr.head c.fd l hw
        rw [hi]
        omega
  | set_player client p =>
    simp only [CregCall.exec, Option.some.injEq] at h
    rw [← h]
    show cr.client_count = ((cr.head.map _).length : Int)
    rw [List.length_map]
    exact hi

theorem creg_run_count (cs : List CregCall) (cr cr1 : CLIENT_REGISTRY)
    (hi : cr.client_count = cr.head.length) (h : creg_run cr cs = some cr1) :
    cr1.client_count = cr1.head.length := by
  induction cs generalizing cr with
  | nil =>
    simp only [creg_run, Option.some.injEq] at h
    rw [← h]; exact hi
  | cons c rest ih =>
    unfold creg_run at h
    cases he : c.exec cr with
    | none => simp [he] at h
    | some cr2 =>
      simp only [he] at h
      exact ih cr2 (creg_exec_count cr cr2 c hi he) h

/-- C39: in every registry state reached from `creg_init` by `creg_register` and
`creg_unregister` (and by assignments to the player of a registered client),
`client_count` is the length of the list.  So the walk of `creg_all_players` over
`client_count` nodes does not run off the list: it collects the players of the
logged-in clients, at most `client_count` of them, and the array returned has
`client_count + 1` entries, these players followed by `NULL` in every remaining
entry, at least one. -/
theorem C39_count_is_list_length (cs : List CregCall) (cr : CLIENT_REGISTRY)
    (h : creg_run creg_init cs = some cr) :
    cr.client_count = cr.head.length ∧
    creg_all_players cr = some (logged_in_players cr) ∧
    ((logged_in_players cr).length : Int) ≤ cr.client_count ∧
    creg_all_players_array cr =
      some ((logged_in_players cr).map some ++
        List.replicate (cr.head.length + 1 - (logged_in_players cr).length) none) ∧
    0 < cr.head.length + 1 - (logged_in_players cr).length := by
  have hc := creg_run_count cs creg_init cr rfl h
  have hall : all_players_loop cr.head cr.client_count.toNat =
      some (logged_in_players cr) := by
    rw [hc, Int.toNat_ofNat]
    exact all_players_loop_length _
  have hlen : (logged_in_players cr).length ≤ cr.head.length := by
    unfold logged_in_players
    exact List.length_filterMap_le _ _
  refine ⟨hc, hall, ?_, ?_, by omega⟩
  · rw [hc]
    exact_mod_cast hlen
  · unfold creg_all_players_array
    rw [hall, hc, Int.toNat_ofNat]

theorem C39_count_is_list_length_witness :
    creg_run creg_init
        [.register 4 1, .register 5 2, .set_player 2 (some ⟨"bob", 1500⟩), .register 6 3,
         .unregister 1] =
      some { head := [{ addr := 2, fd := 5, player := some ⟨"bob", 1500⟩, invitations := [] },
                      { addr := 3, fd := 6, player := none, invitations := [] }],
             client_count := 2 } ∧
    creg_all_players_array
        { head := [{ addr := 2, fd := 5, player := some ⟨"bob", 1500⟩, invitations := [] },
                   { addr := 3, fd := 6, player := none, invitations := [] }],
          client_count := 2 } =
      some [some ⟨"bob", 1500⟩, none, none] :=
  ⟨by decide,
   (C39_count_is_list_length
      [.register 4 1, .register 5 2, .set_player 2 (some ⟨"bob", 1500⟩), .register 6 3,
       .unregister 1] _ (by decide)).2.2.2.1⟩

/-! ## Theorems: shutdown of the connections -/

theorem shutdown_loop_crashes (w : World) (a : Nat) (rest : List Nat) :
    shutdown_loop w (a :: rest) = none := by
  induction rest generalizing w a with
  | nil =>
    unfold shutdown_loop shutdown_visit
    cases world_client w a <;> rfl
  | cons b rest ih =>
    unfold shutdown_loop
    cases hv : shutdown_visit w a (b :: rest) with
    | none => rfl
    | some w1 => exact ih w1 b

/-- C36: `creg_shutdown_all` does not leave the registry alone.  In its loop the
pointer is advanced before the client is tested, so the client that is logged out
is the one of the next node, the client of the visited node is freed, and after
the last node the next node is read through `NULL`: for every registry that holds
at least one client the call crashes.  On the two logged-in clients of
`two_clients_world`, the first pass of the loop logs out B and frees A.  Only for
an empty registry does the call return, and then the registry is empty. -/
theorem C36_shutdown_all_frees_and_logs_out :
    (∀ (w : World) (c : CLIENT) (l : List CLIENT) (n : Int),
      creg_shutdown_all { w with creg := { head := c :: l, client_count := n } } = none) ∧
    ((shutdown_visit two_clients_world 1 [2]).map fun w =>
      (world_client w 1, (world_client w 2).map fun b => b.player)) =
      some (none, some none) ∧
    ((creg_shutdown_all world_init).map fun w => w.creg) = some creg_init := by
  refine ⟨?_, by decide, by decide⟩
  intro w c l n
  unfold creg_shutdown_all
  show (match shutdown_loop _ (c.addr :: l.map fun c => c.addr) with
    | none => none
    | some w1 => some { w1 with creg := { head := [], client_count := 0 } }) = none
  rw [shutdown_loop_crashes]

/-! ## Theorems: two threads sending to one client -/

/-- C37: `client_send_packet` locks no mutex, and neither does `client_send_ack`;
`client_make_move` holds the mutex of the client that moves, not that of the
client it sends to.  With the thread of A sending the ACK that answers USERS and
the thread of B sending a MOVED packet to A, the schedule in which the two
threads alternate after B has locked its own mutex is possible: no step has to
wait, and the bytes on the connection of A are the ACK header, the MOVED header,
the ACK payload, the MOVED payload.  A reader then takes the first eleven bytes of
the MOVED header for the payload of the ACK.  When the thread of A finishes first,
the connection carries the two frames one after the other, and the bytes of the
ACK are those the sequential model of `client_send_ack` writes. -/
theorem C37_frames_to_one_client_interleave :
    (∀ (c : CLIENT) (pkt : JEUX_PACKET_HEADER) (data : Option (List Nat)) (m : Nat),
      SendStep.lock m ∉ client_send_packet_steps c pkt data) ∧
    users_reply_steps =
      [.write 4 (header_bytes { header_zero with type := JEUX_ACK_PKT, size := htons 11 }),
       .write 4 (string_bytes "alice\t1500\n")] ∧
    moved_notice_steps =
      [.lock 2,
       .write 4 (header_bytes { header_zero with type := JEUX_MOVED_PKT, size := htons 39 }),
       .write 4 (string_bytes " | | \n-----\n | | \n-----\n | | \nX to move"),
       .unlock 2] ∧
    ((run_two send_init users_reply_steps moved_notice_steps
        [true, false, true, false, true, true]).map fun s => s.wire 4) =
      some (header_bytes { header_zero with type := JEUX_ACK_PKT, size := htons 11 } ++
        header_bytes { header_zero with type := JEUX_MOVED_PKT, size := htons 39 } ++
        string_bytes "alice\t1500\n" ++
        string_bytes " | | \n-----\n | | \n-----\n | | \nX to move") ∧
    ((run_two send_init users_reply_steps moved_notice_steps
        [true, false, true, false, true, true]).bind fun s =>
      (wire_frames 9 (s.wire 4)).head?) =
      some ({ header_zero with type := JEUX_ACK_PKT, size := htons 11 },
        some ((header_bytes
          { header_zero with type := JEUX_MOVED_PKT, size := htons 39 }).take 11)) ∧
    ((run_two send_init users_reply_steps moved_notice_steps
        [false, false, true, true, true, true]).map fun s => wire_frames 9 (s.wire 4)) =
      some [({ header_zero with type := JEUX_ACK_PKT, size := htons 11 },
              some (string_bytes "alice\t1500\n")),
            ({ header_zero with type := JEUX_MOVED_PKT, size := htons 39 },
              some (string_bytes " | | \n-----\n | | \n-----\n | | \nX to move"))] ∧
    ((run_two send_init users_reply_steps [] [false, false]).map fun s => s.wire 4) =
      (client_send_ack two_clients_world 1 (some (string_bytes "alice\t1500\n" ++ [0])) 11).map
        fun r => r.1.wire 4 := by
  refine ⟨?_, by decide, by decide, by decide, by decide, by decide, by decide⟩
  intro c pkt data m
  unfold client_send_packet_steps proto_send_packet_steps
  by_cases hz : ntohs (htons pkt.size) > 0
  · rw [if_pos hz]
    cases data <;> simp
  · rw [if_neg hz]
    simp
/-! ## Theorems: a move that ends the game -/

theorem is_locked_congr {w1 w2 : World} (h : w1.locked = w2.locked) (a : Nat) :
    is_locked w1 a = is_locked w2 a := by
  unfold is_locked
  rw [h]

theorem client_send_packet_locked {w : World} {a : Nat} {pkt : JEUX_PACKET_HEADER}
    {data : Option (List Nat)} {s : World × JEUX_PACKET_HEADER × Int}
    (h : client_send_packet w a pkt data = some s) : s.1.locked = w.locked := by
  unfold client_send_packet at h
  cases hc : world_client w a with
  | none => simp [hc] at h
  | some c =>
    simp only [hc] at h
    cases hp : proto_send_packet (w.wire c.fd) { pkt with size := htons pkt.size } data with
    | none => simp [hp] at h
    | some r =>
      simp only [hp, Option.some.injEq] at h
      subst h
      rfl

theorem world_remove_invitation_locked {w : World} {a p : Nat} {r : World × Int}
    (h : world_remove_invitation w a p = some r) (b : Nat) (hb : is_locked w b = true) :
    is_locked r.1 b = true := by
  unfold world_remove_invitation at h
  by_cases hl : is_locked w a = true
  · rw [if_pos hl] at h
    exact absurd h (by simp)
  rw [if_neg hl] at h
  cases hc : world_client w a with
  | none => simp [hc] at h
  | some c =>
    simp only [hc] at h
    cases hq : client_remove_invitation c p with
    | none => simp [hq] at h
    | some q =>
      simp only [hq] at h
      by_cases h0 : q.2 = 0
      · rw [if_pos h0] at h
        simp only [Option.some.injEq] at h
        subst h
        exact hb
      · rw [if_neg h0] at h
        simp only [Option.some.injEq] at h
        subst h
        exact is_locked_lock_of _ a b hb

theorem make_move_ended_never_returns (w : World) (client p : Nat) (inv : INVITATION)
    (game : GAME) (hl : is_locked w client = true)
    (he : inv.source = client ∨ inv.target = client) (w1 : World) (ret : Int) :
    make_move_ended w client p inv game ≠ .returned w1 ret := by
  intro h
  unfold make_move_ended at h
  cases hc : world_client w client with
  | none =>
    rw [hc] at h
    exact Outcome.noConfusion h
  | some c =>
    rw [hc] at h
    simp only at h
    cases hs1 : client_send_packet
        (world_put_inv w p { inv with game := some (game_get_winner game).1 }) inv.source
        { header_zero with
          type := JEUX_ENDED_PKT
          id := to_uint8 (client_get_inv_id c p)
          role := to_uint8 (game_get_winner game).2.toInt
          size := 0 } none with
    | none =>
      rw [hs1] at h
      exact Outcome.noConfusion h
    | some s1 =>
      rw [hs1] at h
      simp only at h
      cases hs2 : client_send_packet s1.1 inv.target s1.2.1 none with
      | none =>
        rw [hs2] at h
        exact Outcome.noConfusion h
      | some s2 =>
        rw [hs2] at h
        simp only at h
        have hl2 : is_locked s2.1 client = true := by
          rw [is_locked_congr (client_send_packet_locked hs2),
            is_locked_congr (client_send_packet_locked hs1)]
          exact hl
        unfold remove_invitation_call at h
        by_cases hsl : is_locked s2.1 inv.source = true
        · rw [if_pos hsl] at h
          exact Outcome.noConfusion h
        rw [if_neg hsl] at h
        have htc : inv.target = client := by
          rcases he with he | he
          · rw [he] at hsl
            exact absurd hl2 hsl
          · exact he
        cases hr1 : world_remove_invitation s2.1 inv.source p with
        | none =>
          rw [hr1] at h
          exact Outcome.noConfusion h
        | some r1 =>
          rw [hr1] at h
          simp only at h
          have hl3 : is_locked r1.1 inv.target = true := by
            rw [htc]
            exact world_remove_invitation_locked hr1 client hl2
          rw [if_pos hl3] at h
          exact Outcome.noConfusion h

theorem game_unparse_state_not_over (g : GAME) (h : g.game_over = false) :
    (game_unparse_state g).1 = g := by
  unfold game_unparse_state
  rw [h]
  rfl

theorem make_move_returns_not_over (w : World) (client : Nat) (id : Int) (move : String)
    (w1 : World) (c : CLIENT) (p : Nat) (inv : INVITATION)
    (hc : world_client w client = some c) (hf : client_find_invitation c id = some p)
    (hi : world_inv w p = some inv) (he : inv.source = client ∨ inv.target = client)
    (h : client_make_move w client id move = .returned w1 0) :
    ∃ (inv1 : INVITATION) (g1 : GAME),
      world_inv w1 p = some inv1 ∧ inv1.game = some g1 ∧ g1.game_over = false := by
  unfold client_make_move at h
  by_cases hl : is_locked w client = true
  · rw [if_pos hl] at h
    exact Outcome.noConfusion h
  rw [if_neg hl, hc] at h
  simp only [hf, hi] at h
  cases hg : inv_get_game inv with
  | none =>
    rw [hg] at h
    simp only at h
    injection h with _ hret
    exact absurd hret (by decide)
  | some game =>
    rw [hg] at h
    simp only [game_parse_move] at h
    by_cases hm : (game_apply_move game
        { value := atoi move.toList
          role := if inv_get_source inv = client then inv_get_source_role inv
                  else inv_get_target_role inv }).2 ≠ 0
    · rw [if_pos hm] at h
      injection h with _ hret
      exact absurd hret (by decide)
    rw [if_neg hm] at h
    unfold make_move_finish at h
    obtain ⟨G, hG⟩ : ∃ G : GAME, G = (game_apply_move game
        { value := atoi move.toList
          role := if inv_get_source inv = client then inv_get_source_role inv
                  else inv_get_target_role inv }).1 := ⟨_, rfl⟩
    rw [← hG] at h
    cases hs : client_send_packet
        (world_put_inv (world_lock w client) p
          { inv with game := some (game_unparse_state G).1 })
        (if inv_get_source inv = client then inv_get_target inv else inv_get_source inv)
        { header_zero with
          type := JEUX_MOVED_PKT
          size := (game_unparse_state G).2.length % 65536 }
        (some (string_bytes (game_unparse_state G).2 ++ [0])) with
    | none =>
      rw [hs] at h
      exact Outcome.noConfusion h
    | some s =>
      rw [hs] at h
      simp only at h
      have hsl : is_locked s.1 client = true := by
        rw [is_locked_congr (client_send_packet_locked hs)]
        exact is_locked_lock_self w client
      by_cases hov : game_is_over (game_unparse_state G).1 = true
      · rw [if_pos hov] at h
        cases hme : make_move_ended s.1 client p inv (game_unparse_state G).1 with
        | returned r x => exact absurd hme (make_move_ended_never_returns _ _ _ _ _ hsl he r x)
        | waiting r =>
          rw [hme] at h
          exact Outcome.noConfusion h
        | crashed =>
          rw [hme] at h
          exact Outcome.noConfusion h
      · rw [if_neg hov] at h
        have hinv : world_inv s.1 p = some { inv with game := some (game_unparse_state G).1 } := by
          rw [world_inv_congr (client_send_packet_keeps hs).1]
          exact world_inv_put_inv (world_lock w client) p _
        unfold make_move_exit at h
        rw [hinv] at h
        simp only at h
        injection h with hw1 _
        have hno : (game_unparse_state G).1.game_over = false := by
          simpa [game_is_over] using hov
        refine ⟨_, _, (by rw [← hw1]; exact world_inv_put_inv s.1 p _), (by rfl), ?_⟩
        by_cases hst : decide (game.current_role ≠ NULL_ROLE) = true
        · rw [if_pos hst]
          exact hno
        · rw [if_neg hst]
          exact hno

/-- C18 (code defect): a move that ends the game posts no result at all, because
the call does not return.  A invites B with A as SECOND and B as FIRST, B accepts,
and the clients move in turn: B on 1, A on 4, B on 2, A on 5; all these calls
return 0.  The move of B on 3 completes the top row for FIRST, the role of B.
`client_make_move` holds the mutex of B since line 898; line 982 takes the
invitation off the list of A, and line 983 calls `client_remove_invitation` on B,
which waits for the mutex of B.  Line 985 is not reached: the game is over with
FIRST as the winner, and both ratings are still 1500.  The same happens when the
source has the winning role: with A as FIRST and B as SECOND, after A on 1, B on
4, A on 2, B on 5, the move of A on 3 waits at line 982, and both ratings are
still 1500.  In every state, a call of `client_make_move` by the source or the
target of the invitation that returns 0 leaves a game that is not over.  Were line
985 reached in the first run, `player_post_result` would be handed the player of
A as player 1 and the winning role 1 as the result, and would thereby raise the
rating of A, who lost, to 1516, and lower that of B to 1484. -/
theorem C18_winning_move_posts_no_result :
    (world_run world_init (invite_calls ++ [.accept 2 0, .move 2 0 "1", .move 1 0 "4",
        .move 2 0 "2", .move 1 0 "5"])).map (fun r => r.2) =
      some [0, 0, 0, 0, 0, 0, 0, 0, 0, 0] ∧
    ((world_run world_init (invite_calls ++ [.accept 2 0, .move 2 0 "1", .move 1 0 "4",
        .move 2 0 "2", .move 1 0 "5"])).map fun r => (client_make_move r.1 2 0 "3").waits) =
      some true ∧
    ((world_run world_init (invite_calls ++ [.accept 2 0, .move 2 0 "1", .move 1 0 "4",
        .move 2 0 "2", .move 1 0 "5"])).bind fun r =>
      (client_make_move r.1 2 0 "3").state.bind fun w =>
        (world_inv w 100).bind fun i => i.game.map fun g =>
          (i.source, i.source_role, i.target, i.target_role, g.game_over,
            (game_get_winner g).2)) =
      some (1, SECOND_PLAYER_ROLE, 2, FIRST_PLAYER_ROLE, true, FIRST_PLAYER_ROLE) ∧
    ((world_run world_init (invite_calls ++ [.accept 2 0, .move 2 0 "1", .move 1 0 "4",
        .move 2 0 "2", .move 1 0 "5"])).bind fun r =>
      (client_make_move r.1 2 0 "3").state.map fun w =>
        (world_rating w 1, world_rating w 2, world_invitations_of w 1,
          world_invitations_of w 2)) =
      some (some 1500, some 1500, [], [100]) ∧
    ((world_run world_init
        [.register 4 1, .register 5 2, .login 1 "alice", .login 2 "bob",
         .make_invitation 1 2 FIRST_PLAYER_ROLE SECOND_PLAYER_ROLE 100 header_zero,
         .accept 2 0, .move 1 0 "1", .move 2 0 "4", .move 1 0 "2", .move 2 0 "5"]).map fun r =>
      (r.2, (client_make_move r.1 1 0 "3").waits)) =
      some ([0, 0, 0, 0, 0, 0, 0, 0, 0, 0], true) ∧
    ((world_run world_init
        [.register 4 1, .register 5 2, .login 1 "alice", .login 2 "bob",
         .make_invitation 1 2 FIRST_PLAYER_ROLE SECOND_PLAYER_ROLE 100 header_zero,
         .accept 2 0, .move 1 0 "1", .move 2 0 "4", .move 1 0 "2", .move 2 0 "5"]).bind fun r =>
      (client_make_move r.1 1 0 "3").state.bind fun w =>
        (world_inv w 100).bind fun i => i.game.map fun g =>
          (g.game_over, (game_get_winner g).2, world_rating w 1, world_rating w 2)) =
      some (true, FIRST_PLAYER_ROLE, some 1500, some 1500) ∧
    (∀ (w : World) (client : Nat) (id : Int) (move : String) (w1 : World) (c : CLIENT)
        (p : Nat) (inv : INVITATION),
      world_client w client = some c → client_find_invitation c id = some p →
      world_inv w p = some inv → (inv.source = client ∨ inv.target = client) →
      client_make_move w client id move = .returned w1 0 →
      ∃ (inv1 : INVITATION) (g1 : GAME),
        world_inv w1 p = some inv1 ∧ inv1.game = some g1 ∧ g1.game_over = false) ∧
    (player_post_result ⟨"alice", 1500⟩ ⟨"bob", 1500⟩ FIRST_PLAYER_ROLE.toInt).map
        (fun r => (r.1.rating, r.2.rating)) = some (1516, 1484) :=
  ⟨by decide!, by decide!, by decide!, by decide!, by decide!, by decide!,
   fun w client id move w1 c p inv hc hf hi he h =>
     make_move_returns_not_over w client id move w1 c p inv hc hf hi he h,
   by decide!⟩

/-- C27 (code defect, evaluated): both ENDED frames carry the id of the invitation
in the list of the client that made the last move, and the invitation stays in
both lists, because the call does not return.  After `ended_calls`, in which every
call returns 0, the id of the invitation at address 102 is 0 in the list of A and
1 in the list of B.  A then wins with the move 3: `client_make_move` writes an
ENDED frame with role 1 and id 0 to each of the two connections, so B is sent the
id of A, not its own; then line 982 calls `client_remove_invitation` on A, whose
mutex the call holds since line 898, and waits.  The invitation is still the only
entry of the list of A and the third entry of the list of B.  In every state, a
call of `client_make_move` by the source or the target of the invitation that
returns 0 leaves a game that is not over. -/
theorem C27_ended_frames_carry_id_of_mover :
    ((world_run world_init ended_calls).bind fun r =>
      (world_client r.1 1).bind fun a => (world_client r.1 2).map fun b =>
        (r.2, client_get_inv_id a 102, client_get_inv_id b 102)) =
      some ([0, 0, 0, 0, 0, 0, 0, 0, 0, 0, 0, 0, 0, 0], 0, 1) ∧
    ((world_run world_init ended_calls).map fun r => (client_make_move r.1 1 0 "3").waits) =
      some true ∧
    (world_run world_init (ended_calls ++ [.move 1 0 "3"])).isNone = true ∧
    ((world_run world_init ended_calls).bind fun r =>
      (client_make_move r.1 1 0 "3").state.bind fun w =>
        (wire_frames 100 (w.wire 4)).getLast?.map (fun f => (f.1.type, f.1.id, f.1.role))) =
      some (JEUX_ENDED_PKT, 0, 1) ∧
    ((world_run world_init ended_calls).bind fun r =>
      (client_make_move r.1 1 0 "3").state.bind fun w =>
        (wire_frames 100 (w.wire 5)).getLast?.map (fun f => (f.1.type, f.1.id, f.1.role))) =
      some (JEUX_ENDED_PKT, 0, 1) ∧
    ((world_run world_init ended_calls).bind fun r =>
      (client_make_move r.1 1 0 "3").state.map fun w =>
        (world_invitations_of w 1, world_invitations_of w 2)) =
      some ([102], [100, 101, 102]) ∧
    (∀ (w : World) (client : Nat) (id : Int) (move : String) (w1 : World) (c : CLIENT)
        (p : Nat) (inv : INVITATION),
      world_client w client = some c → client_find_invitation c id = some p →
      world_inv w p = some inv → (inv.source = client ∨ inv.target = client) →
      client_make_move w client id move = .returned w1 0 →
      ∃ (inv1 : INVITATION) (g1 : GAME),
        world_inv w1 p = some inv1 ∧ inv1.game = some g1 ∧ g1.game_over = false) :=
  ⟨by decide!, by decide!, by decide!, by decide!, by decide!, by decide!,
   fun w client id move w1 c p inv hc hf hi he h =>
     make_move_returns_not_over w client id move w1 c p inv hc hf hi he h⟩

end Jeux
